import Mathlib

/-!
# zjos: environments, system calls, IPC and the round-robin scheduler

A shallow embedding of `kern/syscall.c` and `kern/sched.c`.  The kernel state is
an explicit value threaded through every handler; `cpunum()` is the `cpu`
argument of each function; machine words are natural numbers and the value a
handler returns is an `Int`.

Code of the repository that the handlers call but that is not part of the
verified sources (`kern/env.c`, `kern/pmap.c`, the `inc/` headers) is modelled
from the specification; each such definition says so in its doc comment.
-/

namespace Zjos

/-! ## Constants of the `inc/` headers -/

/-- Modelled from the spec: the page size of the 32-bit x86 target (`inc/mmu.h` is absent). -/
def PGSIZE : Nat := 4096

/-- Modelled from the spec: number of entries of one page table, so that one
page-table page covers `NPTENTRIES * PGSIZE` bytes (`inc/mmu.h` is absent). -/
def NPTENTRIES : Nat := 1024

/-- Modelled from the spec: `UTOP`, the upper bound of user-addressable virtual
memory (`inc/memlayout.h` is absent). -/
def UTOP : Nat := 0xeec00000

/-- Modelled from the spec: `ULIM`, the limit below which user-readable pages
live (`inc/memlayout.h` is absent). -/
def ULIM : Nat := 0xef800000

/-- Modelled from the spec: the present bit (`inc/mmu.h` is absent). -/
def PTE_P : Nat := 0x001

/-- Modelled from the spec: the writable bit (`inc/mmu.h` is absent). -/
def PTE_W : Nat := 0x002

/-- Modelled from the spec: the user-accessible bit (`inc/mmu.h` is absent). -/
def PTE_U : Nat := 0x004

/-- Modelled from the spec: the bits available for software use (`inc/mmu.h` is absent). -/
def PTE_AVAIL : Nat := 0xE00

/-- Modelled from the spec: the permission bits a user process may manipulate,
user/present/writable/available-for-software (`inc/mmu.h` is absent). -/
def PTE_SYSCALL : Nat := PTE_AVAIL ||| PTE_P ||| PTE_W ||| PTE_U

/-- Modelled from the spec: status `FREE` (`inc/env.h` is absent; the statuses
are numbered in the order the spec lists them). -/
def ENV_FREE : Nat := 0

/-- Modelled from the spec: status `DYING` (`inc/env.h` is absent). -/
def ENV_DYING : Nat := 1

/-- Modelled from the spec: status `RUNNABLE` (`inc/env.h` is absent). -/
def ENV_RUNNABLE : Nat := 2

/-- Modelled from the spec: status `RUNNING` (`inc/env.h` is absent). -/
def ENV_RUNNING : Nat := 3

/-- Modelled from the spec: status `NOT_RUNNABLE` (`inc/env.h` is absent). -/
def ENV_NOT_RUNNABLE : Nat := 4

/-- Modelled from the spec: type `USER` (`inc/env.h` is absent; the types are
numbered in the order the spec lists them). -/
def ENV_TYPE_USER : Nat := 0

/-- Modelled from the spec: type `IDLE` (`inc/env.h` is absent). -/
def ENV_TYPE_IDLE : Nat := 1

/-- Modelled from the spec: error kind `E_BAD_ENV` (`inc/error.h` is absent). -/
def E_BAD_ENV : Int := 2

/-- Modelled from the spec: error kind `E_INVAL` (`inc/error.h` is absent). -/
def E_INVAL : Int := 3

/-- Modelled from the spec: error kind `E_NO_MEM` (`inc/error.h` is absent). -/
def E_NO_MEM : Int := 4

/-- Modelled from the spec: error kind `E_NO_FREE_ENV` (`inc/error.h` is absent). -/
def E_NO_FREE_ENV : Int := 5

/-- Modelled from the spec: error kind `E_IPC_NOT_RECV` (`inc/error.h` is absent). -/
def E_IPC_NOT_RECV : Int := 7

/-- Modelled from the spec: the macro `ROUNDDOWN(a, n)` of the absent
`inc/types.h`, the largest multiple of `n` that is at most `a`. -/
def ROUNDDOWN (a n : Nat) : Nat := a - a % n

/-- The C operator `~x` on a 32-bit word. -/
def not32 (x : Nat) : Nat := 0xFFFFFFFF ^^^ x

/-- Modelled from the spec: the macro `PGNUM(va)` of the absent `inc/mmu.h`, the
page number of a virtual address. -/
def PGNUM (va : Nat) : Nat := va / PGSIZE

/-- Modelled from the spec: the macro `PDX(va)` of the absent `inc/mmu.h`, the
page-directory index of a virtual address. -/
def PDX (va : Nat) : Nat := va / (NPTENTRIES * PGSIZE)

/-! ## Data model -/

/-- Modelled from the spec: the saved user-mode register file (`inc/trap.h` is
absent): the return-value register and, as one value, every other register. -/
structure Trapframe where
  reg_eax : Nat
  tf_rest : Nat
deriving DecidableEq, Inhabited

/-- One page-table entry: the physical frame and the permission bits the
mapping was inserted with. -/
structure Pte where
  pp : Nat
  perm : Nat
deriving DecidableEq, Inhabited

/-- Modelled from the spec: the permission bits of the hardware entry `*pte`
(`kern/pmap.c` is absent): the bits the mapping was inserted with, and the
present bit, which the paging layer supplies. -/
def Pte.bits (p : Pte) : Nat := p.perm ||| PTE_P

/-- Modelled from the spec: the address space of an environment (`kern/pmap.c`
is absent).  `pgdir_frame` is the frame of the page directory, none for an
environment that owns no directory; `pgtables` lists the page-directory slots
that own a page-table page, with the frame of that page; `ptes` maps a page
number to its entry; a page is mapped exactly when it has an entry. -/
structure Pgdir where
  pgdir_frame : Option Nat
  pgtables : List (Nat × Nat)
  ptes : List (Nat × Pte)
deriving DecidableEq, Inhabited

/-- Modelled from the spec: one slot of the environment table, `struct Env`
(`inc/env.h` is absent), with the attributes of the spec's data model under the
field names the handlers use. -/
structure Env where
  env_tf : Trapframe
  env_id : Nat
  env_parent_id : Nat
  env_type : Nat
  env_status : Nat
  env_cpunum : Nat
  env_pgdir : Pgdir
  env_pgfault_upcall : Nat
  env_ipc_recving : Nat
  env_ipc_dstva : Nat
  env_ipc_value : Nat
  env_ipc_from : Nat
  env_ipc_perm : Nat
deriving DecidableEq, Inhabited

/-- Modelled from the spec: per-CPU state, `struct Cpu` (`kern/cpu.h` is
absent): the slot of the environment this CPU is executing (`cpu_env`, a
pointer into `envs`, or `none` for `NULL`). -/
structure Cpu where
  cpu_env : Option Nat
deriving DecidableEq, Inhabited

/-- The kernel state: the environment table `envs`, the CPU table `cpus`, the
physical allocator (`page_free_list` and the reference count of every frame),
the contents of every frame (`pp_data`: the bytes that are not zero, by offset
in the frame, so that the empty list is the zero-filled page), and the
characters waiting on the console. -/
structure Kernel where
  envs : List Env
  cpus : List Cpu
  page_free_list : List Nat
  pp_ref : List Nat
  pp_data : List (List (Nat × Nat))
  cons_input : List Nat
deriving DecidableEq, Inhabited

/-- The size `NENV` of the environment table; the constant of the absent
`inc/env.h` is a parameter of the state, the length of `envs` (likewise `NCPU`
is the length of `cpus`). -/
def NENV (k : Kernel) : Nat := k.envs.length

/-- Modelled from the spec: the macro `ENVX(envid)` of the absent `inc/env.h`,
the slot index held in the low bits of an environment id. -/
def ENVX (k : Kernel) (envid : Nat) : Nat := envid % NENV k

/-- The entry `envs[i]`. -/
def env (k : Kernel) (i : Nat) : Env := k.envs.getD i default

/-- Modelled from the spec: the macro `curenv` of the absent `kern/env.h`, the
environment this CPU most recently ran (`thiscpu->cpu_env`). -/
def curenv (k : Kernel) (cpu : Nat) : Option Nat := (k.cpus.getD cpu default).cpu_env

/-- Store `e` into `envs[i]`. -/
def setEnv (k : Kernel) (i : Nat) (e : Env) : Kernel := { k with envs := k.envs.set i e }

/-- How a kernel entry ends. -/
inductive Outcome where
  /-- The handler returns the value `r` to its caller. -/
  | ret (r : Int) (k : Kernel)
  /-- The function `env_run` was reached: the CPU leaves the kernel and resumes its `curenv`. -/
  | run (k : Kernel)
  /-- The scheduler dropped into the kernel monitor. -/
  | monitor (k : Kernel)
  /-- The kernel stopped in `panic` (or in a failed `assert`). -/
  | panic (k : Kernel)
deriving DecidableEq

deriving instance DecidableEq for Except

/-! ## The paging layer (`kern/pmap.c`) -/

/-- Modelled from the spec: the flag `ALLOC_ZERO` of the absent `kern/pmap.h`. -/
def ALLOC_ZERO : Nat := 1

/-- Modelled from the spec: `page_alloc` of the absent `kern/pmap.c` takes a
frame off the free list, or yields none when the list is empty; with
`ALLOC_ZERO` the frame is filled with zeros. -/
def page_alloc (k : Kernel) (alloc_flags : Nat) : Option (Nat × Kernel) :=
  match k.page_free_list with
  | [] => none
  | pp :: rest =>
    if alloc_flags &&& ALLOC_ZERO ≠ 0 then
      some (pp, { k with page_free_list := rest, pp_data := k.pp_data.set pp [] })
    else some (pp, { k with page_free_list := rest })

/-- Modelled from the spec: `page_free` of the absent `kern/pmap.c` gives a
frame back to the free list. -/
def page_free (k : Kernel) (pp : Nat) : Kernel :=
  { k with page_free_list := pp :: k.page_free_list }

/-- Modelled from the spec: `page_decref` of the absent `kern/pmap.c` drops one
reference to a frame and frees the frame when no reference is left. -/
def page_decref (k : Kernel) (pp : Nat) : Kernel :=
  let r := k.pp_ref.getD pp 0 - 1
  let k1 := { k with pp_ref := k.pp_ref.set pp r }
  if r = 0 then page_free k1 pp else k1

/-- Modelled from the spec: `page_lookup` of the absent `kern/pmap.c` returns
the entry mapped at `va` in the address space of `envs[e]`, if any. -/
def page_lookup (k : Kernel) (e : Nat) (va : Nat) : Option Pte :=
  (env k e).env_pgdir.ptes.lookup (PGNUM va)

/-- Modelled from the spec: `page_remove` of the absent `kern/pmap.c` unmaps
the page at `va` in the address space of `envs[e]` and drops its reference; it
does nothing when no page is mapped there. -/
def page_remove (k : Kernel) (e : Nat) (va : Nat) : Kernel :=
  match page_lookup k e va with
  | none => k
  | some pte =>
    let k1 := page_decref k pte.pp
    let en := env k1 e
    setEnv k1 e { en with env_pgdir :=
      { en.env_pgdir with ptes := en.env_pgdir.ptes.filter (fun m => m.1 != PGNUM va) } }

/-- Modelled from the spec: `pgdir_walk` of the absent `kern/pmap.c`, called
to create: when the page-table page for `va` is missing in the address space of
`envs[e]` one is allocated, and the walk fails when no frame is free. -/
def pgdir_walk_create (k : Kernel) (e : Nat) (va : Nat) : Option Kernel :=
  if ((env k e).env_pgdir.pgtables.lookup (PDX va)).isSome then some k
  else
    match page_alloc k ALLOC_ZERO with
    | none => none
    | some (pt, k1) =>
      let k2 := { k1 with pp_ref := k1.pp_ref.set pt 1 }
      some (setEnv k2 e { env k2 e with env_pgdir :=
        { (env k2 e).env_pgdir with pgtables := (PDX va, pt) :: (env k2 e).env_pgdir.pgtables } })

/-- Modelled from the spec: one more reference to the frame `pp` (`pp->pp_ref++`
in the absent `kern/pmap.c`). -/
def page_incref (k : Kernel) (pp : Nat) : Kernel :=
  { k with pp_ref := k.pp_ref.set pp (k.pp_ref.getD pp 0 + 1) }

/-- Modelled from the spec: the store `*pte = ...` of the absent `kern/pmap.c`:
the page of `va` in the address space of `envs[e]` gets the entry `pte`. -/
def setPte (k : Kernel) (e : Nat) (va : Nat) (pte : Pte) : Kernel :=
  setEnv k e { env k e with env_pgdir :=
    { (env k e).env_pgdir with ptes := (PGNUM va, pte) :: (env k e).env_pgdir.ptes } }

/-- Modelled from the spec: `page_insert` of the absent `kern/pmap.c` maps the
frame `pp` at `va` with permission `perm` in the address space of `envs[e]`.
It fails with `-E_NO_MEM`, changing nothing, when the page-table page for `va`
is missing and cannot be allocated; a page already mapped at `va` is unmapped. -/
def page_insert (k : Kernel) (e : Nat) (pp : Nat) (va : Nat) (perm : Nat) : Except Int Kernel :=
  match pgdir_walk_create k e va with
  | none => .error (-E_NO_MEM)
  | some k1 => .ok (setPte (page_remove (page_incref k1 pp) e va) e va { pp := pp, perm := perm })

/-! ## Environments (`kern/env.c`) and the scheduler (`kern/sched.c`) -/

/-- Modelled from the spec: `env_run` of the absent `kern/env.c`, the dispatch
step.  The environment this CPU was executing goes from `RUNNING` back to
`RUNNABLE`; `envs[e]` becomes this CPU's `curenv` with `status ← RUNNING` and
`cpu ← self`. -/
def env_run (k : Kernel) (cpu : Nat) (e : Nat) : Kernel :=
  let k1 := match curenv k cpu with
    | none => k
    | some c =>
      if (env k c).env_status = ENV_RUNNING
      then setEnv k c { env k c with env_status := ENV_RUNNABLE }
      else k
  let k2 := { k1 with cpus := k1.cpus.set cpu { cpu_env := some e } }
  setEnv k2 e { env k2 e with env_status := ENV_RUNNING, env_cpunum := cpu }

/-- The first loop of `sched_yield`, from slot `i` on: the slot handed to
`env_run`, or none when the loop reaches `curenv_id` again.  `fuel` bounds the
number of iterations; `NENV` iterations are never exceeded when
`curenv_id < NENV`. -/
def sched_search (k : Kernel) (thiscpu_id curenv_id : Nat) : Nat → Nat → Option Nat
  | 0, _ => none
  | fuel + 1, i =>
    if i = curenv_id then none
    else if (env k i).env_status = ENV_TYPE_IDLE ∨
        (env k i).env_status = ENV_RUNNING ∨
        i = thiscpu_id then
      sched_search k thiscpu_id curenv_id fuel ((i + 1) % NENV k)
    else if (env k i).env_status = ENV_RUNNABLE then some i
    else sched_search k thiscpu_id curenv_id fuel ((i + 1) % NENV k)

/-- The function `sched_yield` of `kern/sched.c`, run on CPU `cpu`. -/
def sched_yield (k : Kernel) (cpu : Nat) : Outcome :=
  let thiscpu_id := cpu
  let curenv_id := match curenv k cpu with
    | none => thiscpu_id
    | some c => ENVX k (env k c).env_id
  match sched_search k thiscpu_id curenv_id (NENV k) ((curenv_id + 1) % NENV k) with
  | some i => .run (env_run k cpu i)
  | none =>
    if (env k curenv_id).env_status = ENV_RUNNING then
      .run (env_run k cpu curenv_id)
    else if ¬ k.envs.any (fun e => e.env_type != ENV_TYPE_IDLE &&
        (e.env_status == ENV_RUNNABLE || e.env_status == ENV_RUNNING)) then
      .monitor k
    else if ¬ ((env k thiscpu_id).env_status = ENV_RUNNABLE ∨
        (env k thiscpu_id).env_status = ENV_RUNNING) then
      .panic k
    else .run (env_run k cpu thiscpu_id)

/-- Modelled from the spec: `env_free` of the absent `kern/env.c` reclaims the
address space of `envs[e]` (drops the reference of every mapped page, frees
the page-table pages and the directory) and marks the slot `FREE`. -/
def env_free (k : Kernel) (e : Nat) : Kernel :=
  let pd := (env k e).env_pgdir
  let k1 := pd.ptes.foldl (fun acc m => page_decref acc m.2.pp) k
  let k2 := pd.pgtables.foldl (fun acc t => page_decref acc t.2) k1
  let k3 := match pd.pgdir_frame with
    | none => k2
    | some f => page_decref k2 f
  setEnv k3 e { env k3 e with
    env_status := ENV_FREE,
    env_pgdir := { pgdir_frame := none, pgtables := [], ptes := [] } }

/-- Modelled from the spec: `env_destroy` of the absent `kern/env.c`.  The
target goes to `DYING`, its address space is reclaimed and the slot becomes
`FREE`; when the target is the current environment of this CPU the CPU is left
without a current environment and the scheduler is invoked, which does not
return. -/
def env_destroy (k : Kernel) (cpu : Nat) (e : Nat) : Outcome :=
  let k1 := setEnv k e { env k e with env_status := ENV_DYING }
  let k2 := env_free k1 e
  if curenv k cpu = some e then
    sched_yield { k2 with cpus := k2.cpus.set cpu { cpu_env := none } } cpu
  else .ret 0 k2

/-- Modelled from the spec: `user_mem_check` of the absent `kern/pmap.c`: every
page of `[va, va+len)` lies below `ULIM` and is mapped in the address space of
`envs[e]` with all the bits of `perm`. -/
def user_mem_check (k : Kernel) (e : Nat) (va len perm : Nat) : Bool :=
  (List.range (PGNUM (va + len + PGSIZE - 1) - PGNUM va)).all fun j =>
    let a := (PGNUM va + j) * PGSIZE
    decide (a < ULIM) &&
    match page_lookup k e a with
    | none => false
    | some pte => pte.bits &&& perm == perm

/-- Modelled from the spec: `user_mem_assert` of the absent `kern/pmap.c`: when
the check of `[va, va+len)` fails the environment `envs[e]` is destroyed.  The
result is `ret` when execution continues after the call. -/
def user_mem_assert (k : Kernel) (cpu : Nat) (e : Nat) (va len perm : Nat) : Outcome :=
  if user_mem_check k e va len (perm ||| PTE_U) then .ret 0 k
  else env_destroy k cpu e

/-- Modelled from the spec: `envid2env` of the absent `kern/env.c`, the
capability check `resolve(caller, envid, check)`.  Id `0` is the caller; any
other id indexes the table by its slot bits and is rejected with `-E_BAD_ENV`
when the slot is `FREE` or holds another id, or, with `checkperm`, when the
target is neither the caller nor a child of the caller. -/
def envid2env (k : Kernel) (cur : Nat) (envid : Nat) (checkperm : Bool) : Except Int Nat :=
  if envid = 0 then .ok cur
  else
    let e := ENVX k envid
    if (env k e).env_status = ENV_FREE ∨ (env k e).env_id ≠ envid then .error (-E_BAD_ENV)
    else if checkperm ∧ e ≠ cur ∧ (env k e).env_parent_id ≠ (env k cur).env_id then
      .error (-E_BAD_ENV)
    else .ok e

/-- Modelled from the spec: `env_alloc` of the absent `kern/env.c`.  It takes
the first `FREE` slot (`-E_NO_FREE_ENV` when there is none) and a frame for
the page directory (`-E_NO_MEM` when there is none), gives the slot a fresh id
(the generation above the slot bits advances), records the parent, and installs
an empty address space. -/
def env_alloc (k : Kernel) (parent_id : Nat) : Except Int (Nat × Kernel) :=
  match k.envs.findIdx? (fun e => e.env_status == ENV_FREE) with
  | none => .error (-E_NO_FREE_ENV)
  | some slot =>
    match page_alloc k ALLOC_ZERO with
    | none => .error (-E_NO_MEM)
    | some (pd, k1) =>
      let old := env k1 slot
      let e : Env := { old with
        env_id := (old.env_id / NENV k + 1) * NENV k + slot,
        env_parent_id := parent_id,
        env_type := ENV_TYPE_USER,
        env_status := ENV_RUNNABLE,
        env_pgdir := { pgdir_frame := some pd, pgtables := [], ptes := [] },
        env_pgfault_upcall := 0,
        env_ipc_recving := 0 }
      .ok (slot, setEnv { k1 with pp_ref := k1.pp_ref.set pd 1 } slot e)

/-! ## System calls (`kern/syscall.c`) -/

/-- A 32-bit word read as a signed `int`. -/
def toS32 (n : Nat) : Int := if n % 2 ^ 32 < 2 ^ 31 then (n % 2 ^ 32 : Nat) else (n % 2 ^ 32 : Nat) - 2 ^ 32

/-- The handler `sys_cputs`; a `ret` outcome means the handler returned (it has
no value). -/
def sys_cputs (k : Kernel) (cpu cur : Nat) (s len : Nat) : Outcome :=
  user_mem_assert k cpu cur s len (PTE_U ||| PTE_P)

/-- Modelled from the spec: `cons_getc` of the absent `kern/console.c`, the
non-blocking console read: the next waiting character, or 0 when none waits. -/
def cons_getc (k : Kernel) : Nat × Kernel :=
  match k.cons_input with
  | [] => (0, k)
  | c :: rest => (c, { k with cons_input := rest })

/-- The handler `sys_cgetc`. -/
def sys_cgetc (k : Kernel) : Outcome :=
  .ret (toS32 (cons_getc k).1) (cons_getc k).2

/-- The handler `sys_getenvid`. -/
def sys_getenvid (k : Kernel) (cur : Nat) : Outcome :=
  .ret (toS32 (env k cur).env_id) k

/-- The handler `sys_env_destroy`. -/
def sys_env_destroy (k : Kernel) (cpu cur : Nat) (envid : Nat) : Outcome :=
  match envid2env k cur envid true with
  | .error r => .ret r k
  | .ok e =>
    match env_destroy k cpu e with
    | .ret _ k1 => .ret 0 k1
    | o => o

/-- The handler `sys_yield`. -/
def sys_yield (k : Kernel) (cpu : Nat) : Outcome :=
  sched_yield k cpu

/-- The handler `sys_exofork`. -/
def sys_exofork (k : Kernel) (cur : Nat) : Outcome :=
  match env_alloc k (env k cur).env_id with
  | .error errno => .ret errno k
  | .ok (newenv, k1) =>
    let e1 := { env k1 newenv with env_status := ENV_NOT_RUNNABLE }
    let e2 := { e1 with env_tf := (env k1 cur).env_tf }
    let e3 := { e2 with env_tf := { e2.env_tf with reg_eax := 0 } }
    .ret (toS32 e3.env_id) (setEnv k1 newenv e3)

/-- The handler `sys_env_set_status`. -/
def sys_env_set_status (k : Kernel) (cur : Nat) (envid status : Nat) : Outcome :=
  match envid2env k cur envid true with
  | .error errno => .ret errno k
  | .ok target_env =>
    if status ≠ ENV_RUNNABLE ∧ status ≠ ENV_NOT_RUNNABLE then .ret (-E_INVAL) k
    else .ret 0 (setEnv k target_env { env k target_env with env_status := status })

/-- The handler `sys_env_set_pgfault_upcall`. -/
def sys_env_set_pgfault_upcall (k : Kernel) (cpu cur : Nat) (envid func : Nat) : Outcome :=
  match envid2env k cur envid true with
  | .error errno => .ret errno k
  | .ok target_env =>
    match user_mem_assert k cpu target_env func 4 PTE_U with
    | .ret _ k1 =>
      .ret 0 (setEnv k1 target_env { env k1 target_env with env_pgfault_upcall := func })
    | o => o

/-- The handler `sys_page_alloc`.  The result of `page_alloc` is used unchecked:
with no free frame `newpage` is `NULL` and the paging layer dereferences it,
which is a fault in kernel mode. -/
def sys_page_alloc (k : Kernel) (cur : Nat) (envid va perm : Nat) : Outcome :=
  if not32 PTE_SYSCALL &&& perm ≠ 0 then .ret (-E_INVAL) k
  else if perm &&& PTE_U = 0 then .ret (-E_INVAL) k
  else if va ≥ UTOP then .ret (-E_INVAL) k
  else if ROUNDDOWN va PGSIZE ≠ va then .ret (-E_INVAL) k
  else
    match envid2env k cur envid true with
    | .error errno => .ret errno k
    | .ok target_env =>
      match page_alloc k ALLOC_ZERO with
      | none => .panic k
      | some (newpage, k1) =>
        match page_insert k1 target_env newpage va perm with
        | .error errno => .ret errno (page_free k1 newpage)
        | .ok k2 => .ret 0 k2

/-- The handler `sys_page_map`. -/
def sys_page_map (k : Kernel) (cur : Nat) (srcenvid srcva dstenvid dstva perm : Nat) : Outcome :=
  if srcva ≥ UTOP ∨ dstva ≥ UTOP ∨
      ROUNDDOWN srcva PGSIZE ≠ srcva ∨
      ROUNDDOWN dstva PGSIZE ≠ dstva then .ret (-E_INVAL) k
  else if not32 PTE_SYSCALL &&& perm ≠ 0 then .ret (-E_INVAL) k
  else if perm &&& PTE_U = 0 then .ret (-E_INVAL) k
  else
    match envid2env k cur srcenvid true with
    | .error errno => .ret errno k
    | .ok srcenv =>
      match envid2env k cur dstenvid true with
      | .error errno => .ret errno k
      | .ok dstenv =>
        match page_lookup k srcenv srcva with
        | none => .ret (-E_INVAL) k
        | some src_pte =>
          if src_pte.bits &&& PTE_W = 0 ∧ perm &&& PTE_W ≠ 0 then .ret (-E_INVAL) k
          else
            match page_insert k dstenv src_pte.pp dstva perm with
            | .error errno => .ret errno k
            | .ok k1 => .ret 0 k1

/-- The handler `sys_page_unmap`. -/
def sys_page_unmap (k : Kernel) (cur : Nat) (envid va : Nat) : Outcome :=
  if va ≥ UTOP ∨ ROUNDDOWN va PGSIZE ≠ va then .ret (-E_INVAL) k
  else
    match envid2env k cur envid true with
    | .error errno => .ret errno k
    | .ok target_env => .ret 0 (page_remove k target_env va)

/-- The label `set_value_ontarget` of `sys_ipc_try_send`: the delivery step. -/
def set_value_ontarget (k : Kernel) (cur target_env : Nat) (value perm : Nat) (errno : Int) :
    Outcome :=
  let t := env k target_env
  .ret errno (setEnv k target_env { t with
    env_ipc_recving := 0,
    env_ipc_from := (env k cur).env_id,
    env_ipc_value := value,
    env_ipc_perm := perm,
    env_status := ENV_RUNNABLE })

/-- The handler `sys_ipc_try_send`. -/
def sys_ipc_try_send (k : Kernel) (cur : Nat) (envid value srcva perm : Nat) : Outcome :=
  match envid2env k cur envid false with
  | .error errno => .ret errno k
  | .ok target_env =>
    if (env k target_env).env_ipc_recving = 0 then .ret (-E_IPC_NOT_RECV) k
    else if (env k target_env).env_status ≠ ENV_NOT_RUNNABLE then .panic k
    else if ¬ (srcva < UTOP) then set_value_ontarget k cur target_env value 0 0
    else if ¬ ((env k target_env).env_ipc_dstva < UTOP) then
      set_value_ontarget k cur target_env value 0 0
    else if ROUNDDOWN srcva PGSIZE ≠ srcva then .ret (-E_INVAL) k
    else if perm &&& PTE_U = 0 ∨ not32 PTE_SYSCALL &&& perm ≠ 0 then .ret (-E_INVAL) k
    else
      match page_lookup k cur srcva with
      | none => .ret (-E_INVAL) k
      | some sentpage_pte =>
        if perm &&& PTE_W ≠ 0 ∧ sentpage_pte.bits &&& PTE_W = 0 then .ret (-E_INVAL) k
        else
          match page_insert k target_env sentpage_pte.pp (env k target_env).env_ipc_dstva perm with
          | .error errno => .ret errno k
          | .ok k1 => set_value_ontarget k1 cur target_env value perm 0

/-- The handler `sys_ipc_recv`.  The scheduler does not return, so the `panic`
after the call is reached only if it did. -/
def sys_ipc_recv (k : Kernel) (cpu cur : Nat) (dstva : Nat) : Outcome :=
  if dstva < UTOP ∧ ROUNDDOWN dstva PGSIZE ≠ dstva then .ret (-E_INVAL) k
  else
    let c := env k cur
    let k1 := setEnv k cur { c with
      env_ipc_recving := 1,
      env_ipc_dstva := dstva,
      env_status := ENV_NOT_RUNNABLE,
      env_tf := { c.env_tf with reg_eax := 0 } }
    match sched_yield k1 cpu with
    | .ret _ k2 => .panic k2
    | o => o

/-- The handler `sys_get_cpuid`. -/
def sys_get_cpuid (k : Kernel) (cpu : Nat) : Outcome :=
  .ret (toS32 cpu) k

/-- Modelled from the spec: the system-call numbers, as the table of the system
call surface numbers them (`inc/syscall.h` is absent). -/
def SYS_cputs : Nat := 1

/-- Modelled from the spec: system-call number (`inc/syscall.h` is absent). -/
def SYS_cgetc : Nat := 2

/-- Modelled from the spec: system-call number (`inc/syscall.h` is absent). -/
def SYS_getenvid : Nat := 3

/-- Modelled from the spec: system-call number (`inc/syscall.h` is absent). -/
def SYS_env_destroy : Nat := 4

/-- Modelled from the spec: system-call number (`inc/syscall.h` is absent). -/
def SYS_yield : Nat := 5

/-- Modelled from the spec: system-call number (`inc/syscall.h` is absent). -/
def SYS_exofork : Nat := 6

/-- Modelled from the spec: system-call number (`inc/syscall.h` is absent). -/
def SYS_env_set_status : Nat := 7

/-- Modelled from the spec: system-call number (`inc/syscall.h` is absent). -/
def SYS_page_alloc : Nat := 8

/-- Modelled from the spec: system-call number (`inc/syscall.h` is absent). -/
def SYS_page_map : Nat := 9

/-- Modelled from the spec: system-call number (`inc/syscall.h` is absent). -/
def SYS_page_unmap : Nat := 10

/-- Modelled from the spec: system-call number (`inc/syscall.h` is absent). -/
def SYS_env_set_pgfault_upcall : Nat := 11

/-- Modelled from the spec: system-call number (`inc/syscall.h` is absent). -/
def SYS_ipc_try_send : Nat := 12

/-- Modelled from the spec: system-call number (`inc/syscall.h` is absent). -/
def SYS_ipc_recv : Nat := 13

/-- Modelled from the spec: system-call number (`inc/syscall.h` is absent). -/
def SYS_get_cpuid : Nat := 14

/-- The value `errno` keeps after a handler of type `void` returned. -/
def voidRet (o : Outcome) : Outcome :=
  match o with
  | .ret _ k => .ret 0 k
  | o => o

/-- The dispatcher `syscall`, entered on CPU `cpu` by the environment that CPU
is executing.  A system call is a trap from user mode, so the CPU has a current
environment.  The case without one is outside the model and ends in `panic`
for every number: there the handlers that read `curenv` fault, while the C
function still answers an unknown number with `-E_INVAL` and runs the handlers
that do not read `curenv`. -/
def syscall (k : Kernel) (cpu : Nat) (syscallno a1 a2 a3 a4 a5 : Nat) : Outcome :=
  match curenv k cpu with
  | none => .panic k
  | some cur =>
    if syscallno = SYS_cputs then voidRet (sys_cputs k cpu cur a1 a2)
    else if syscallno = SYS_cgetc then sys_cgetc k
    else if syscallno = SYS_getenvid then sys_getenvid k cur
    else if syscallno = SYS_env_destroy then sys_env_destroy k cpu cur a1
    else if syscallno = SYS_yield then voidRet (sys_yield k cpu)
    else if syscallno = SYS_exofork then sys_exofork k cur
    else if syscallno = SYS_env_set_status then sys_env_set_status k cur a1 a2
    else if syscallno = SYS_page_alloc then sys_page_alloc k cur a1 a2 a3
    else if syscallno = SYS_page_map then sys_page_map k cur a1 a2 a3 a4 a5
    else if syscallno = SYS_page_unmap then sys_page_unmap k cur a1 a2
    else if syscallno = SYS_env_set_pgfault_upcall then
      sys_env_set_pgfault_upcall k cpu cur a1 a2
    else if syscallno = SYS_ipc_try_send then sys_ipc_try_send k cur a1 a2 a3 a4
    else if syscallno = SYS_ipc_recv then sys_ipc_recv k cpu cur a1
    else if syscallno = SYS_get_cpuid then sys_get_cpuid k cpu
    else .ret (-E_INVAL) k

/-- The kernel state an outcome leaves. -/
def Outcome.state : Outcome → Kernel
  | .ret _ k => k
  | .run k => k
  | .monitor k => k
  | .panic k => k

/-! ## Vocabulary of the properties -/

/-- The id `envid` resolves for the caller `envs[cur]` (with or without the
capability check). -/
def resolves (k : Kernel) (cur envid : Nat) (checkperm : Bool) : Bool :=
  match envid2env k cur envid checkperm with
  | .ok _ => true
  | .error _ => false

/-- The word `perm` has a bit that lies outside the mask `mask`. -/
def hasBitOutside (perm mask : Nat) : Prop :=
  ∃ i, i < 32 ∧ perm.testBit i = true ∧ mask.testBit i = false

/-- Every bit of `perm` lies inside the mask `mask`. -/
def bitsWithin (perm mask : Nat) : Prop :=
  ∀ i, perm.testBit i = true → mask.testBit i = true

/-- The address `va` is a multiple of the page size. -/
def pageAligned (va : Nat) : Prop := va % PGSIZE = 0

instance pageAlignedDecidable : DecidablePred pageAligned :=
  fun va => inferInstanceAs (Decidable (va % PGSIZE = 0))

/-- The permission and the address pass the static checks of the VM system
calls: `perm` has `PTE_U` and no bit outside `PTE_SYSCALL`, `va` is page-aligned
and below `UTOP`. -/
def staticOK (va perm : Nat) : Prop :=
  bitsWithin perm PTE_SYSCALL ∧ perm &&& PTE_U ≠ 0 ∧ va < UTOP ∧ pageAligned va

/-- The environment `e` apart from its address space. -/
def Env.noPgdir (e : Env) : Env := { e with env_pgdir := default }

/-- The states `k` and `k1` have the same environment table except for the
address space of slot `t`. -/
def pgdirFrame (k k1 : Kernel) (t : Nat) : Prop :=
  k1.envs.length = k.envs.length ∧ k1.cpus = k.cpus ∧
    (∀ i, i ≠ t → env k1 i = env k i) ∧ (env k1 t).noPgdir = (env k t).noPgdir

/-- One call of `sys_ipc_try_send`: the slot of the sender and the four
arguments. -/
structure SendCall where
  cur : Nat
  envid : Nat
  value : Nat
  srcva : Nat
  perm : Nat
deriving DecidableEq

/-- The call `c` executed in state `k`. -/
def SendCall.run (c : SendCall) (k : Kernel) : Outcome :=
  sys_ipc_try_send k c.cur c.envid c.value c.srcva c.perm

/-- The calls executed one after the other under the big kernel lock, each in
the state its predecessor left: the list of their outcomes. -/
def runSends (k : Kernel) : List SendCall → List Outcome
  | [] => []
  | c :: cs => c.run k :: runSends (c.run k).state cs

/-- Unique execution: two environments that have status `RUNNING` with the
same `env_cpunum` are one environment (for each CPU at most one environment is
`RUNNING` on it), and no environment is executed by two CPUs at once (no two
CPUs have the same current environment). -/
def uniqueExecution (k : Kernel) : Prop :=
  (∀ i, i < NENV k → ∀ j, j < NENV k →
    (env k i).env_status = ENV_RUNNING ∧ (env k j).env_status = ENV_RUNNING ∧
      (env k i).env_cpunum = (env k j).env_cpunum → i = j) ∧
  (∀ c, c < k.cpus.length → ∀ d, d < k.cpus.length →
    curenv k c ≠ none → curenv k c = curenv k d → c = d)

instance uniqueExecutionDecidable (k : Kernel) : Decidable (uniqueExecution k) := by
  unfold uniqueExecution
  infer_instance

/-- The receiver-state invariant: an environment with `env_ipc_recving` set has
status `NOT_RUNNABLE`. -/
def receiverInvariant (k : Kernel) : Prop :=
  ∀ i, i < NENV k → (env k i).env_ipc_recving ≠ 0 → (env k i).env_status = ENV_NOT_RUNNABLE

instance receiverInvariantDecidable (k : Kernel) : Decidable (receiverInvariant k) := by
  unfold receiverInvariant
  infer_instance

/-- A well-formed state: there is a CPU and no more CPUs than slots; every CPU
executes an environment of the table that is `RUNNING` on it, and every
`RUNNING` environment is the one its CPU executes; the first slots hold the
idle environments; the slot bits of a live id are its slot; an environment that
is receiving is `NOT_RUNNABLE`. -/
def wellFormed (k : Kernel) : Prop :=
  0 < k.cpus.length ∧ k.cpus.length ≤ NENV k ∧
  (∀ c, c < k.cpus.length → ∃ i, i < NENV k ∧ curenv k c = some i ∧
    (env k i).env_status = ENV_RUNNING ∧ (env k i).env_cpunum = c) ∧
  (∀ i, i < NENV k → (env k i).env_status = ENV_RUNNING →
    curenv k (env k i).env_cpunum = some i) ∧
  (∀ i, i < NENV k → ((env k i).env_type = ENV_TYPE_IDLE ↔ i < k.cpus.length)) ∧
  (∀ i, i < NENV k → (env k i).env_status ≠ ENV_FREE →
    ENVX k (env k i).env_id = i ∧ (env k i).env_id ≠ 0) ∧
  receiverInvariant k

instance wellFormedDecidable (k : Kernel) : Decidable (wellFormed k) := by
  unfold wellFormed
  infer_instance

/-- The slot `curenv_id` at which the loop of `sched_yield` on CPU `cpu` ends:
the slot bits of the id of this CPU's current environment, or the id of this
CPU when it has none. -/
def curenv_id (k : Kernel) (cpu : Nat) : Nat :=
  match curenv k cpu with
  | none => cpu
  | some c => ENVX k (env k c).env_id

/-- The loop of `sched_yield` on CPU `cpu` hands slot `i` to `env_run` when it
meets it: the slot is `RUNNABLE` and is not the slot with the index of this
CPU. -/
def picks (k : Kernel) (cpu i : Nat) : Prop :=
  (env k i).env_status = ENV_RUNNABLE ∧ i ≠ cpu

instance picksDecidable (k : Kernel) (cpu i : Nat) : Decidable (picks k cpu i) := by
  unfold picks
  infer_instance

/-- The first step of `env_run` on CPU `cpu`: the environment this CPU was
executing goes from `RUNNING` back to `RUNNABLE`. -/
def preempt (k : Kernel) (cpu : Nat) : Kernel :=
  match curenv k cpu with
  | none => k
  | some c =>
    if (env k c).env_status = ENV_RUNNING
    then setEnv k c { env k c with env_status := ENV_RUNNABLE }
    else k

/-- The second step of `env_run` on CPU `cpu`: `curenv = e`. -/
def setCurenv (k : Kernel) (cpu e : Nat) : Kernel :=
  { k with cpus := k.cpus.set cpu { cpu_env := some e } }

/-- The environment table, the CPUs, the free list and the reference counts of
`k2` are those of `k`. -/
def unchangedTables (k k2 : Kernel) : Prop :=
  k2.envs = k.envs ∧ k2.cpus = k.cpus ∧ k2.page_free_list = k.page_free_list ∧
    k2.pp_ref = k.pp_ref

/-- The mappings of slot `t` at the pages other than the page of `va` are in
`k1` those of `k`. -/
def otherMappings (k k1 : Kernel) (t va : Nat) : Prop :=
  ∀ va2, PGNUM va2 ≠ PGNUM va → page_lookup k1 t va2 = page_lookup k t va2

/-- The nonzero bytes of the frame `pp`, by offset; none when the frame is
filled with zeros. -/
def frameData (k : Kernel) (pp : Nat) : List (Nat × Nat) := k.pp_data.getD pp []

/-- The environment in slot `i` is a user environment that is `RUNNABLE` or
`RUNNING`. -/
def userLive (k : Kernel) (i : Nat) : Prop :=
  (env k i).env_type = ENV_TYPE_USER ∧
    ((env k i).env_status = ENV_RUNNABLE ∨ (env k i).env_status = ENV_RUNNING)

instance userLiveDecidable (k : Kernel) (i : Nat) : Decidable (userLive k i) := by
  unfold userLive
  infer_instance

/-- The premises of round-robin fairness on CPU `cpu`: the CPU executes the user
environment in slot `c`, which is `RUNNING`; no other environment is `RUNNING`
(no other CPU is at work); slot `cpu` holds this CPU's idle environment and no
other environment than a user environment is `RUNNABLE` in the other slots; and
the slot bits of the id of a live user environment are its slot. -/
def fairState (k : Kernel) (cpu c : Nat) : Prop :=
  cpu < k.cpus.length ∧ curenv k cpu = some c ∧
  (env k c).env_type = ENV_TYPE_USER ∧ (env k c).env_status = ENV_RUNNING ∧
  (∀ i, i < NENV k → i ≠ c → (env k i).env_status ≠ ENV_RUNNING) ∧
  (env k cpu).env_type = ENV_TYPE_IDLE ∧
  (∀ i, i < NENV k → i ≠ cpu → (env k i).env_status = ENV_RUNNABLE →
    (env k i).env_type = ENV_TYPE_USER) ∧
  (∀ i, i < NENV k → userLive k i → ENVX k (env k i).env_id = i)

instance fairStateDecidable (k : Kernel) (cpu c : Nat) : Decidable (fairState k cpu c) := by
  unfold fairState
  infer_instance

/-- The bit `PTE_COW` of `lib/fork.c`, one of the bits of `PTE_AVAIL`. -/
def PTE_COW : Nat := 0x800

/-- Modelled from the spec: the bit `FEC_WR` of a page-fault error code, set
when the faulting access was a write (`inc/mmu.h` is absent). -/
def FEC_WR : Nat := 0x2

/-- Modelled from the spec: the top of the user exception stack, one page below
which the stack lies (`inc/memlayout.h` is absent). -/
def UXSTACKTOP : Nat := UTOP

/-- Modelled from the spec: the top of the normal user stack, with an unmapped
page between it and the exception stack (`inc/memlayout.h` is absent). -/
def USTACKTOP : Nat := UTOP - 2 * PGSIZE

/-- Modelled from the spec: the scratch address of the copy-on-write fault
handler, a page-aligned address below the user stack (`inc/memlayout.h` is
absent). -/
def PFTEMP : Nat := 0x7ff000

/-- How a function of the user library ends: it returns a value, it calls
`panic`, an access of its own to memory faults, or a system call it made did
not return (the kernel dispatched another environment or stopped). -/
inductive UOutcome where
  | ret (r : Int) (k : Kernel)
  | upanic (k : Kernel)
  | fault (k : Kernel)
  | kernel (o : Outcome)
deriving DecidableEq

/-- The kernel state a user-library outcome leaves. -/
def UOutcome.state : UOutcome → Kernel
  | .ret _ k => k
  | .upanic k => k
  | .fault k => k
  | .kernel o => o.state

/-- Modelled from the spec: the read-only window `vpt` on the page table of the
running environment (`inc/memlayout.h` is absent): the permission bits of the
entry of page `pn`, 0 when the page is not present. -/
def vpt (k : Kernel) (cur pn : Nat) : Nat :=
  match page_lookup k cur (pn * PGSIZE) with
  | none => 0
  | some pte => pte.bits

/-- Modelled from the spec: `memmove(dst, src, PGSIZE)` of the absent
`lib/string.c` for page-aligned `dst` and `src`, run by the environment `cur`:
the frame mapped at `dst` receives the bytes of the frame mapped at `src`; the
copy faults when `src` is not mapped or `dst` is not mapped writable. -/
def memmove_page (k : Kernel) (cur dst src : Nat) : Option Kernel :=
  match page_lookup k cur dst, page_lookup k cur src with
  | some d, some s =>
    if d.bits &&& PTE_W ≠ 0 then
      some { k with pp_data := k.pp_data.set d.pp (k.pp_data.getD s.pp []) }
    else none
  | _, _ => none

/-- The function `pgfault` of `lib/fork.c`, run by the environment `cur` on CPU
`cpu` with the fault record `(utf_fault_va, utf_err)`.  The stubs `sys_page_alloc`,
`sys_page_map`, `sys_page_unmap` of the absent `lib/syscall.c` trap into
`syscall`. -/
def pgfault (k : Kernel) (cpu cur : Nat) (utf_fault_va utf_err : Nat) : UOutcome :=
  let addr := utf_fault_va
  if utf_err &&& FEC_WR = 0 then .upanic k
  else if vpt k cur (PGNUM addr) &&& PTE_COW = 0 then .upanic k
  else
    match syscall k cpu SYS_page_alloc 0 PFTEMP (PTE_U ||| PTE_W) 0 0 with
    | .ret errno k1 =>
      if errno < 0 then .upanic k1
      else
        match memmove_page k1 cur PFTEMP (ROUNDDOWN addr PGSIZE) with
        | none => .fault k1
        | some k2 =>
          match syscall k2 cpu SYS_page_map 0 PFTEMP 0 (ROUNDDOWN addr PGSIZE)
              (PTE_U ||| PTE_W) with
          | .ret errno2 k3 =>
            if errno2 < 0 then .upanic k3
            else
              match syscall k3 cpu SYS_page_unmap 0 PFTEMP 0 0 0 with
              | .ret errno3 k4 => if errno3 < 0 then .upanic k4 else .ret 0 k4
              | o => .kernel o
          | o => .kernel o
    | o => .kernel o

/-- The function `duppage` of `lib/fork.c`, run by the environment `cur` on CPU
`cpu`. -/
def duppage (k : Kernel) (cpu cur : Nat) (envid pn : Nat) : UOutcome :=
  let addr := (pn * PGSIZE) % 2 ^ 32
  let perm := if vpt k cur pn &&& (PTE_W ||| PTE_COW) ≠ 0 then PTE_U ||| PTE_COW else PTE_U
  match syscall k cpu SYS_page_map 0 addr envid addr perm with
  | .ret errno k1 =>
    if errno < 0 then .upanic k1
    else if perm &&& PTE_COW ≠ 0 then
      match syscall k1 cpu SYS_page_map 0 addr 0 addr perm with
      | .ret errno2 k2 => if errno2 < 0 then .upanic k2 else .ret 0 k2
      | o => .kernel o
    else .ret 0 k1
  | o => .kernel o

/-- Modelled from the spec: a one-byte store of the environment `cur` through
its page table; none when the page is not mapped writable for user access (the
store faults). -/
def storeByte (k : Kernel) (cur va b : Nat) : Option Kernel :=
  match page_lookup k cur va with
  | none => none
  | some pte =>
    if pte.bits &&& PTE_U ≠ 0 ∧ pte.bits &&& PTE_W ≠ 0 then
      some { k with pp_data := k.pp_data.set pte.pp ((va % PGSIZE, b) :: k.pp_data.getD pte.pp []) }
    else none

/-- Modelled from the spec: the bit `FEC_PR` of a page-fault error code, set
when the fault is a protection violation on a present page (`inc/mmu.h` is
absent). -/
def FEC_PR : Nat := 0x1

/-- Modelled from the spec: the bit `FEC_U` of a page-fault error code, set
when the fault happened in user mode (`inc/mmu.h` is absent). -/
def FEC_U : Nat := 0x4

/-- Modelled from the spec: page-fault delivery (`kern/trap.c` and
`lib/pfentry.S` are absent).  An environment without a page-fault entry point
is destroyed; otherwise the upcall runs the handler that `fork` installed,
`pgfault`, on the fault record. -/
def page_fault_upcall (k : Kernel) (cpu cur : Nat) (fault_va err : Nat) : UOutcome :=
  if (env k cur).env_pgfault_upcall = 0 then .kernel (env_destroy k cpu cur)
  else pgfault k cpu cur fault_va err

/-- Modelled from the spec: the environment `cur`, running on CPU `cpu`, writes
the byte `b` to `va`.  A store that faults is delivered to the page-fault
upcall, and when the handler returns the store is made again. -/
def userWrite (k : Kernel) (cpu cur : Nat) (va b : Nat) : UOutcome :=
  match storeByte k cur va b with
  | some k1 => .ret 0 k1
  | none =>
    match page_fault_upcall k cpu cur va
        (FEC_WR ||| FEC_U ||| (if (page_lookup k cur va).isSome then FEC_PR else 0)) with
    | .ret _ k1 =>
      match storeByte k1 cur va b with
      | some k2 => .ret 0 k2
      | none => .fault k1
    | o => o

/-- The page-table page of `va` is present in the address space of `envs[e]`. -/
def tablePresent (k : Kernel) (e va : Nat) : Prop :=
  ((env k e).env_pgdir.pgtables.lookup (PDX va)).isSome = true

instance tablePresentDecidable (k : Kernel) (e va : Nat) : Decidable (tablePresent k e va) := by
  unfold tablePresent
  infer_instance

/-- The state in which the environment `cur`, running on CPU `cpu`, may call
`fork` with the page-fault entry point `upcall`: the caller is live; the entry
point is not null and is code of the caller, mapped for user access below
`USTACKTOP`; a caller without an entry point has no exception stack yet; the
next id of every slot is a positive `int`; every mapped page of the caller has
its page-table page and a frame of the frame table that is not free; the free
frames are frames of the frame table. -/
def forkReady (k : Kernel) (cpu cur upcall : Nat) : Prop :=
  curenv k cpu = some cur ∧ cur < NENV k ∧ (env k cur).env_status ≠ ENV_FREE ∧
  upcall ≠ 0 ∧ upcall + 4 ≤ USTACKTOP ∧ user_mem_check k cur upcall 4 PTE_U = true ∧
  ((env k cur).env_pgfault_upcall = 0 → page_lookup k cur (UXSTACKTOP - PGSIZE) = none) ∧
  (∀ i, i < NENV k → ((env k i).env_id / NENV k + 1) * NENV k + i < 2 ^ 31) ∧
  (∀ m, m ∈ (env k cur).env_pgdir.ptes →
    tablePresent k cur (m.1 * PGSIZE) ∧ m.2.pp < k.pp_ref.length ∧
      m.2.pp ∉ k.page_free_list) ∧
  (∀ q, q ∈ k.page_free_list → q < k.pp_data.length)

instance forkReadyDecidable (k : Kernel) (cpu cur upcall : Nat) :
    Decidable (forkReady k cpu cur upcall) := by
  unfold forkReady
  infer_instance

/-- An environment with the given id, parent, type, status, cpu and address space. -/
def mkEnv (id parent type status cpu : Nat) (pd : Pgdir) : Env :=
  { env_tf := { reg_eax := 0, tf_rest := id }, env_id := id, env_parent_id := parent,
    env_type := type, env_status := status, env_cpunum := cpu, env_pgdir := pd,
    env_pgfault_upcall := 0, env_ipc_recving := 0, env_ipc_dstva := 0, env_ipc_value := 0,
    env_ipc_from := 0, env_ipc_perm := 0 }

/-- The address space of the parent of the concrete machine. -/
def parentPgdir : Pgdir :=
  { pgdir_frame := some 0, pgtables := [(0, 1)],
    ptes := [(1, { pp := 2, perm := PTE_U ||| PTE_W }), (2, { pp := 3, perm := PTE_U })] }

/-- The concrete machine. -/
def machine : Kernel :=
  { envs := [ mkEnv 4 0 ENV_TYPE_IDLE ENV_RUNNABLE 0 default,
              mkEnv 5 0 ENV_TYPE_IDLE ENV_RUNNABLE 1 default,
              mkEnv 6 0 ENV_TYPE_USER ENV_RUNNING 0 parentPgdir,
              mkEnv 7 6 ENV_TYPE_USER ENV_RUNNING 1
                { pgdir_frame := some 4, pgtables := [], ptes := [] } ],
    cpus := [{ cpu_env := some 2 }, { cpu_env := some 3 }],
    page_free_list := [5, 6, 7],
    pp_ref := [1, 1, 1, 1, 1, 0, 0, 0],
    pp_data := [[], [], [(0, 0xCC)], [], [], [(7, 1)], [], []],
    cons_input := [] }

/-- The concrete machine after the child, on CPU 1, blocked in
`sys_ipc_recv(UTOP)`: it waits for a value and declines a page. -/
def blockedNoPage : Kernel := (syscall machine 1 SYS_ipc_recv UTOP 0 0 0 0).state

/-- The concrete machine after the child, on CPU 1, blocked in
`sys_ipc_recv(0x5000)`: it waits for a value and a page. -/
def blockedPage : Kernel := (syscall machine 1 SYS_ipc_recv 0x5000 0 0 0 0).state

/-- The state after the parent, on CPU 0, applied
`sys_env_set_status(child, ENV_RUNNABLE)` in state `k`. -/
def wake (k : Kernel) : Kernel := (syscall k 0 SYS_env_set_status 7 ENV_RUNNABLE 0 0 0).state

/-- The slot from which the round-robin order of CPU `cpu` starts: the slot of
this CPU's current environment, or the id of this CPU when it has none. -/
def startSlot (k : Kernel) (cpu : Nat) : Nat :=
  match curenv k cpu with
  | none => cpu
  | some c => c

/-- A machine whose two CPUs both execute their idle environment, while the
two user environments in slots 2 and 3 are `RUNNABLE`. -/
def idleMachine : Kernel :=
  { machine with
    envs := [ mkEnv 4 0 ENV_TYPE_IDLE ENV_RUNNING 0 default,
              mkEnv 5 0 ENV_TYPE_IDLE ENV_RUNNING 1 default,
              mkEnv 6 0 ENV_TYPE_USER ENV_RUNNABLE 0 parentPgdir,
              mkEnv 7 6 ENV_TYPE_USER ENV_RUNNABLE 1
                { pgdir_frame := some 4, pgtables := [], ptes := [] } ],
    cpus := [{ cpu_env := some 0 }, { cpu_env := some 1 }] }

/-- The concrete machine after the child, on CPU 1, and then the parent, on
CPU 0, blocked in `sys_ipc_recv(UTOP)`: CPU 1 executes the idle environment of
CPU 0 and CPU 0 that of CPU 1, and no user environment is `RUNNABLE` or
`RUNNING`. -/
def swappedIdle : Kernel := (syscall blockedNoPage 0 SYS_ipc_recv UTOP 0 0 0 0).state

/-- The state in which `sched_yield` is entered on CPU 0 when, in
`swappedIdle`, the environment CPU 0 executes (slot 1) destroys itself with
`sys_env_destroy(0)`: slot 1 is reclaimed and CPU 0 has no current
environment. -/
def idleExited : Kernel :=
  { env_free (setEnv swappedIdle 1 { env swappedIdle 1 with env_status := ENV_DYING }) 1 with
    cpus := (env_free (setEnv swappedIdle 1
      { env swappedIdle 1 with env_status := ENV_DYING }) 1).cpus.set 0 { cpu_env := none } }

/-- The concrete machine after these calls: on CPU 1 the child yields and the
environment dispatched there (slot 0) blocks in `sys_ipc_recv(UTOP)`, so that
the child runs on CPU 1 again; on CPU 0 the parent sets the child `RUNNABLE`
and blocks in `sys_ipc_recv(UTOP)`, so that CPU 0 dispatches the child too. -/
def doubled : Kernel :=
  (syscall (wake (syscall (syscall machine 1 SYS_yield 0 0 0 0 0).state
    1 SYS_ipc_recv UTOP 0 0 0 0).state) 0 SYS_ipc_recv UTOP 0 0 0 0).state

/-- The concrete machine after the parent, on CPU 0, allocated pages at
`0x3000`, `0x4000` and `0x5000`: the three free frames are in use. -/
def exhausted : Kernel :=
  (syscall (syscall (syscall machine 0 SYS_page_alloc 0 0x3000 (PTE_U ||| PTE_W) 0 0).state
    0 SYS_page_alloc 0 0x4000 (PTE_U ||| PTE_W) 0 0).state
    0 SYS_page_alloc 0 0x5000 (PTE_U ||| PTE_W) 0 0).state

/-- The concrete machine after the parent, on CPU 0, allocated pages at
`0x3000` and `0x4000`: one frame is free. -/
def lastFrame : Kernel :=
  (syscall (syscall machine 0 SYS_page_alloc 0 0x3000 (PTE_U ||| PTE_W) 0 0).state
    0 SYS_page_alloc 0 0x4000 (PTE_U ||| PTE_W) 0 0).state

/-- The address space of the parent of `cowMachine`: a writable data page at
`0x1000` (frame 2), a read-only page at `0x2000` (frame 3), and the user
exception stack below `UTOP` (frame 4). -/
def cowPgdir : Pgdir :=
  { pgdir_frame := some 0, pgtables := [(0, 1), (0x3ba, 5)],
    ptes := [(1, { pp := 2, perm := PTE_U ||| PTE_W }), (2, { pp := 3, perm := PTE_U }),
      (0xeebff, { pp := 4, perm := PTE_U ||| PTE_W })] }

/-- A machine with one CPU and four slots: the idle environment in slot 0, a
user environment in slot 1 (`RUNNING` on the CPU), two free slots, and the free
frames 6 to 11.  The data page of the user environment holds the byte `0xAA`
at offset 0. -/
def cowMachine : Kernel :=
  { envs := [ mkEnv 4 0 ENV_TYPE_IDLE ENV_RUNNABLE 0 default,
              mkEnv 5 0 ENV_TYPE_USER ENV_RUNNING 0 cowPgdir,
              mkEnv 0 0 ENV_TYPE_USER ENV_FREE 0 default,
              mkEnv 0 0 ENV_TYPE_USER ENV_FREE 0 default ],
    cpus := [{ cpu_env := some 1 }],
    page_free_list := [6, 7, 8, 9, 10, 11],
    pp_ref := [1, 1, 1, 1, 1, 1, 0, 0, 0, 0, 0, 0],
    pp_data := [[], [], [(0, 0xAA)], [(0, 0x55)], [], [], [(3, 9)], [], [], [], [], []],
    cons_input := [] }

/-- The state of `cowMachine` after its user environment (slot 1) called
`sys_exofork`: the child has id 6 and slot 2, and an empty address space. -/
def forked : Kernel := (syscall cowMachine 0 SYS_exofork 0 0 0 0 0).state

/-- The state of `cowMachine` after its user environment (slot 1) mapped a
copy-on-write page at the scratch address with
`sys_page_alloc(0, PFTEMP, PTE_U | PTE_COW)`. -/
def cowScratch : Kernel :=
  (syscall cowMachine 0 SYS_page_alloc 0 PFTEMP (PTE_U ||| PTE_COW) 0 0).state

/-- The state `forked` after the parent duplicated its writable page 1 into
the child with `duppage`: the page is copy-on-write in both. -/
def dupped : Kernel := (duppage forked 0 1 6 1).state

/-- A machine like `cowMachine` with the free frames 6 to 17, whose user
environment (slot 1) has installed its page-fault entry point, at `0x2000` in
its read-only page, and whose data page at `0x1000` (frame 2) is still filled
with zeros. -/
def forkStart : Kernel :=
  { envs := [ mkEnv 4 0 ENV_TYPE_IDLE ENV_RUNNABLE 0 default,
              { mkEnv 5 0 ENV_TYPE_USER ENV_RUNNING 0 cowPgdir with env_pgfault_upcall := 0x2000 },
              mkEnv 0 0 ENV_TYPE_USER ENV_FREE 0 default,
              mkEnv 0 0 ENV_TYPE_USER ENV_FREE 0 default ],
    cpus := [{ cpu_env := some 1 }],
    page_free_list := [6, 7, 8, 9, 10, 11, 12, 13, 14, 15, 16, 17],
    pp_ref := [1, 1, 1, 1, 1, 1, 0, 0, 0, 0, 0, 0, 0, 0, 0, 0, 0, 0],
    pp_data := [[], [], [], [(0, 0x55)], [], [], [], [], [], [], [], [], [], [], [], [], [], []],
    cons_input := [] }

/-- The state of `forkStart` after its user environment wrote `0xAA` to
`0x1000`. -/
def forkMachine : Kernel := (userWrite forkStart 0 1 0x1000 0xAA).state

theorem rounddown_ne_iff (va : Nat) : ROUNDDOWN va PGSIZE ≠ va ↔ ¬ pageAligned va := by
  unfold ROUNDDOWN pageAligned PGSIZE
  omega

theorem rounddown_eq_of_aligned {va : Nat} (h : pageAligned va) : ROUNDDOWN va PGSIZE = va := by
  unfold ROUNDDOWN pageAligned PGSIZE at *
  omega

theorem not32_testBit (m i : Nat) : (not32 m).testBit i = (decide (i < 32) ^^ m.testBit i) := by
  unfold not32
  rw [Nat.testBit_xor]
  have h : (0xFFFFFFFF : Nat) = 2 ^ 32 - 1 := by norm_num
  rw [h, Nat.testBit_two_pow_sub_one]

theorem outside_iff (perm mask : Nat) (hmask : mask < 2 ^ 32) :
    not32 mask &&& perm ≠ 0 ↔ hasBitOutside perm mask := by
  have hhi : ∀ i, ¬ i < 32 → mask.testBit i = false := fun i hi =>
    Nat.testBit_eq_false_of_lt (lt_of_lt_of_le hmask (Nat.pow_le_pow_right (by norm_num) (by omega)))
  constructor
  · intro h
    by_contra hc
    apply h
    apply Nat.eq_of_testBit_eq
    intro i
    rw [Nat.testBit_and, not32_testBit, Nat.zero_testBit]
    by_cases hi : i < 32
    · cases hp : perm.testBit i
      · simp
      · cases hm : mask.testBit i
        · exact absurd ⟨i, hi, hp, hm⟩ hc
        · simp [hi]
    · simp [hi, hhi i hi]
  · rintro ⟨i, hi, hp, hm⟩ h0
    have := congrArg (fun n => Nat.testBit n i) h0
    simp [Nat.testBit_and, not32_testBit, hi, hp, hm] at this

theorem within_imp (perm mask : Nat) (hmask : mask < 2 ^ 32) (h : bitsWithin perm mask) :
    not32 mask &&& perm = 0 := by
  have hhi : ∀ i, ¬ i < 32 → mask.testBit i = false := fun i hi =>
    Nat.testBit_eq_false_of_lt (lt_of_lt_of_le hmask (Nat.pow_le_pow_right (by norm_num) (by omega)))
  apply Nat.eq_of_testBit_eq
  intro i
  rw [Nat.testBit_and, not32_testBit, Nat.zero_testBit]
  cases hp : perm.testBit i
  · simp
  · have hm := h i hp
    by_cases hi : i < 32
    · simp [hi, hm]
    · rw [hhi i hi] at hm
      exact absurd hm (by simp)

theorem bitsWithin_of_land {perm mask : Nat} (h : perm &&& mask = perm) :
    bitsWithin perm mask := by
  intro i hp
  rw [← h, Nat.testBit_and] at hp
  simp only [Bool.and_eq_true] at hp
  exact hp.2

theorem PTE_SYSCALL_lt : PTE_SYSCALL < 2 ^ 32 := by decide

theorem bits_and_W (p : Pte) : p.bits &&& PTE_W = p.perm &&& PTE_W := by
  apply Nat.eq_of_testBit_eq
  intro i
  simp only [Pte.bits, Nat.testBit_and, Nat.testBit_or, PTE_P, PTE_W]
  by_cases hi : i = 1
  · subst hi
    have : Nat.testBit 1 1 = false := by decide
    rw [this]
    simp
  · have : Nat.testBit 2 i = false := by
      have h2 : (2 : Nat) = 2 ^ 1 := rfl
      rw [h2, Nat.testBit_two_pow]
      simpa using fun h => hi h.symm
    rw [this]
    simp

/-! ## Lemmas on the handlers -/

theorem envid2env_bad {k : Kernel} {cur envid : Nat} {c : Bool}
    (h : resolves k cur envid c = false) : envid2env k cur envid c = .error (-E_BAD_ENV) := by
  unfold resolves at h
  unfold envid2env at h ⊢
  by_cases h0 : envid = 0
  · simp [h0] at h
  · by_cases h1 : (env k (ENVX k envid)).env_status = ENV_FREE ∨ (env k (ENVX k envid)).env_id ≠ envid
    · simp [h0, h1]
    · by_cases h2 : c = true ∧ ENVX k envid ≠ cur ∧
          (env k (ENVX k envid)).env_parent_id ≠ (env k cur).env_id
      · simp [h0, h1, h2]
      · simp [h0, h1, h2] at h

theorem neg_E_BAD_ENV_lt : -E_BAD_ENV < 0 := by decide

theorem neg_E_INVAL_lt : -E_INVAL < 0 := by decide

theorem staticOK_perm {va perm : Nat} (h : staticOK va perm) :
    ¬ (not32 PTE_SYSCALL &&& perm ≠ 0) ∧ ¬ (perm &&& PTE_U = 0) :=
  ⟨fun hc => hc (within_imp perm PTE_SYSCALL PTE_SYSCALL_lt h.1), h.2.1⟩

theorem staticOK_addr {va perm : Nat} (h : staticOK va perm) :
    ¬ (va ≥ UTOP) ∧ ¬ (ROUNDDOWN va PGSIZE ≠ va) :=
  ⟨Nat.not_le.mpr h.2.2.1, fun hc => hc (rounddown_eq_of_aligned h.2.2.2)⟩

theorem sys_page_alloc_bad_perm (k : Kernel) (cur envid va perm : Nat)
    (h : hasBitOutside perm PTE_SYSCALL ∨ perm &&& PTE_U = 0) :
    sys_page_alloc k cur envid va perm = .ret (-E_INVAL) k := by
  unfold sys_page_alloc
  by_cases h1 : not32 PTE_SYSCALL &&& perm ≠ 0
  · rw [if_pos h1]
  · rw [if_neg h1]
    rcases h with h | h
    · exact absurd ((outside_iff perm PTE_SYSCALL PTE_SYSCALL_lt).mpr h) h1
    · rw [if_pos h]

theorem sys_page_alloc_bad_addr (k : Kernel) (cur envid va perm : Nat)
    (h : va ≥ UTOP ∨ ¬ pageAligned va) :
    sys_page_alloc k cur envid va perm = .ret (-E_INVAL) k := by
  unfold sys_page_alloc
  have h2 : va ≥ UTOP ∨ ROUNDDOWN va PGSIZE ≠ va := h.imp id (rounddown_ne_iff va).mpr
  split_ifs <;> first | rfl | (exfalso; tauto)

theorem sys_page_map_bad_perm (k : Kernel) (cur srcenvid srcva dstenvid dstva perm : Nat)
    (h : hasBitOutside perm PTE_SYSCALL ∨ perm &&& PTE_U = 0) :
    sys_page_map k cur srcenvid srcva dstenvid dstva perm = .ret (-E_INVAL) k := by
  unfold sys_page_map
  have h2 : not32 PTE_SYSCALL &&& perm ≠ 0 ∨ perm &&& PTE_U = 0 :=
    h.imp (outside_iff perm PTE_SYSCALL PTE_SYSCALL_lt).mpr id
  split_ifs <;> first | rfl | (exfalso; tauto)

theorem sys_page_map_bad_addr (k : Kernel) (cur srcenvid srcva dstenvid dstva perm : Nat)
    (h : srcva ≥ UTOP ∨ ¬ pageAligned srcva ∨ dstva ≥ UTOP ∨ ¬ pageAligned dstva) :
    sys_page_map k cur srcenvid srcva dstenvid dstva perm = .ret (-E_INVAL) k := by
  unfold sys_page_map
  have h2 : srcva ≥ UTOP ∨ dstva ≥ UTOP ∨ ROUNDDOWN srcva PGSIZE ≠ srcva ∨
      ROUNDDOWN dstva PGSIZE ≠ dstva := by
    rcases h with h | h | h | h
    · exact Or.inl h
    · exact Or.inr (Or.inr (Or.inl ((rounddown_ne_iff srcva).mpr h)))
    · exact Or.inr (Or.inl h)
    · exact Or.inr (Or.inr (Or.inr ((rounddown_ne_iff dstva).mpr h)))
  rw [if_pos h2]

theorem sys_page_unmap_bad_addr (k : Kernel) (cur envid va : Nat)
    (h : va ≥ UTOP ∨ ¬ pageAligned va) :
    sys_page_unmap k cur envid va = .ret (-E_INVAL) k := by
  unfold sys_page_unmap
  have h2 : va ≥ UTOP ∨ ROUNDDOWN va PGSIZE ≠ va := h.imp id (rounddown_ne_iff va).mpr
  rw [if_pos h2]

theorem envid2env_ok_of_resolves {k : Kernel} {cur envid : Nat} {c : Bool}
    (h : resolves k cur envid c = true) : ∃ e, envid2env k cur envid c = .ok e := by
  unfold resolves at h
  cases he : envid2env k cur envid c with
  | error r => simp [he] at h
  | ok e => exact ⟨e, rfl⟩

theorem envid2env_unchecked {k : Kernel} {cur envid e : Nat}
    (h : envid2env k cur envid true = .ok e) : envid2env k cur envid false = .ok e := by
  unfold envid2env at h ⊢
  by_cases h0 : envid = 0
  · simpa [h0] using h
  · by_cases h1 : (env k (ENVX k envid)).env_status = ENV_FREE ∨ (env k (ENVX k envid)).env_id ≠ envid
    · simp [h0, h1] at h
    · by_cases h2 : true = true ∧ ENVX k envid ≠ cur ∧
          (env k (ENVX k envid)).env_parent_id ≠ (env k cur).env_id
      · simp [h0, h1, h2] at h
      · have h3 : ¬ (True ∧ ENVX k envid ≠ cur ∧
            (env k (ENVX k envid)).env_parent_id ≠ (env k cur).env_id) := by simpa using h2
        simp only [if_neg h0, if_neg h1] at h ⊢
        rw [if_neg h3] at h
        simpa using h

theorem capability_bad_page_map (k : Kernel) (cur envid : Nat)
    (hbad : resolves k cur envid true = false) :
    (∀ srcva dstenvid dstva perm, ∃ r, r < 0 ∧
      sys_page_map k cur envid srcva dstenvid dstva perm = .ret r k ∧
      (staticOK srcva perm → staticOK dstva perm → r = -E_BAD_ENV)) ∧
    (∀ srcenvid srcva dstva perm, ∃ r, r < 0 ∧
      sys_page_map k cur srcenvid srcva envid dstva perm = .ret r k ∧
      (staticOK srcva perm → staticOK dstva perm → r = -E_BAD_ENV)) := by
  have hb := envid2env_bad hbad
  refine ⟨?_, ?_⟩
  · intro srcva dstenvid dstva perm
    by_cases hs : (srcva ≥ UTOP ∨ dstva ≥ UTOP ∨ ROUNDDOWN srcva PGSIZE ≠ srcva ∨
        ROUNDDOWN dstva PGSIZE ≠ dstva) ∨ not32 PTE_SYSCALL &&& perm ≠ 0 ∨ perm &&& PTE_U = 0
    · refine ⟨-E_INVAL, neg_E_INVAL_lt, ?_, ?_⟩
      · unfold sys_page_map
        split_ifs <;> first | rfl | (exfalso; tauto)
      · intro hok hok2
        have := staticOK_perm hok
        have := staticOK_addr hok
        have := staticOK_addr hok2
        exfalso
        tauto
    · refine ⟨-E_BAD_ENV, neg_E_BAD_ENV_lt, ?_, fun _ _ => rfl⟩
      unfold sys_page_map
      rw [hb]
      split_ifs <;> first | rfl | (exfalso; tauto)
  · intro srcenvid srcva dstva perm
    by_cases hs : (srcva ≥ UTOP ∨ dstva ≥ UTOP ∨ ROUNDDOWN srcva PGSIZE ≠ srcva ∨
        ROUNDDOWN dstva PGSIZE ≠ dstva) ∨ not32 PTE_SYSCALL &&& perm ≠ 0 ∨ perm &&& PTE_U = 0
    · refine ⟨-E_INVAL, neg_E_INVAL_lt, ?_, ?_⟩
      · unfold sys_page_map
        split_ifs <;> first | rfl | (exfalso; tauto)
      · intro hok hok2
        have := staticOK_perm hok
        have := staticOK_addr hok
        have := staticOK_addr hok2
        exfalso
        tauto
    · by_cases hsrc : resolves k cur srcenvid true = false
      · refine ⟨-E_BAD_ENV, neg_E_BAD_ENV_lt, ?_, fun _ _ => rfl⟩
        unfold sys_page_map
        rw [envid2env_bad hsrc]
        split_ifs <;> first | rfl | (exfalso; tauto)
      · refine ⟨-E_BAD_ENV, neg_E_BAD_ENV_lt, ?_, fun _ _ => rfl⟩
        unfold sys_page_map
        rw [hb]
        unfold resolves at hsrc
        cases hsr : envid2env k cur srcenvid true with
        | error e => simp [hsr] at hsrc
        | ok src =>
          split_ifs <;> first | rfl | (exfalso; tauto)

/-! ## Lemmas on the environment table and the paging layer -/

theorem env_setEnv_self {k : Kernel} {t : Nat} (e : Env) (ht : t < k.envs.length) :
    env (setEnv k t e) t = e := by
  simp [env, setEnv, List.getD_eq_getElem?_getD, List.getElem?_set, ht]

theorem env_setEnv_other {k : Kernel} {t i : Nat} (e : Env) (hi : i ≠ t) :
    env (setEnv k t e) i = env k i := by
  simp [env, setEnv, List.getD_eq_getElem?_getD, List.getElem?_set, Ne.symm hi]

theorem setEnv_length (k : Kernel) (t : Nat) (e : Env) :
    (setEnv k t e).envs.length = k.envs.length := by
  simp [setEnv]

theorem env_default_of_ge {k : Kernel} {t : Nat} (ht : ¬ t < k.envs.length) :
    env k t = default := by
  simp [env, List.getD_eq_getElem?_getD, List.getElem?_eq_none (Nat.not_lt.mp ht)]

theorem lt_of_recving {k : Kernel} {t : Nat} (h : (env k t).env_ipc_recving ≠ 0) :
    t < k.envs.length := by
  by_contra hc
  rw [env_default_of_ge hc] at h
  exact h rfl

theorem pgdirFrame_refl (k : Kernel) (t : Nat) : pgdirFrame k k t :=
  ⟨rfl, rfl, fun _ _ => rfl, rfl⟩

theorem pgdirFrame_trans {k k1 k2 : Kernel} {t : Nat}
    (h1 : pgdirFrame k k1 t) (h2 : pgdirFrame k1 k2 t) : pgdirFrame k k2 t :=
  ⟨h2.1.trans h1.1, h2.2.1.trans h1.2.1, fun i hi => (h2.2.2.1 i hi).trans (h1.2.2.1 i hi),
    h2.2.2.2.trans h1.2.2.2⟩

theorem pgdirFrame_of_envs {k k1 : Kernel} {t : Nat} (he : k1.envs = k.envs)
    (hc : k1.cpus = k.cpus) : pgdirFrame k k1 t :=
  ⟨by rw [he], hc, fun i _ => by simp [env, he], by simp [env, he]⟩

theorem pgdirFrame_setEnv (k : Kernel) (t : Nat) (pd : Pgdir) :
    pgdirFrame k (setEnv k t { env k t with env_pgdir := pd }) t := by
  refine ⟨setEnv_length _ _ _, rfl, fun i hi => env_setEnv_other _ hi, ?_⟩
  by_cases ht : t < k.envs.length
  · rw [env_setEnv_self _ ht]
    rfl
  · have h2 : ¬ t < (setEnv k t { env k t with env_pgdir := pd }).envs.length := by
      rw [setEnv_length]
      exact ht
    rw [env_default_of_ge h2, env_default_of_ge ht]

theorem page_decref_envs (k : Kernel) (pp : Nat) :
    (page_decref k pp).envs = k.envs ∧ (page_decref k pp).cpus = k.cpus := by
  unfold page_decref page_free
  constructor <;> (dsimp only; split_ifs <;> rfl)

theorem page_remove_frame (k : Kernel) (t va : Nat) : pgdirFrame k (page_remove k t va) t := by
  unfold page_remove
  cases h : page_lookup k t va with
  | none => exact pgdirFrame_refl k t
  | some pte =>
    dsimp only
    exact pgdirFrame_trans
      (pgdirFrame_of_envs (page_decref_envs k pte.pp).1 (page_decref_envs k pte.pp).2)
      (pgdirFrame_setEnv _ t _)

theorem page_alloc_envs {k k1 : Kernel} {pp fl : Nat} (h : page_alloc k fl = some (pp, k1)) :
    k1.envs = k.envs ∧ k1.cpus = k.cpus := by
  unfold page_alloc at h
  cases hf : k.page_free_list with
  | nil => simp [hf] at h
  | cons a rest =>
    simp only [hf] at h
    split_ifs at h
    all_goals
      simp only [Option.some.injEq, Prod.mk.injEq] at h
      rw [← h.2]
      exact ⟨rfl, rfl⟩

theorem pgdir_walk_create_frame {k k1 : Kernel} {t va : Nat}
    (h : pgdir_walk_create k t va = some k1) : pgdirFrame k k1 t := by
  unfold pgdir_walk_create at h
  by_cases hw : ((env k t).env_pgdir.pgtables.lookup (PDX va)).isSome
  · rw [if_pos hw] at h
    rw [← Option.some.inj h]
    exact pgdirFrame_refl k t
  · rw [if_neg hw] at h
    cases ha : page_alloc k ALLOC_ZERO with
    | none => simp [ha] at h
    | some r =>
      obtain ⟨pt, ka⟩ := r
      simp only [ha] at h
      rw [← Option.some.inj h]
      have e1 := page_alloc_envs ha
      exact pgdirFrame_trans (pgdirFrame_of_envs e1.1 e1.2)
        (pgdirFrame_trans
          (pgdirFrame_of_envs rfl rfl : pgdirFrame ka { ka with pp_ref := ka.pp_ref.set pt 1 } t)
          (pgdirFrame_setEnv _ t _))

theorem page_incref_frame (k : Kernel) (pp t : Nat) : pgdirFrame k (page_incref k pp) t :=
  pgdirFrame_of_envs rfl rfl

theorem setPte_frame (k : Kernel) (t va : Nat) (pte : Pte) : pgdirFrame k (setPte k t va pte) t :=
  pgdirFrame_setEnv k t _

theorem page_insert_frame {k k1 : Kernel} {t pp va perm : Nat}
    (h : page_insert k t pp va perm = .ok k1) : pgdirFrame k k1 t := by
  unfold page_insert at h
  cases hw : pgdir_walk_create k t va with
  | none => simp [hw] at h
  | some kw =>
    simp only [hw] at h
    rw [← Except.ok.inj h]
    exact pgdirFrame_trans (pgdir_walk_create_frame hw)
      (pgdirFrame_trans (page_incref_frame kw pp t)
        (pgdirFrame_trans (page_remove_frame _ t va) (setPte_frame _ t va _)))

theorem page_lookup_setPte {k : Kernel} {t : Nat} (va : Nat) (pte : Pte) (ht : t < k.envs.length) :
    page_lookup (setPte k t va pte) t va = some pte := by
  unfold page_lookup setPte
  rw [env_setEnv_self _ ht]
  simp [List.lookup]

theorem page_lookup_insert {k k1 : Kernel} {t pp va perm : Nat}
    (ht : t < k.envs.length)
    (h : page_insert k t pp va perm = .ok k1) :
    page_lookup k1 t va = some { pp := pp, perm := perm } := by
  unfold page_insert at h
  cases hw : pgdir_walk_create k t va with
  | none => simp [hw] at h
  | some kw =>
    simp only [hw] at h
    rw [← Except.ok.inj h]
    apply page_lookup_setPte
    rw [(page_remove_frame _ t va).1, (page_incref_frame kw pp t).1, (pgdir_walk_create_frame hw).1]
    exact ht

theorem pgdirFrame_noPgdir {k k1 : Kernel} {t : Nat} (h : pgdirFrame k k1 t) (i : Nat) :
    (env k1 i).noPgdir = (env k i).noPgdir := by
  by_cases hi : i = t
  · subst hi
    exact h.2.2.2
  · rw [h.2.2.1 i hi]

theorem pgdirFrame_env_id {k k1 : Kernel} {t : Nat} (h : pgdirFrame k k1 t) (i : Nat) :
    (env k1 i).env_id = (env k i).env_id := by
  show (env k1 i).noPgdir.env_id = (env k i).noPgdir.env_id
  rw [pgdirFrame_noPgdir h i]

theorem pgdirFrame_env_status {k k1 : Kernel} {t : Nat} (h : pgdirFrame k k1 t) (i : Nat) :
    (env k1 i).env_status = (env k i).env_status := by
  show (env k1 i).noPgdir.env_status = (env k i).noPgdir.env_status
  rw [pgdirFrame_noPgdir h i]

theorem page_insert_error {k : Kernel} {t pp va perm : Nat} {r : Int}
    (h : page_insert k t pp va perm = .error r) : r = -E_NO_MEM := by
  unfold page_insert at h
  cases hw : pgdir_walk_create k t va with
  | none =>
    simp only [hw] at h
    exact (Except.error.inj h).symm
  | some kw => simp [hw] at h

theorem envid2env_error {k : Kernel} {cur envid : Nat} {c : Bool} {r : Int}
    (h : envid2env k cur envid c = .error r) : r = -E_BAD_ENV := by
  have hb : resolves k cur envid c = false := by
    unfold resolves
    rw [h]
  have := envid2env_bad hb
  rw [h] at this
  exact Except.error.inj this

/-! ## Capability enforcement and static validation -/

/-- C2 (capability enforcement).  When `envid` does not resolve for the caller
under the capability check, each of `sys_env_destroy`, `sys_env_set_status`,
`sys_env_set_pgfault_upcall`, `sys_page_alloc`, `sys_page_map` (with `envid` as
source or as destination) and `sys_page_unmap` returns a negative error and
leaves the whole kernel state, hence every environment and every address space,
as it was; the error is `-E_BAD_ENV` for the three environment calls whatever
their other argument is, and for the three VM calls whenever permission and
addresses pass the static checks. -/
theorem capability_enforcement (k : Kernel) (cpu cur envid : Nat)
    (hbad : resolves k cur envid true = false) :
    -E_BAD_ENV < 0 ∧
    sys_env_destroy k cpu cur envid = .ret (-E_BAD_ENV) k ∧
    (∀ status, sys_env_set_status k cur envid status = .ret (-E_BAD_ENV) k) ∧
    (∀ func, sys_env_set_pgfault_upcall k cpu cur envid func = .ret (-E_BAD_ENV) k) ∧
    (∀ va perm, ∃ r, r < 0 ∧ sys_page_alloc k cur envid va perm = .ret r k ∧
      (staticOK va perm → r = -E_BAD_ENV)) ∧
    (∀ srcva dstenvid dstva perm, ∃ r, r < 0 ∧
      sys_page_map k cur envid srcva dstenvid dstva perm = .ret r k ∧
      (staticOK srcva perm → staticOK dstva perm → r = -E_BAD_ENV)) ∧
    (∀ srcenvid srcva dstva perm, ∃ r, r < 0 ∧
      sys_page_map k cur srcenvid srcva envid dstva perm = .ret r k ∧
      (staticOK srcva perm → staticOK dstva perm → r = -E_BAD_ENV)) ∧
    (∀ va, ∃ r, r < 0 ∧ sys_page_unmap k cur envid va = .ret r k ∧
      (va < UTOP → pageAligned va → r = -E_BAD_ENV)) := by
  have hb := envid2env_bad hbad
  refine ⟨neg_E_BAD_ENV_lt, ?_, ?_, ?_, ?_, ?_, ?_, ?_⟩
  · simp [sys_env_destroy, hb]
  · intro status
    simp [sys_env_set_status, hb]
  · intro func
    simp [sys_env_set_pgfault_upcall, hb]
  · intro va perm
    by_cases hs : (not32 PTE_SYSCALL &&& perm ≠ 0 ∨ perm &&& PTE_U = 0) ∨
        (va ≥ UTOP ∨ ROUNDDOWN va PGSIZE ≠ va)
    · refine ⟨-E_INVAL, neg_E_INVAL_lt, ?_, ?_⟩
      · unfold sys_page_alloc
        split_ifs <;> first | rfl | (exfalso; tauto)
      · intro hok
        have := staticOK_perm hok
        have := staticOK_addr hok
        exfalso
        tauto
    · refine ⟨-E_BAD_ENV, neg_E_BAD_ENV_lt, ?_, fun _ => rfl⟩
      unfold sys_page_alloc
      rw [hb]
      split_ifs <;> first | rfl | (exfalso; tauto)
  · exact (capability_bad_page_map k cur envid hbad).1
  · exact (capability_bad_page_map k cur envid hbad).2
  · intro va
    by_cases hs : va ≥ UTOP ∨ ROUNDDOWN va PGSIZE ≠ va
    · refine ⟨-E_INVAL, neg_E_INVAL_lt, ?_, ?_⟩
      · unfold sys_page_unmap
        rw [if_pos hs]
      · intro h1 h2
        have := rounddown_eq_of_aligned h2
        exfalso
        rcases hs with hs | hs
        · exact absurd h1 (Nat.not_lt.mpr hs)
        · exact hs this
    · refine ⟨-E_BAD_ENV, neg_E_BAD_ENV_lt, ?_, fun _ _ => rfl⟩
      unfold sys_page_unmap
      rw [if_neg hs, hb]

/-- Witness of C2: on the concrete machine the parent (slot 2) names id 5, the
idle environment of CPU 1, which is not its child; `sys_env_set_status` returns
`-E_BAD_ENV` and changes nothing. -/
theorem capability_enforcement_witness :
    resolves machine 2 5 true = false ∧
    sys_env_set_status machine 2 5 ENV_NOT_RUNNABLE = .ret (-E_BAD_ENV) machine :=
  ⟨by decide, (capability_enforcement machine 0 2 5 (by decide)).2.2.1 ENV_NOT_RUNNABLE⟩

/-- C3 (static argument validation).  A permission with a bit outside
`PTE_SYSCALL` or without `PTE_U` makes `sys_page_alloc` and `sys_page_map`
return `-E_INVAL`; an address at or above `UTOP` or not page-aligned makes
`sys_page_alloc` (va), `sys_page_map` (srcva or dstva) and `sys_page_unmap` (va)
return `-E_INVAL`; this holds for every value of the other arguments, the
environment ids included, and the kernel state is left as it was. -/
theorem static_validation (k : Kernel) (cur : Nat) :
    -E_INVAL < 0 ∧
    (∀ envid va perm, (hasBitOutside perm PTE_SYSCALL ∨ perm &&& PTE_U = 0) →
      sys_page_alloc k cur envid va perm = .ret (-E_INVAL) k) ∧
    (∀ srcenvid srcva dstenvid dstva perm, (hasBitOutside perm PTE_SYSCALL ∨ perm &&& PTE_U = 0) →
      sys_page_map k cur srcenvid srcva dstenvid dstva perm = .ret (-E_INVAL) k) ∧
    (∀ envid va perm, (va ≥ UTOP ∨ ¬ pageAligned va) →
      sys_page_alloc k cur envid va perm = .ret (-E_INVAL) k) ∧
    (∀ srcenvid srcva dstenvid dstva perm,
      (srcva ≥ UTOP ∨ ¬ pageAligned srcva ∨ dstva ≥ UTOP ∨ ¬ pageAligned dstva) →
      sys_page_map k cur srcenvid srcva dstenvid dstva perm = .ret (-E_INVAL) k) ∧
    (∀ envid va, (va ≥ UTOP ∨ ¬ pageAligned va) →
      sys_page_unmap k cur envid va = .ret (-E_INVAL) k) :=
  ⟨neg_E_INVAL_lt,
   fun envid va perm h => sys_page_alloc_bad_perm k cur envid va perm h,
   fun s sv d dv perm h => sys_page_map_bad_perm k cur s sv d dv perm h,
   fun envid va perm h => sys_page_alloc_bad_addr k cur envid va perm h,
   fun s sv d dv perm h => sys_page_map_bad_addr k cur s sv d dv perm h,
   fun envid va h => sys_page_unmap_bad_addr k cur envid va h⟩

/-- Witness of C3: on the concrete machine `sys_page_map` with the permission
`PTE_U | 0x100` (bit 8 lies outside `PTE_SYSCALL`) and an id that does not
resolve returns `-E_INVAL`, and so does `sys_page_unmap` at the misaligned
address `0x1004`. -/
theorem static_validation_witness :
    hasBitOutside (PTE_U ||| 0x100) PTE_SYSCALL ∧
    sys_page_map machine 2 99 0x1000 0 0x3000 (PTE_U ||| 0x100) = .ret (-E_INVAL) machine ∧
    ¬ pageAligned 0x1004 ∧
    sys_page_unmap machine 2 0 0x1004 = .ret (-E_INVAL) machine :=
  ⟨⟨8, by decide, by decide, by decide⟩,
   (static_validation machine 2).2.2.1 99 0x1000 0 0x3000 (PTE_U ||| 0x100)
     (Or.inl ⟨8, by decide, by decide, by decide⟩),
   by decide,
   (static_validation machine 2).2.2.2.2.2 0 0x1004 (Or.inr (by decide))⟩

/-! ## No write escalation through `sys_page_map` -/

/-- C4, as stated, fails: on the concrete machine the child (slot 3) calls
`sys_page_map` with `PTE_U | PTE_W` on page 2 of its parent (id 6), which the
parent maps read-only.  The capability check comes first and the call returns
`-E_BAD_ENV`, not `-E_INVAL`. -/
theorem page_map_escalation_counterexample :
    envid2env machine 3 6 false = .ok 2 ∧
    page_lookup machine 2 0x2000 = some { pp := 3, perm := PTE_U } ∧
    PTE_U &&& PTE_W = 0 ∧ (PTE_U ||| PTE_W) &&& PTE_W ≠ 0 ∧
    sys_page_map machine 3 6 0x2000 0 0x2000 (PTE_U ||| PTE_W) = .ret (-E_BAD_ENV) machine ∧
    sys_page_map machine 3 6 0x2000 0 0x2000 (PTE_U ||| PTE_W) ≠ .ret (-E_INVAL) machine := by
  decide

/-- C4, amended (no write escalation).  Let `srcenvid` name an existing
environment.  When `srcva` is not mapped in it, or `perm` contains `PTE_W` while
its mapping of `srcva` lacks `PTE_W`, `sys_page_map` returns a negative error
and leaves the whole kernel state as it was, so no mapping appears at `dstva`;
the error is `-E_INVAL` whenever `srcenvid` and `dstenvid` both resolve under the
capability check. -/
theorem page_map_no_write_escalation (k : Kernel) (cur srcenvid srcva dstenvid dstva perm s : Nat)
    (hsrc : envid2env k cur srcenvid false = .ok s)
    (hcase : page_lookup k s srcva = none ∨
      (perm &&& PTE_W ≠ 0 ∧ ∃ pte, page_lookup k s srcva = some pte ∧ pte.perm &&& PTE_W = 0)) :
    (∃ r, r < 0 ∧ sys_page_map k cur srcenvid srcva dstenvid dstva perm = .ret r k) ∧
    (resolves k cur srcenvid true = true → resolves k cur dstenvid true = true →
      sys_page_map k cur srcenvid srcva dstenvid dstva perm = .ret (-E_INVAL) k) := by
  have key : ∀ s2 d, envid2env k cur srcenvid true = .ok s2 →
      envid2env k cur dstenvid true = .ok d →
      sys_page_map k cur srcenvid srcva dstenvid dstva perm = .ret (-E_INVAL) k := by
    intro s2 d h1 h2
    have hs2 : s2 = s := by
      have := envid2env_unchecked h1
      rw [hsrc] at this
      exact (Except.ok.inj this).symm
    subst hs2
    unfold sys_page_map
    simp only [h1, h2]
    rcases hcase with hn | ⟨hw, pte, hl, hro⟩
    · simp only [hn]
      split_ifs <;> rfl
    · have hb : pte.bits &&& PTE_W = 0 ∧ perm &&& PTE_W ≠ 0 := ⟨by rw [bits_and_W]; exact hro, hw⟩
      simp only [hl, if_pos hb]
      split_ifs <;> rfl
  refine ⟨?_, ?_⟩
  · by_cases h1 : resolves k cur srcenvid true = true
    · by_cases h2 : resolves k cur dstenvid true = true
      · obtain ⟨s2, hs2⟩ := envid2env_ok_of_resolves h1
        obtain ⟨d, hd⟩ := envid2env_ok_of_resolves h2
        exact ⟨-E_INVAL, neg_E_INVAL_lt, key s2 d hs2 hd⟩
      · obtain ⟨r, hr, heq, -⟩ := (capability_bad_page_map k cur dstenvid
          (by simpa using h2)).2 srcenvid srcva dstva perm
        exact ⟨r, hr, heq⟩
    · obtain ⟨r, hr, heq, -⟩ := (capability_bad_page_map k cur srcenvid
        (by simpa using h1)).1 srcva dstenvid dstva perm
      exact ⟨r, hr, heq⟩
  · intro h1 h2
    obtain ⟨s2, hs2⟩ := envid2env_ok_of_resolves h1
    obtain ⟨d, hd⟩ := envid2env_ok_of_resolves h2
    exact key s2 d hs2 hd

/-- Witness of C4 amended: on the concrete machine the parent (slot 2) asks for
`PTE_U | PTE_W` on its read-only page 2, for its child (id 7); the call returns
`-E_INVAL` and changes nothing. -/
theorem page_map_no_write_escalation_witness :
    envid2env machine 2 0 false = .ok 2 ∧
    page_lookup machine 2 0x2000 = some { pp := 3, perm := PTE_U } ∧
    sys_page_map machine 2 0 0x2000 7 0x2000 (PTE_U ||| PTE_W) = .ret (-E_INVAL) machine :=
  ⟨by decide, by decide,
   (page_map_no_write_escalation machine 2 0 0x2000 7 0x2000 (PTE_U ||| PTE_W) 2 (by decide)
     (Or.inr ⟨by decide, { pp := 3, perm := PTE_U }, by decide, by decide⟩)).2
     (by decide) (by decide)⟩

/-! ## IPC: `sys_ipc_try_send` -/

theorem deliver_spec (k : Kernel) (cur t value perm : Nat) (errno : Int) (ht : t < k.envs.length) :
    ∃ k', set_value_ontarget k cur t value perm errno = .ret errno k' ∧
      (env k' t).env_ipc_recving = 0 ∧ (env k' t).env_ipc_from = (env k cur).env_id ∧
      (env k' t).env_ipc_value = value ∧ (env k' t).env_ipc_perm = perm ∧
      (env k' t).env_status = ENV_RUNNABLE ∧
      (env k' t).env_id = (env k t).env_id ∧
      (∀ i, (env k' i).env_pgdir = (env k i).env_pgdir) ∧
      (∀ i, i ≠ t → env k' i = env k i) ∧
      k'.envs.length = k.envs.length ∧
      k'.cpus = k.cpus ∧ k'.page_free_list = k.page_free_list ∧ k'.pp_ref = k.pp_ref := by
  refine ⟨_, rfl, ?_⟩
  have hself := @env_setEnv_self k t { env k t with
    env_ipc_recving := 0, env_ipc_from := (env k cur).env_id, env_ipc_value := value,
    env_ipc_perm := perm, env_status := ENV_RUNNABLE } ht
  refine ⟨by rw [hself], by rw [hself], by rw [hself], by rw [hself], by rw [hself],
    by rw [hself], ?_, fun i hi => env_setEnv_other _ hi, setEnv_length _ _ _, rfl, rfl, rfl⟩
  intro i
  by_cases hi : i = t
  · subst hi
    rw [hself]
  · rw [env_setEnv_other _ hi]

/-- Claim C5 (delivery without a page) fails on the code.  On the concrete
machine the child blocks in `sys_ipc_recv(UTOP)` and its parent applies
`sys_env_set_status(child, ENV_RUNNABLE)`, which returns 0 and leaves the child
with `env_ipc_recving` set and status `RUNNABLE`.  The parent's
`sys_ipc_try_send(child, 42, UTOP, 0)`, a send with `srcva ≥ UTOP` to a target
with `env_ipc_recving` set, then does not return 0 and delivers nothing: the
kernel stops in its failed assertion `target_env->env_status ==
ENV_NOT_RUNNABLE`, the target still receiving. -/
theorem ipc_send_without_page_asserts :
    wellFormed machine ∧
    syscall machine 1 SYS_ipc_recv UTOP 0 0 0 0 = .run blockedNoPage ∧
    syscall blockedNoPage 0 SYS_env_set_status 7 ENV_RUNNABLE 0 0 0 =
      .ret 0 (wake blockedNoPage) ∧
    curenv (wake blockedNoPage) 0 = some 2 ∧
    envid2env (wake blockedNoPage) 2 7 false = .ok 3 ∧
    (env (wake blockedNoPage) 3).env_ipc_recving = 1 ∧
    (env (wake blockedNoPage) 3).env_status = ENV_RUNNABLE ∧
    UTOP ≥ UTOP ∧
    sys_ipc_try_send (wake blockedNoPage) 2 7 42 UTOP 0 = .panic (wake blockedNoPage) ∧
    syscall (wake blockedNoPage) 0 SYS_ipc_try_send 7 42 UTOP 0 0 =
      .panic (wake blockedNoPage) := by
  decide

/-- Delivery without a page where the sender's assertion holds.  A send to a
target that has `env_ipc_recving` set and status `NOT_RUNNABLE`, with
`srcva ≥ UTOP` or with the target's `env_ipc_dstva ≥ UTOP`, returns 0 whatever
`perm` is and whether or not `srcva` is aligned or mapped; it clears the
target's `env_ipc_recving`, sets `env_ipc_from` to the sender's id,
`env_ipc_value` to `value`, `env_ipc_perm` to 0 and the status to `RUNNABLE`,
and changes no address space, no other environment and nothing of the physical
allocator. -/
theorem ipc_send_without_page (k : Kernel) (cur envid value srcva perm t : Nat)
    (ht : envid2env k cur envid false = .ok t)
    (hrecv : (env k t).env_ipc_recving ≠ 0)
    (hst : (env k t).env_status = ENV_NOT_RUNNABLE)
    (hnopage : srcva ≥ UTOP ∨ (env k t).env_ipc_dstva ≥ UTOP) :
    ∃ k', sys_ipc_try_send k cur envid value srcva perm = .ret 0 k' ∧
      (env k' t).env_ipc_recving = 0 ∧ (env k' t).env_ipc_from = (env k cur).env_id ∧
      (env k' t).env_ipc_value = value ∧ (env k' t).env_ipc_perm = 0 ∧
      (env k' t).env_status = ENV_RUNNABLE ∧
      (∀ i, (env k' i).env_pgdir = (env k i).env_pgdir) ∧
      (∀ i, i ≠ t → env k' i = env k i) ∧
      k'.page_free_list = k.page_free_list ∧ k'.pp_ref = k.pp_ref := by
  obtain ⟨k', hk, h1, h2, h3, h4, h5, -, h7, h8, -, -, h10, h11⟩ :=
    deliver_spec k cur t value 0 0 (lt_of_recving hrecv)
  refine ⟨k', ?_, h1, h2, h3, h4, h5, h7, h8, h10, h11⟩
  unfold sys_ipc_try_send
  simp only [ht]
  rw [if_neg hrecv, if_neg (not_not.mpr hst)]
  by_cases hs : srcva < UTOP
  · have hd : ¬ (env k t).env_ipc_dstva < UTOP := by
      rcases hnopage with h | h
      · exact absurd hs (Nat.not_lt.mpr h)
      · exact Nat.not_lt.mpr h
    rw [if_neg (not_not.mpr hs), if_pos hd]
    exact hk
  · rw [if_pos hs]
    exact hk

/-- Delivery without a page on the concrete machine: the child blocked in
`sys_ipc_recv(UTOP)`; the parent's `sys_ipc_try_send(child, 42, UTOP, 0)` returns
0 and the child holds the value 42 from sender 6 with `env_ipc_perm = 0`. -/
theorem ipc_send_without_page_witness :
    envid2env blockedNoPage 2 7 false = .ok 3 ∧
    (env blockedNoPage 3).env_ipc_recving ≠ 0 ∧
    (env blockedNoPage 3).env_status = ENV_NOT_RUNNABLE ∧
    sys_ipc_try_send blockedNoPage 2 7 42 UTOP 0 =
      .ret 0 (sys_ipc_try_send blockedNoPage 2 7 42 UTOP 0).state ∧
    (env (sys_ipc_try_send blockedNoPage 2 7 42 UTOP 0).state 3).env_ipc_value = 42 ∧
    (env (sys_ipc_try_send blockedNoPage 2 7 42 UTOP 0).state 3).env_ipc_from = 6 ∧
    (env (sys_ipc_try_send blockedNoPage 2 7 42 UTOP 0).state 3).env_ipc_perm = 0 := by
  refine ⟨by decide, by decide, by decide, ?_⟩
  obtain ⟨k', h0, -, h2, h3, h4, -⟩ := ipc_send_without_page blockedNoPage 2 7 42 UTOP 0 3
    (by decide) (by decide) (by decide) (Or.inl (by decide))
  rw [h0]
  exact ⟨rfl, h3, h2, h4⟩

/-- Claim C6 (value and page round trip) fails on the code.  On the concrete
machine the child blocks in `sys_ipc_recv(0x5000)` and its parent applies
`sys_env_set_status(child, ENV_RUNNABLE)`, which returns 0 and leaves the child
receiving, with `env_ipc_dstva = 0x5000` and status `RUNNABLE`.  The parent
then sends the value 1 and its writable page 1 with `PTE_U | PTE_W`: every
condition of the claim holds and the insertion would succeed, yet the call does
not return 0 and maps nothing: the kernel stops in its failed assertion
`target_env->env_status == ENV_NOT_RUNNABLE`. -/
theorem ipc_send_with_page_asserts :
    wellFormed machine ∧
    syscall machine 1 SYS_ipc_recv 0x5000 0 0 0 0 = .run blockedPage ∧
    syscall blockedPage 0 SYS_env_set_status 7 ENV_RUNNABLE 0 0 0 =
      .ret 0 (wake blockedPage) ∧
    curenv (wake blockedPage) 0 = some 2 ∧
    envid2env (wake blockedPage) 2 7 false = .ok 3 ∧
    (env (wake blockedPage) 3).env_status = ENV_RUNNABLE ∧
    0x1000 < UTOP ∧ pageAligned 0x1000 ∧
    (PTE_U ||| PTE_W) &&& PTE_U ≠ 0 ∧ not32 PTE_SYSCALL &&& (PTE_U ||| PTE_W) = 0 ∧
    page_lookup (wake blockedPage) 3 0x5000 = none ∧
    syscall (wake blockedPage) 0 SYS_ipc_try_send 7 1 0x1000 (PTE_U ||| PTE_W) 0 =
      .panic (wake blockedPage) ∧
    (env (wake blockedPage) 3).env_ipc_recving = 1 ∧
    (env (wake blockedPage) 3).env_ipc_dstva = 0x5000 ∧
    page_lookup (wake blockedPage) 2 0x1000 = some { pp := 2, perm := PTE_U ||| PTE_W } ∧
    (page_insert (wake blockedPage) 3 2 0x5000 (PTE_U ||| PTE_W)).isOk = true ∧
    sys_ipc_try_send (wake blockedPage) 2 7 1 0x1000 (PTE_U ||| PTE_W) =
      .panic (wake blockedPage) := by
  decide

/-- Value and page round trip where the sender's assertion holds.  A send to a
target that has `env_ipc_recving` set, status `NOT_RUNNABLE` and
`env_ipc_dstva < UTOP`, with
`srcva < UTOP` page-aligned and mapped in the sender to the frame `p`, with `q`
containing `PTE_U` and no bit outside `PTE_SYSCALL`, containing `PTE_W` only if
the sender's mapping is writable, and with the page insertion succeeding,
returns 0; afterwards the receiver has `env_ipc_value = v`, `env_ipc_perm = q`,
`env_ipc_from` the sender's id, `env_ipc_recving` clear, status `RUNNABLE`, and
its address space maps `env_ipc_dstva` to the same frame `p` with permission
`q`. -/
theorem ipc_send_with_page (k : Kernel) (cur envid v srcva q t : Nat) (pte : Pte) (k1 : Kernel)
    (ht : envid2env k cur envid false = .ok t)
    (hrecv : (env k t).env_ipc_recving ≠ 0)
    (hst : (env k t).env_status = ENV_NOT_RUNNABLE)
    (hdst : (env k t).env_ipc_dstva < UTOP)
    (hsrc : srcva < UTOP) (hal : pageAligned srcva)
    (hmap : page_lookup k cur srcva = some pte)
    (hU : q &&& PTE_U ≠ 0) (hin : bitsWithin q PTE_SYSCALL)
    (hW : q &&& PTE_W ≠ 0 → pte.perm &&& PTE_W ≠ 0)
    (hins : page_insert k t pte.pp (env k t).env_ipc_dstva q = .ok k1) :
    ∃ k', sys_ipc_try_send k cur envid v srcva q = .ret 0 k' ∧
      (env k' t).env_ipc_value = v ∧ (env k' t).env_ipc_perm = q ∧
      (env k' t).env_ipc_from = (env k cur).env_id ∧
      (env k' t).env_ipc_recving = 0 ∧
      (env k' t).env_status = ENV_RUNNABLE ∧
      page_lookup k' t (env k t).env_ipc_dstva = some { pp := pte.pp, perm := q } := by
  have hlt := lt_of_recving hrecv
  have hfr := page_insert_frame hins
  have hlt1 : t < k1.envs.length := by
    rw [hfr.1]
    exact hlt
  obtain ⟨k', hk, h1, h2, h3, h4, h5, -, h7, -⟩ := deliver_spec k1 cur t v q 0 hlt1
  refine ⟨k', ?_, h3, h4, ?_, h1, h5, ?_⟩
  · unfold sys_ipc_try_send
    simp only [ht]
    rw [if_neg hrecv, if_neg (not_not.mpr hst), if_neg (not_not.mpr hsrc),
      if_neg (not_not.mpr hdst), if_neg (not_not.mpr (rounddown_eq_of_aligned hal))]
    have hp : ¬ (q &&& PTE_U = 0 ∨ not32 PTE_SYSCALL &&& q ≠ 0) := by
      rintro (h | h)
      · exact hU h
      · exact h (within_imp q PTE_SYSCALL PTE_SYSCALL_lt hin)
    rw [if_neg hp]
    simp only [hmap]
    have hw : ¬ (q &&& PTE_W ≠ 0 ∧ pte.bits &&& PTE_W = 0) := by
      rintro ⟨ha, hb⟩
      rw [bits_and_W] at hb
      exact hW ha hb
    rw [if_neg hw]
    simp only [hins]
    exact hk
  · rw [h2, pgdirFrame_env_id hfr cur]
  · have := page_lookup_insert hlt hins
    unfold page_lookup at this ⊢
    rw [h7 t]
    exact this

/-- The round trip on the concrete machine: the child blocked in
`sys_ipc_recv(0x5000)`; the parent sends the value 1 and its page 1 (frame 2)
with `PTE_U | PTE_W`; the call returns 0 and the child maps `0x5000` to frame 2
with that permission. -/
theorem ipc_send_with_page_witness :
    envid2env blockedPage 2 7 false = .ok 3 ∧
    page_lookup blockedPage 2 0x1000 = some { pp := 2, perm := PTE_U ||| PTE_W } ∧
    sys_ipc_try_send blockedPage 2 7 1 0x1000 (PTE_U ||| PTE_W) =
      .ret 0 (sys_ipc_try_send blockedPage 2 7 1 0x1000 (PTE_U ||| PTE_W)).state ∧
    (env (sys_ipc_try_send blockedPage 2 7 1 0x1000 (PTE_U ||| PTE_W)).state 3).env_ipc_value
      = 1 ∧
    (env (sys_ipc_try_send blockedPage 2 7 1 0x1000 (PTE_U ||| PTE_W)).state 3).env_ipc_perm
      = PTE_U ||| PTE_W ∧
    page_lookup (sys_ipc_try_send blockedPage 2 7 1 0x1000 (PTE_U ||| PTE_W)).state 3 0x5000
      = some { pp := 2, perm := PTE_U ||| PTE_W } := by
  refine ⟨by decide, by decide, ?_⟩
  obtain ⟨k', h0, h1, h2, -, -, -, h6⟩ := ipc_send_with_page blockedPage 2 7 1 0x1000
    (PTE_U ||| PTE_W) 3 { pp := 2, perm := PTE_U ||| PTE_W }
    ((syscall blockedPage 0 SYS_page_map 0 0x1000 7 0x5000 (PTE_U ||| PTE_W)).state)
    (by decide) (by decide) (by decide) (by decide) (by decide) (by decide) (by decide)
    (by decide) (bitsWithin_of_land (by decide)) (by decide) (by decide)
  rw [h0]
  exact ⟨rfl, h1, h2, h6⟩

theorem send_not_recving (k : Kernel) (cur envid value srcva perm t : Nat)
    (ht : envid2env k cur envid false = .ok t)
    (hrecv : (env k t).env_ipc_recving = 0) :
    sys_ipc_try_send k cur envid value srcva perm = .ret (-E_IPC_NOT_RECV) k := by
  unfold sys_ipc_try_send
  simp only [ht]
  rw [if_pos hrecv]

/-- C7 (no receiver).  When the target resolves and its `env_ipc_recving` is
clear, `sys_ipc_try_send` returns `-E_IPC_NOT_RECV` for every `value`, `srcva`
and `perm`, and the kernel state (every environment, the target's IPC fields and
status, the sender's status, every address space) is exactly as before. -/
theorem ipc_no_receiver (k : Kernel) (cur envid value srcva perm t : Nat)
    (ht : envid2env k cur envid false = .ok t)
    (hrecv : (env k t).env_ipc_recving = 0) :
    -E_IPC_NOT_RECV < 0 ∧
    sys_ipc_try_send k cur envid value srcva perm = .ret (-E_IPC_NOT_RECV) k :=
  ⟨by decide, send_not_recving k cur envid value srcva perm t ht hrecv⟩

/-- Witness of C7: on the concrete machine the child is not receiving; the
parent's send of a page returns `-E_IPC_NOT_RECV` and changes nothing. -/
theorem ipc_no_receiver_witness :
    envid2env machine 2 7 false = .ok 3 ∧ (env machine 3).env_ipc_recving = 0 ∧
    sys_ipc_try_send machine 2 7 42 0x1000 (PTE_U ||| PTE_W) = .ret (-E_IPC_NOT_RECV) machine :=
  ⟨by decide, by decide,
   (ipc_no_receiver machine 2 7 42 0x1000 (PTE_U ||| PTE_W) 3 (by decide) (by decide)).2⟩

theorem deliver_errno (k : Kernel) (cur t value perm : Nat) (errno r : Int) (k' : Kernel)
    (h : set_value_ontarget k cur t value perm errno = .ret r k') : r = errno := by
  unfold set_value_ontarget at h
  injection h with h1 h2
  exact h1.symm

theorem send_error_unchanged {k k' : Kernel} {cur envid value srcva perm : Nat} {r : Int}
    (h : sys_ipc_try_send k cur envid value srcva perm = .ret r k') (hr : r < 0) :
    k' = k ∧ (r = -E_BAD_ENV ∨ r = -E_IPC_NOT_RECV ∨ r = -E_INVAL ∨ r = -E_NO_MEM) := by
  unfold sys_ipc_try_send at h
  cases he : envid2env k cur envid false with
  | error e =>
    simp only [he] at h
    injection h with h1 h2
    exact ⟨h2.symm, Or.inl (h1 ▸ envid2env_error he)⟩
  | ok t =>
    simp only [he] at h
    split_ifs at h
    all_goals first
      | (have hd := deliver_errno _ _ _ _ _ _ _ _ h; omega)
      | (injection h with h1 h2; exact ⟨h2.symm, Or.inr (Or.inl h1.symm)⟩)
      | (injection h with h1 h2; exact ⟨h2.symm, Or.inr (Or.inr (Or.inl h1.symm))⟩)
      | skip
    cases hl : page_lookup k cur srcva with
    | none =>
      simp only [hl] at h
      injection h with h1 h2
      exact ⟨h2.symm, Or.inr (Or.inr (Or.inl h1.symm))⟩
    | some pte =>
      simp only [hl] at h
      split_ifs at h
      · injection h with h1 h2
        exact ⟨h2.symm, Or.inr (Or.inr (Or.inl h1.symm))⟩
      · cases hi : page_insert k t pte.pp (env k t).env_ipc_dstva perm with
        | error e =>
          simp only [hi] at h
          injection h with h1 h2
          exact ⟨h2.symm, Or.inr (Or.inr (Or.inr (h1 ▸ page_insert_error hi)))⟩
        | ok k1 =>
          simp only [hi] at h
          have := deliver_errno _ _ _ _ _ _ _ _ h
          omega

/-- C9 (failed sends deliver nothing).  Whenever `sys_ipc_try_send` returns a
negative value, that value is one of `-E_BAD_ENV`, `-E_IPC_NOT_RECV`, `-E_INVAL`
and `-E_NO_MEM`, and the kernel state is exactly as before the call: the
target's `env_ipc_recving`, `env_ipc_from`, `env_ipc_value`, `env_ipc_perm` and
status are unchanged, so every later send meets the state the failed one met. -/
theorem ipc_failed_send_unchanged (k : Kernel) (cur envid value srcva perm : Nat)
    (r : Int) (k' : Kernel)
    (h : sys_ipc_try_send k cur envid value srcva perm = .ret r k') (hr : r < 0) :
    k' = k ∧
    (r = -E_BAD_ENV ∨ r = -E_IPC_NOT_RECV ∨ r = -E_INVAL ∨ r = -E_NO_MEM) ∧
    (∀ cur2 envid2 value2 srcva2 perm2,
      sys_ipc_try_send k' cur2 envid2 value2 srcva2 perm2 =
        sys_ipc_try_send k cur2 envid2 value2 srcva2 perm2) := by
  have key := send_error_unchanged h hr
  refine ⟨key.1, key.2, ?_⟩
  intro cur2 envid2 value2 srcva2 perm2
  rw [key.1]

/-- Witness of C9: on the concrete machine the child waits for a page; the
parent's send from the misaligned address `0x1004` returns `-E_INVAL`, one of
the listed errors, and the valid send that follows meets the unchanged state
and returns 0. -/
theorem ipc_failed_send_unchanged_witness :
    sys_ipc_try_send blockedPage 2 7 1 0x1004 (PTE_U ||| PTE_W) = .ret (-E_INVAL) blockedPage ∧
    -E_INVAL < 0 ∧
    (-E_INVAL = -E_BAD_ENV ∨ -E_INVAL = -E_IPC_NOT_RECV ∨ -E_INVAL = -E_INVAL ∨
      -E_INVAL = -E_NO_MEM) ∧
    sys_ipc_try_send blockedPage 2 7 1 0x1000 (PTE_U ||| PTE_W) =
      .ret 0 (sys_ipc_try_send blockedPage 2 7 1 0x1000 (PTE_U ||| PTE_W)).state :=
  ⟨by decide, by decide,
   (ipc_failed_send_unchanged blockedPage 2 7 1 0x1004 (PTE_U ||| PTE_W) (-E_INVAL) blockedPage
     (by decide) (by decide)).2.1,
   by decide⟩

theorem envid2env_congr {k k1 : Kernel} (hl : k1.envs.length = k.envs.length)
    (hid : ∀ i, (env k1 i).env_id = (env k i).env_id)
    (hfree : ∀ i, (env k1 i).env_status = ENV_FREE ↔ (env k i).env_status = ENV_FREE)
    (cur envid : Nat) : envid2env k1 cur envid false = envid2env k cur envid false := by
  unfold envid2env ENVX NENV
  rw [hl]
  simp [hid, hfree]

theorem send_success {k k1 : Kernel} {cur envid value srcva perm t : Nat}
    (ht : envid2env k cur envid false = .ok t)
    (h : sys_ipc_try_send k cur envid value srcva perm = .ret 0 k1) :
    k1.envs.length = k.envs.length ∧
    (∀ i, (env k1 i).env_id = (env k i).env_id) ∧
    (∀ i, (env k1 i).env_status = ENV_FREE ↔ (env k i).env_status = ENV_FREE) ∧
    (env k1 t).env_ipc_recving = 0 ∧
    (env k1 t).env_ipc_from = (env k cur).env_id ∧
    (env k1 t).env_ipc_value = value ∧
    (env k1 t).env_ipc_perm =
      (if srcva < UTOP ∧ (env k t).env_ipc_dstva < UTOP then perm else 0) := by
  unfold sys_ipc_try_send at h
  simp only [ht] at h
  by_cases c1 : (env k t).env_ipc_recving = 0
  · rw [if_pos c1] at h
    injection h with h1 h2
    exact absurd h1 (by decide)
  rw [if_neg c1] at h
  by_cases c2 : (env k t).env_status ≠ ENV_NOT_RUNNABLE
  · rw [if_pos c2] at h
    cases h
  rw [if_neg c2] at h
  have hst : (env k t).env_status = ENV_NOT_RUNNABLE := not_not.mp c2
  have hlt := lt_of_recving c1
  -- what a delivery on a state `kp` that agrees with `k` up to the address space of `t` gives
  have fin : ∀ (kp : Kernel) (p : Nat), pgdirFrame k kp t →
      set_value_ontarget kp cur t value p 0 = .ret 0 k1 →
      k1.envs.length = k.envs.length ∧
      (∀ i, (env k1 i).env_id = (env k i).env_id) ∧
      (∀ i, (env k1 i).env_status = ENV_FREE ↔ (env k i).env_status = ENV_FREE) ∧
      (env k1 t).env_ipc_recving = 0 ∧
      (env k1 t).env_ipc_from = (env k cur).env_id ∧
      (env k1 t).env_ipc_value = value ∧
      (env k1 t).env_ipc_perm = p := by
    intro kp p hfr hd
    have hltp : t < kp.envs.length := by
      rw [hfr.1]
      exact hlt
    obtain ⟨k', hk, h1, h2, h3, h4, h5, h6, -, h8, h9, -⟩ := deliver_spec kp cur t value p 0 hltp
    rw [hk] at hd
    injection hd with _ hkk
    subst hkk
    refine ⟨h9.trans hfr.1, ?_, ?_, h1, ?_, h3, h4⟩
    · intro i
      by_cases hi : i = t
      · subst hi
        rw [h6, pgdirFrame_env_id hfr]
      · rw [h8 i hi, pgdirFrame_env_id hfr]
    · intro i
      by_cases hi : i = t
      · subst hi
        rw [h5, hst]
        decide
      · rw [h8 i hi, pgdirFrame_env_status hfr]
    · rw [h2, pgdirFrame_env_id hfr]
  by_cases c3 : srcva < UTOP
  · rw [if_neg (not_not.mpr c3)] at h
    by_cases c4 : (env k t).env_ipc_dstva < UTOP
    · rw [if_neg (not_not.mpr c4)] at h
      rw [if_pos ⟨c3, c4⟩]
      split_ifs at h
      all_goals first
        | (injection h with h1 h2; exact absurd h1 (by decide))
        | skip
      cases hl : page_lookup k cur srcva with
      | none =>
        simp only [hl] at h
        injection h with h1 h2
        exact absurd h1 (by decide)
      | some pte =>
        simp only [hl] at h
        split_ifs at h
        · injection h with h1 h2
          exact absurd h1 (by decide)
        · cases hi : page_insert k t pte.pp (env k t).env_ipc_dstva perm with
          | error e =>
            simp only [hi] at h
            injection h with h1 h2
            have := page_insert_error hi
            rw [h1] at this
            exact absurd this (by decide)
          | ok kp =>
            simp only [hi] at h
            exact fin kp perm (page_insert_frame hi) h
    · rw [if_pos c4] at h
      rw [if_neg (fun hc => c4 hc.2)]
      exact fin k 0 (pgdirFrame_refl k t) h
  · rw [if_pos c3] at h
    rw [if_neg (fun hc => c3 hc.1)]
    exact fin k 0 (pgdirFrame_refl k t) h

/-- C8 (at most one delivery).  Let `c :: cs` be calls of `sys_ipc_try_send`,
from any senders, all addressed to the one receiver `t` and each accepted when
executed on its own in the state `k` the receiver's `sys_ipc_recv` left.
Executed one after the other, the first call returns 0 and every other call
returns `-E_IPC_NOT_RECV` and changes nothing, so the final state is the state
the first call left; in it the receiver's `env_ipc_from` is the id of the first
sender, `env_ipc_value` its value, and `env_ipc_perm` its permission when a page
was transferred and 0 otherwise. -/
theorem ipc_at_most_one_delivery (k : Kernel) (t : Nat) (c : SendCall) (cs : List SendCall)
    (haddr : ∀ d ∈ c :: cs, envid2env k d.cur d.envid false = .ok t)
    (hacc : ∀ d ∈ c :: cs, ∃ kd, d.run k = .ret 0 kd) :
    ∃ k1, runSends k (c :: cs) = .ret 0 k1 :: cs.map (fun _ => .ret (-E_IPC_NOT_RECV) k1) ∧
      (env k1 t).env_ipc_recving = 0 ∧
      (env k1 t).env_ipc_from = (env k c.cur).env_id ∧
      (env k1 t).env_ipc_value = c.value ∧
      (env k1 t).env_ipc_perm =
        (if c.srcva < UTOP ∧ (env k t).env_ipc_dstva < UTOP then c.perm else 0) := by
  obtain ⟨k1, hk1⟩ := hacc c (List.mem_cons_self c cs)
  have htc := haddr c (List.mem_cons_self c cs)
  obtain ⟨hl, hid, hfree, hr, hfrom, hval, hperm⟩ := send_success htc hk1
  refine ⟨k1, ?_, hr, hfrom, hval, hperm⟩
  have rest : ∀ ds : List SendCall, (∀ d ∈ ds, envid2env k d.cur d.envid false = .ok t) →
      runSends k1 ds = ds.map (fun _ => .ret (-E_IPC_NOT_RECV) k1) := by
    intro ds
    induction ds with
    | nil => intro _; rfl
    | cons d ds ih =>
      intro hd
      have hdt : envid2env k1 d.cur d.envid false = .ok t := by
        rw [envid2env_congr hl hid hfree]
        exact hd d (List.mem_cons_self d ds)
      have hrun : d.run k1 = .ret (-E_IPC_NOT_RECV) k1 :=
        send_not_recving k1 d.cur d.envid d.value d.srcva d.perm t hdt hr
      show d.run k1 :: runSends (d.run k1).state ds = _
      rw [hrun]
      show _ :: runSends k1 ds = _
      rw [ih (fun e he => hd e (List.mem_cons_of_mem d he))]
      rfl
  show c.run k :: runSends (c.run k).state cs = _
  rw [hk1]
  show _ :: runSends k1 cs = _
  rw [rest cs (fun d hd => haddr d (List.mem_cons_of_mem c hd))]

/-- Witness of C8: on the concrete machine, with the child blocked in
`sys_ipc_recv(UTOP)`, three sends race (from slot 2, from slot 0 and again from
slot 2); the first returns 0, the other two `-E_IPC_NOT_RECV`, and the child
holds the value 42 of the first sender, id 6. -/
theorem ipc_at_most_one_delivery_witness :
    runSends blockedNoPage [⟨2, 7, 42, UTOP, 0⟩, ⟨0, 7, 43, UTOP, 0⟩, ⟨2, 7, 44, UTOP, 0⟩] =
      [.ret 0 (sys_ipc_try_send blockedNoPage 2 7 42 UTOP 0).state,
       .ret (-E_IPC_NOT_RECV) (sys_ipc_try_send blockedNoPage 2 7 42 UTOP 0).state,
       .ret (-E_IPC_NOT_RECV) (sys_ipc_try_send blockedNoPage 2 7 42 UTOP 0).state] ∧
    (env (sys_ipc_try_send blockedNoPage 2 7 42 UTOP 0).state 3).env_ipc_from = 6 ∧
    (env (sys_ipc_try_send blockedNoPage 2 7 42 UTOP 0).state 3).env_ipc_value = 42 := by
  obtain ⟨k1, h1, -, h3, h4, -⟩ := ipc_at_most_one_delivery blockedNoPage 3
    ⟨2, 7, 42, UTOP, 0⟩ [⟨0, 7, 43, UTOP, 0⟩, ⟨2, 7, 44, UTOP, 0⟩] (by decide)
    (by
      intro d hd
      refine ⟨(d.run blockedNoPage).state, ?_⟩
      simp only [List.mem_cons, List.mem_singleton, List.not_mem_nil, or_false] at hd
      rcases hd with rfl | rfl | rfl <;> decide)
  have hk : (sys_ipc_try_send blockedNoPage 2 7 42 UTOP 0).state = k1 := by
    have h := congrArg (fun l => (l.headD (.panic default)).state) h1
    exact h
  rw [hk]
  exact ⟨h1, h3, h4⟩

/-! ## Invariants of the reachable states -/

/-- C1 (unique execution) fails on the code.  The concrete machine is well
formed and satisfies unique execution: CPU 0 executes the parent, CPU 1 its
child.  The parent, on CPU 0, calls `sys_env_set_status(child, ENV_RUNNABLE)`,
which returns 0, and then `sys_yield`: the scheduler dispatches the child on
CPU 0 while CPU 1 is still executing it.  Both CPUs then have the child as
current environment and unique execution is lost. -/
theorem unique_execution_broken :
    wellFormed machine ∧ uniqueExecution machine ∧
    curenv machine 0 = some 2 ∧ curenv machine 1 = some 3 ∧
    syscall machine 0 SYS_env_set_status 7 ENV_RUNNABLE 0 0 0 = .ret 0 (wake machine) ∧
    syscall (wake machine) 0 SYS_yield 0 0 0 0 0 =
      .run (syscall (wake machine) 0 SYS_yield 0 0 0 0 0).state ∧
    curenv (syscall (wake machine) 0 SYS_yield 0 0 0 0 0).state 0 = some 3 ∧
    curenv (syscall (wake machine) 0 SYS_yield 0 0 0 0 0).state 1 = some 3 ∧
    ¬ uniqueExecution (syscall (wake machine) 0 SYS_yield 0 0 0 0 0).state := by
  decide

/-- C10 (receiver-state invariant) fails on the code.  On the concrete machine
the child blocks in `sys_ipc_recv(UTOP)`, which leaves the invariant intact; the
parent then applies `sys_env_set_status(child, ENV_RUNNABLE)`, which returns 0
and leaves the child with `env_ipc_recving` set and status `RUNNABLE`; the
parent's next `sys_ipc_try_send` to the child stops in the failed assertion
`target_env->env_status == ENV_NOT_RUNNABLE`. -/
theorem receiver_invariant_broken :
    wellFormed machine ∧
    syscall machine 1 SYS_ipc_recv UTOP 0 0 0 0 = .run blockedNoPage ∧
    receiverInvariant blockedNoPage ∧
    syscall blockedNoPage 0 SYS_env_set_status 7 ENV_RUNNABLE 0 0 0 =
      .ret 0 (wake blockedNoPage) ∧
    (env (wake blockedNoPage) 3).env_ipc_recving = 1 ∧
    (env (wake blockedNoPage) 3).env_status = ENV_RUNNABLE ∧
    ¬ receiverInvariant (wake blockedNoPage) ∧
    syscall (wake blockedNoPage) 0 SYS_ipc_try_send 7 42 UTOP 0 0 =
      .panic (wake blockedNoPage) := by
  decide

/-! ## The scheduler: the loop of `sched_yield` -/

theorem circ_succ (N s j : Nat) : ((s + j) % N + 1) % N = (s + (j + 1)) % N := by
  rw [Nat.mod_add_mod, Nat.add_assoc]

theorem circ_ne {N s j : Nat} (hs : s < N) (h1 : 1 ≤ j) (h2 : j < N) : (s + j) % N ≠ s := by
  by_cases h : s + j < N
  · rw [Nat.mod_eq_of_lt h]
    omega
  · rw [Nat.mod_eq_sub_mod (Nat.not_lt.mp h), Nat.mod_eq_of_lt (by omega)]
    omega

theorem sched_search_step_skip {k : Kernel} {cpu start fuel i : Nat}
    (hi : i ≠ start) (hp : ¬ picks k cpu i) :
    sched_search k cpu start (fuel + 1) i = sched_search k cpu start fuel ((i + 1) % NENV k) := by
  unfold picks at hp
  rw [sched_search, if_neg hi]
  by_cases h1 : (env k i).env_status = ENV_TYPE_IDLE ∨ (env k i).env_status = ENV_RUNNING ∨ i = cpu
  · rw [if_pos h1]
  · rw [if_neg h1]
    have h2 : ¬ (env k i).env_status = ENV_RUNNABLE := fun h => hp ⟨h, fun hc => h1 (Or.inr (Or.inr hc))⟩
    rw [if_neg h2]

theorem sched_search_step_pick {k : Kernel} {cpu start fuel i : Nat}
    (hi : i ≠ start) (hp : picks k cpu i) :
    sched_search k cpu start (fuel + 1) i = some i := by
  unfold picks at hp
  rw [sched_search, if_neg hi]
  have h1 : ¬ ((env k i).env_status = ENV_TYPE_IDLE ∨ (env k i).env_status = ENV_RUNNING ∨
      i = cpu) := by
    rw [hp.1]
    rintro (h | h | h)
    · exact absurd h (by decide)
    · exact absurd h (by decide)
    · exact hp.2 h
  rw [if_neg h1, if_pos hp.1]

/-- The loop finds the first slot that it picks, in circular order. -/
theorem sched_search_found {k : Kernel} {cpu start : Nat} (hs : start < NENV k) :
    ∀ (m j fuel : Nat), 1 ≤ j → j + m < NENV k → m < fuel →
      (∀ d, j ≤ d → d < j + m → ¬ picks k cpu ((start + d) % NENV k)) →
      picks k cpu ((start + (j + m)) % NENV k) →
      sched_search k cpu start fuel ((start + j) % NENV k) = some ((start + (j + m)) % NENV k) := by
  intro m
  induction m with
  | zero =>
    intro j fuel h1 h2 h3 _ hp
    obtain ⟨f, rfl⟩ : ∃ f, fuel = f + 1 := ⟨fuel - 1, by omega⟩
    exact sched_search_step_pick (circ_ne hs h1 (by omega)) hp
  | succ m ih =>
    intro j fuel h1 h2 h3 hno hp
    obtain ⟨f, rfl⟩ : ∃ f, fuel = f + 1 := ⟨fuel - 1, by omega⟩
    rw [sched_search_step_skip (circ_ne hs h1 (by omega)) (hno j (le_refl j) (by omega)),
      circ_succ]
    have := ih (j + 1) f (by omega) (by omega) (by omega)
      (fun d hd1 hd2 => hno d (by omega) (by omega))
      (by rw [show j + 1 + m = j + (m + 1) by omega]; exact hp)
    rw [this, show j + 1 + m = j + (m + 1) by omega]

/-- Whatever the loop returns is a slot of the table that it picks. -/
theorem sched_search_some {k : Kernel} {cpu start : Nat} :
    ∀ (fuel i r : Nat), i < NENV k → sched_search k cpu start fuel i = some r →
      picks k cpu r ∧ r < NENV k := by
  intro fuel
  induction fuel with
  | zero =>
    intro i r _ h
    simp [sched_search] at h
  | succ f ih =>
    intro i r hi h
    have hN : 0 < NENV k := by omega
    rw [sched_search] at h
    split_ifs at h with h1 h2 h3
    · exact ih _ r (Nat.mod_lt _ hN) h
    · have hr : i = r := Option.some.inj h
      subst hr
      exact ⟨⟨h3, fun hc => h2 (Or.inr (Or.inr hc))⟩, hi⟩
    · exact ih _ r (Nat.mod_lt _ hN) h

theorem sched_yield_unfold (k : Kernel) (cpu : Nat) :
    sched_yield k cpu =
      match sched_search k cpu (curenv_id k cpu) (NENV k) ((curenv_id k cpu + 1) % NENV k) with
      | some i => .run (env_run k cpu i)
      | none =>
        if (env k (curenv_id k cpu)).env_status = ENV_RUNNING then
          .run (env_run k cpu (curenv_id k cpu))
        else if ¬ k.envs.any (fun e => e.env_type != ENV_TYPE_IDLE &&
            (e.env_status == ENV_RUNNABLE || e.env_status == ENV_RUNNING)) then
          .monitor k
        else if ¬ ((env k cpu).env_status = ENV_RUNNABLE ∨
            (env k cpu).env_status = ENV_RUNNING) then
          .panic k
        else .run (env_run k cpu cpu) := rfl

/-- The loop of `sched_yield` dispatches the first slot it picks in circular
order after `curenv_id`. -/
theorem sched_yield_pick {k : Kernel} {cpu d : Nat} (hs : curenv_id k cpu < NENV k)
    (h1 : 1 ≤ d) (h2 : d < NENV k)
    (hp : picks k cpu ((curenv_id k cpu + d) % NENV k))
    (hno : ∀ e, 1 ≤ e → e < d → ¬ picks k cpu ((curenv_id k cpu + e) % NENV k)) :
    sched_yield k cpu = .run (env_run k cpu ((curenv_id k cpu + d) % NENV k)) := by
  rw [sched_yield_unfold]
  have := sched_search_found hs (d - 1) 1 (NENV k) (le_refl 1) (by omega) (by omega)
    (fun e he1 he2 => hno e he1 (by omega))
    (by rw [show 1 + (d - 1) = d by omega]; exact hp)
  rw [show 1 + (d - 1) = d by omega] at this
  rw [this]

/-- A dispatch by `sched_yield` is `env_run` on a slot that was `RUNNABLE` or
`RUNNING`; the scheduler never returns to its caller. -/
theorem sched_yield_run {k : Kernel} {cpu : Nat} (hN : 0 < NENV k) :
    (∀ r k', sched_yield k cpu ≠ .ret r k') ∧
    (∀ k', sched_yield k cpu = .run k' →
      ∃ i, k' = env_run k cpu i ∧
        ((env k i).env_status = ENV_RUNNABLE ∨ (env k i).env_status = ENV_RUNNING)) := by
  rw [sched_yield_unfold]
  cases hsr : sched_search k cpu (curenv_id k cpu) (NENV k) ((curenv_id k cpu + 1) % NENV k) with
  | some i =>
    have hp := (sched_search_some _ _ i (Nat.mod_lt _ hN) hsr).1
    refine ⟨fun r k' h => Outcome.noConfusion h, fun k' h => ?_⟩
    injection h with h
    exact ⟨i, h.symm, Or.inl hp.1⟩
  | none =>
    dsimp only
    by_cases c1 : (env k (curenv_id k cpu)).env_status = ENV_RUNNING
    · rw [if_pos c1]
      refine ⟨fun r k' h => Outcome.noConfusion h, fun k' h => ?_⟩
      injection h with h
      exact ⟨_, h.symm, Or.inr c1⟩
    rw [if_neg c1]
    by_cases c2 : ¬ k.envs.any (fun e => e.env_type != ENV_TYPE_IDLE &&
        (e.env_status == ENV_RUNNABLE || e.env_status == ENV_RUNNING))
    · rw [if_pos c2]
      exact ⟨fun r k' h => Outcome.noConfusion h, fun k' h => Outcome.noConfusion h⟩
    rw [if_neg c2]
    by_cases c3 : ¬ ((env k cpu).env_status = ENV_RUNNABLE ∨ (env k cpu).env_status = ENV_RUNNING)
    · rw [if_pos c3]
      exact ⟨fun r k' h => Outcome.noConfusion h, fun k' h => Outcome.noConfusion h⟩
    rw [if_neg c3]
    refine ⟨fun r k' h => Outcome.noConfusion h, fun k' h => ?_⟩
    injection h with h
    exact ⟨_, h.symm, not_not.mp c3⟩

/-! ## The dispatch step `env_run` -/

theorem env_run_def (k : Kernel) (cpu i : Nat) :
    env_run k cpu i =
      setEnv (setCurenv (preempt k cpu) cpu i) i
        { env (setCurenv (preempt k cpu) cpu i) i with
          env_status := ENV_RUNNING, env_cpunum := cpu } := rfl

theorem env_setCurenv (k : Kernel) (cpu i j : Nat) : env (setCurenv k cpu i) j = env k j := rfl

theorem preempt_length (k : Kernel) (cpu : Nat) : (preempt k cpu).envs.length = k.envs.length := by
  unfold preempt
  cases curenv k cpu with
  | none => rfl
  | some c =>
    dsimp only
    split_ifs
    · exact setEnv_length _ _ _
    · rfl

theorem preempt_cpus (k : Kernel) (cpu : Nat) : (preempt k cpu).cpus = k.cpus := by
  unfold preempt
  cases curenv k cpu with
  | none => rfl
  | some c =>
    dsimp only
    split_ifs <;> rfl

theorem preempt_other (k : Kernel) (cpu j : Nat)
    (h : (env k j).env_status ≠ ENV_RUNNING ∨ curenv k cpu ≠ some j) :
    env (preempt k cpu) j = env k j := by
  unfold preempt
  cases hc : curenv k cpu with
  | none => rfl
  | some c =>
    dsimp only
    by_cases hr : (env k c).env_status = ENV_RUNNING
    · rw [if_pos hr]
      have hjc : j ≠ c := by
        rintro rfl
        rcases h with h | h
        · exact h hr
        · exact h hc
      exact env_setEnv_other _ hjc
    · rw [if_neg hr]

theorem env_run_cpus (k : Kernel) (cpu i : Nat) :
    (env_run k cpu i).cpus = k.cpus.set cpu { cpu_env := some i } := by
  rw [env_run_def]
  show (preempt k cpu).cpus.set cpu _ = _
  rw [preempt_cpus]

theorem env_run_curenv (k : Kernel) (cpu i : Nat) (hc : cpu < k.cpus.length) :
    curenv (env_run k cpu i) cpu = some i := by
  unfold curenv
  rw [env_run_cpus]
  simp [List.getD_eq_getElem?_getD, List.getElem?_set, hc]

theorem env_run_curenv_other (k : Kernel) (cpu i c : Nat) (hc : c ≠ cpu) :
    curenv (env_run k cpu i) c = curenv k c := by
  unfold curenv
  rw [env_run_cpus]
  simp [List.getD_eq_getElem?_getD, List.getElem?_set, hc.symm]

theorem env_run_self (k : Kernel) (cpu i : Nat) (hi : i < NENV k) :
    (env (env_run k cpu i) i).env_status = ENV_RUNNING ∧
    (env (env_run k cpu i) i).env_cpunum = cpu := by
  have hlt : i < (setCurenv (preempt k cpu) cpu i).envs.length := by
    show i < (preempt k cpu).envs.length
    rw [preempt_length]
    exact hi
  rw [env_run_def, env_setEnv_self _ hlt]
  exact ⟨rfl, rfl⟩

theorem env_run_other (k : Kernel) (cpu i j : Nat) (hj : j ≠ i)
    (h : (env k j).env_status ≠ ENV_RUNNING ∨ curenv k cpu ≠ some j) :
    env (env_run k cpu i) j = env k j := by
  rw [env_run_def, env_setEnv_other _ hj, env_setCurenv]
  exact preempt_other k cpu j h

theorem envid2env_lt {k : Kernel} {cur envid t : Nat} {c : Bool} (hcur : cur < NENV k)
    (h : envid2env k cur envid c = .ok t) : t < NENV k := by
  unfold envid2env at h
  by_cases h0 : envid = 0
  · rw [if_pos h0] at h
    rw [← Except.ok.inj h]
    exact hcur
  · rw [if_neg h0] at h
    dsimp only at h
    split_ifs at h
    rw [← Except.ok.inj h]
    exact Nat.mod_lt _ (by omega)

/-- An environment that is `NOT_RUNNABLE` is not dispatched by a run of the
scheduler, on any CPU, and the run leaves it as it is. -/
theorem sched_blocked {k k' : Kernel} {cpu c : Nat} (hN : 0 < NENV k)
    (hst : (env k c).env_status = ENV_NOT_RUNNABLE) (h : sched_yield k cpu = .run k') :
    ∃ i, i ≠ c ∧ k' = env_run k cpu i ∧ env k' c = env k c := by
  obtain ⟨i, hk, hi⟩ := (sched_yield_run hN).2 k' h
  have hic : c ≠ i := by
    rintro rfl
    rw [hst] at hi
    rcases hi with hi | hi <;> exact absurd hi (by decide)
  refine ⟨i, hic.symm, hk, ?_⟩
  rw [hk]
  exact env_run_other k cpu i c hic (Or.inl (by rw [hst]; decide))

/-! ## `sys_env_set_status` and `sys_ipc_recv` -/

/-- C18 (`sys_env_set_status`).  When `envid` resolves under the capability
check to the target `t`: a `status` that is neither `ENV_RUNNABLE` nor
`ENV_NOT_RUNNABLE` makes the call return `-E_INVAL` with the kernel state, so
the target, unchanged; with `ENV_RUNNABLE` or `ENV_NOT_RUNNABLE` the call
returns 0 and the new state is the old one with the status of the target set to
`status`: every other field of the target and every other environment are as
before. -/
theorem env_set_status_spec (k : Kernel) (cur envid status t : Nat) (hcur : cur < NENV k)
    (ht : envid2env k cur envid true = .ok t) :
    (status ≠ ENV_RUNNABLE → status ≠ ENV_NOT_RUNNABLE →
      sys_env_set_status k cur envid status = .ret (-E_INVAL) k) ∧
    (status = ENV_RUNNABLE ∨ status = ENV_NOT_RUNNABLE →
      sys_env_set_status k cur envid status =
        .ret 0 (setEnv k t { env k t with env_status := status }) ∧
      env (setEnv k t { env k t with env_status := status }) t =
        { env k t with env_status := status } ∧
      (env (setEnv k t { env k t with env_status := status }) t).env_status = status ∧
      (∀ i, i ≠ t → env (setEnv k t { env k t with env_status := status }) i = env k i) ∧
      (setEnv k t { env k t with env_status := status }).envs.length = k.envs.length) := by
  have hlt : t < k.envs.length := envid2env_lt hcur ht
  refine ⟨?_, ?_⟩
  · intro h1 h2
    unfold sys_env_set_status
    simp only [ht]
    rw [if_pos ⟨h1, h2⟩]
  · intro h
    refine ⟨?_, env_setEnv_self _ hlt, by rw [env_setEnv_self _ hlt], fun i hi => env_setEnv_other _ hi,
      setEnv_length _ _ _⟩
    unfold sys_env_set_status
    simp only [ht]
    have hn : ¬ (status ≠ ENV_RUNNABLE ∧ status ≠ ENV_NOT_RUNNABLE) := by
      rintro ⟨h1, h2⟩
      rcases h with h | h
      · exact h1 h
      · exact h2 h
    rw [if_neg hn]

/-- Witness of C18: on the concrete machine the parent (slot 2) sets its child
(id 7, slot 3) to `ENV_NOT_RUNNABLE`, which returns 0 and stores that status,
and asks for the status `ENV_RUNNING`, which returns `-E_INVAL`. -/
theorem env_set_status_spec_witness :
    envid2env machine 2 7 true = .ok 3 ∧
    sys_env_set_status machine 2 7 ENV_RUNNING = .ret (-E_INVAL) machine ∧
    sys_env_set_status machine 2 7 ENV_NOT_RUNNABLE =
      .ret 0 (setEnv machine 3 { env machine 3 with env_status := ENV_NOT_RUNNABLE }) :=
  ⟨by decide,
   (env_set_status_spec machine 2 7 ENV_RUNNING 3 (by decide) (by decide)).1
     (by decide) (by decide),
   ((env_set_status_spec machine 2 7 ENV_NOT_RUNNABLE 3 (by decide) (by decide)).2
     (Or.inr rfl)).1⟩

/-- C11 (`sys_ipc_recv`).  For `dstva < UTOP` that is not page-aligned the call
returns `-E_INVAL` and changes nothing.  For every other `dstva` the caller's
`env_ipc_recving` is set, its `env_ipc_dstva` is `dstva`, its status is
`NOT_RUNNABLE` and its saved `eax` is 0, all else in the caller and every other
environment being as before, and the call continues as the scheduler run in
that state; the scheduler does not return, and when it dispatches, it dispatches
another environment and leaves the caller `NOT_RUNNABLE`.  In any state, an
environment whose status is `NOT_RUNNABLE` is not dispatched by a scheduler run
on any CPU. -/
theorem ipc_recv_spec (k : Kernel) (cpu cur dstva : Nat) (hcur : cur < NENV k) :
    (dstva < UTOP → ¬ pageAligned dstva → sys_ipc_recv k cpu cur dstva = .ret (-E_INVAL) k) ∧
    (UTOP ≤ dstva ∨ pageAligned dstva →
      ∃ k1,
        env k1 cur = { env k cur with
          env_ipc_recving := 1, env_ipc_dstva := dstva, env_status := ENV_NOT_RUNNABLE,
          env_tf := { (env k cur).env_tf with reg_eax := 0 } } ∧
        (∀ i, i ≠ cur → env k1 i = env k i) ∧
        k1.cpus = k.cpus ∧ k1.envs.length = k.envs.length ∧
        sys_ipc_recv k cpu cur dstva = sched_yield k1 cpu ∧
        (∀ r k', sys_ipc_recv k cpu cur dstva ≠ .ret r k') ∧
        (∀ k', sys_ipc_recv k cpu cur dstva = .run k' →
          ∃ i, i ≠ cur ∧ k' = env_run k1 cpu i ∧
            (env k' cur).env_status = ENV_NOT_RUNNABLE)) ∧
    (∀ (K K' : Kernel) (c cpu' : Nat), 0 < NENV K →
      (env K c).env_status = ENV_NOT_RUNNABLE → sched_yield K cpu' = .run K' →
      ∃ i, i ≠ c ∧ K' = env_run K cpu' i ∧ (env K' c).env_status = ENV_NOT_RUNNABLE) := by
  refine ⟨?_, ?_, ?_⟩
  · intro h1 h2
    unfold sys_ipc_recv
    rw [if_pos ⟨h1, (rounddown_ne_iff dstva).mpr h2⟩]
  · intro h
    have hself := @env_setEnv_self k cur { env k cur with
      env_ipc_recving := 1, env_ipc_dstva := dstva, env_status := ENV_NOT_RUNNABLE,
      env_tf := { (env k cur).env_tf with reg_eax := 0 } } hcur
    have hN : 0 < NENV (setEnv k cur { env k cur with
        env_ipc_recving := 1, env_ipc_dstva := dstva, env_status := ENV_NOT_RUNNABLE,
        env_tf := { (env k cur).env_tf with reg_eax := 0 } }) := by
      unfold NENV at hcur ⊢
      rw [setEnv_length]
      omega
    have hnot : ¬ (dstva < UTOP ∧ ROUNDDOWN dstva PGSIZE ≠ dstva) := by
      rintro ⟨h1, h2⟩
      rcases h with h | h
      · omega
      · exact h2 (rounddown_eq_of_aligned h)
    have heq : sys_ipc_recv k cpu cur dstva = sched_yield (setEnv k cur { env k cur with
        env_ipc_recving := 1, env_ipc_dstva := dstva, env_status := ENV_NOT_RUNNABLE,
        env_tf := { (env k cur).env_tf with reg_eax := 0 } }) cpu := by
      unfold sys_ipc_recv
      rw [if_neg hnot]
      dsimp only
      cases hs : sched_yield (setEnv k cur { env k cur with
        env_ipc_recving := 1, env_ipc_dstva := dstva, env_status := ENV_NOT_RUNNABLE,
        env_tf := { (env k cur).env_tf with reg_eax := 0 } }) cpu with
      | ret r k2 => exact absurd hs ((sched_yield_run hN).1 r k2)
      | run k2 => rfl
      | monitor k2 => rfl
      | panic k2 => rfl
    refine ⟨_, hself, fun i hi => env_setEnv_other _ hi, rfl, setEnv_length _ _ _, heq, ?_, ?_⟩
    · intro r k'
      rw [heq]
      exact (sched_yield_run hN).1 r k'
    · intro k' hk'
      rw [heq] at hk'
      obtain ⟨i, hi, hk, he⟩ := sched_blocked hN (by rw [hself]) hk'
      exact ⟨i, hi, hk, by rw [he, hself]⟩
  · intro K K' c cpu' hN hst h
    obtain ⟨i, hi, hk, he⟩ := sched_blocked hN hst h
    exact ⟨i, hi, hk, by rw [he, hst]⟩

/-- Witness of C11: on the concrete machine the child (slot 3, on CPU 1) calls
`sys_ipc_recv` at the misaligned address `0x5004`, which returns `-E_INVAL`, and
at `0x5000`, after which it is receiving at `0x5000` and `NOT_RUNNABLE`, and
CPU 1 executes another environment. -/
theorem ipc_recv_spec_witness :
    sys_ipc_recv machine 1 3 0x5004 = .ret (-E_INVAL) machine ∧
    sys_ipc_recv machine 1 3 0x5000 = .run blockedPage ∧
    (env blockedPage 3).env_ipc_recving = 1 ∧
    (env blockedPage 3).env_ipc_dstva = 0x5000 ∧
    (env blockedPage 3).env_status = ENV_NOT_RUNNABLE ∧
    curenv blockedPage 1 ≠ some 3 :=
  ⟨(ipc_recv_spec machine 1 3 0x5004 (by decide)).1 (by decide) (by decide),
   by decide, by decide, by decide, by decide, by decide⟩

/-! ## Round-robin selection -/

theorem circ_surj {N s i : Nat} (hs : s < N) (hi : i < N) (hne : i ≠ s) :
    ∃ d, 1 ≤ d ∧ d < N ∧ (s + d) % N = i := by
  by_cases h : s < i
  · exact ⟨i - s, by omega, by omega, by
      rw [show s + (i - s) = i by omega, Nat.mod_eq_of_lt hi]⟩
  · exact ⟨N - s + i, by omega, by omega, by
      rw [show s + (N - s + i) = N + i by omega, Nat.add_mod_left, Nat.mod_eq_of_lt hi]⟩

theorem curenv_id_eq_startSlot {k : Kernel} {cpu : Nat}
    (hid : ∀ c, curenv k cpu = some c → ENVX k (env k c).env_id = c) :
    curenv_id k cpu = startSlot k cpu := by
  unfold curenv_id startSlot
  cases hc : curenv k cpu with
  | none => rfl
  | some c => exact hid c hc

/-- C12 (round-robin selection).  Let `start` be the slot of this CPU's current
environment, or this CPU's id when it has none.  In a state in which the slots
below `NCPU` hold IDLE-type environments, no IDLE-type environment is
`RUNNABLE`, and some slot other than `start` is `RUNNABLE`, `sched_yield`
dispatches the slot `(start + d) mod NENV` for the least `d ≥ 1` at which that
slot is `RUNNABLE`: no slot earlier in the circular order is `RUNNABLE`, and the
dispatched environment is `RUNNING` on this CPU and is its current
environment. -/
theorem round_robin_selection (k : Kernel) (cpu : Nat)
    (hcpu : cpu < k.cpus.length)
    (hstart : startSlot k cpu < NENV k)
    (hid : ∀ c, curenv k cpu = some c → ENVX k (env k c).env_id = c)
    (hidle : ∀ i, i < k.cpus.length → (env k i).env_type = ENV_TYPE_IDLE)
    (hnr : ∀ i, i < NENV k → (env k i).env_type = ENV_TYPE_IDLE →
      (env k i).env_status ≠ ENV_RUNNABLE)
    (hex : ∃ i, i < NENV k ∧ i ≠ startSlot k cpu ∧ (env k i).env_status = ENV_RUNNABLE) :
    ∃ d, 1 ≤ d ∧ d < NENV k ∧
      (env k ((startSlot k cpu + d) % NENV k)).env_status = ENV_RUNNABLE ∧
      (∀ e, 1 ≤ e → e < d →
        (env k ((startSlot k cpu + e) % NENV k)).env_status ≠ ENV_RUNNABLE) ∧
      sched_yield k cpu = .run (env_run k cpu ((startSlot k cpu + d) % NENV k)) ∧
      (env (env_run k cpu ((startSlot k cpu + d) % NENV k))
        ((startSlot k cpu + d) % NENV k)).env_status = ENV_RUNNING ∧
      (env (env_run k cpu ((startSlot k cpu + d) % NENV k))
        ((startSlot k cpu + d) % NENV k)).env_cpunum = cpu ∧
      curenv (env_run k cpu ((startSlot k cpu + d) % NENV k)) cpu =
        some ((startSlot k cpu + d) % NENV k) := by
  have hci := curenv_id_eq_startSlot hid
  obtain ⟨i, hi, hne, hri⟩ := hex
  obtain ⟨d0, hd1, hd2, hd3⟩ := circ_surj hstart hi hne
  have hP : ∃ d, 1 ≤ d ∧ d < NENV k ∧
      (env k ((startSlot k cpu + d) % NENV k)).env_status = ENV_RUNNABLE :=
    ⟨d0, hd1, hd2, by rw [hd3]; exact hri⟩
  classical
  obtain ⟨h1, h2, h3⟩ := Nat.find_spec hP
  have hmin : ∀ e, 1 ≤ e → e < Nat.find hP →
      (env k ((startSlot k cpu + e) % NENV k)).env_status ≠ ENV_RUNNABLE := by
    intro e he1 he2 hr
    exact Nat.find_min hP he2 ⟨he1, by omega, hr⟩
  have hN : 0 < NENV k := by omega
  have hslot : (startSlot k cpu + Nat.find hP) % NENV k < NENV k := Nat.mod_lt _ hN
  have hnotcpu : (startSlot k cpu + Nat.find hP) % NENV k ≠ cpu := by
    intro hc
    have ht := hidle cpu hcpu
    rw [← hc] at ht
    exact hnr _ hslot ht h3
  refine ⟨Nat.find hP, h1, h2, h3, hmin, ?_, (env_run_self k cpu _ hslot).1,
    (env_run_self k cpu _ hslot).2, env_run_curenv k cpu _ hcpu⟩
  have := @sched_yield_pick k cpu (Nat.find hP) (by rw [hci]; exact hstart) h1 h2
    (by rw [hci]; exact ⟨h3, hnotcpu⟩)
    (by
      intro e he1 he2 hp
      rw [hci] at hp
      exact hmin e he1 he2 hp.1)
  rw [hci] at this
  exact this

/-- Witness of C12: on the machine whose CPUs are both idle, CPU 0 starts at
slot 0; slot 1 is not `RUNNABLE`, slot 2 is, and `sched_yield` dispatches
slot 2. -/
theorem round_robin_selection_witness :
    startSlot idleMachine 0 = 0 ∧
    (env idleMachine 1).env_status ≠ ENV_RUNNABLE ∧
    (env idleMachine 2).env_status = ENV_RUNNABLE ∧
    sched_yield idleMachine 0 = .run (env_run idleMachine 0 2) ∧
    (∃ d, 1 ≤ d ∧ d < NENV idleMachine ∧
      sched_yield idleMachine 0 =
        .run (env_run idleMachine 0 ((startSlot idleMachine 0 + d) % NENV idleMachine))) := by
  refine ⟨by decide, by decide, by decide, by decide, ?_⟩
  obtain ⟨d, h1, h2, -, -, h5, -⟩ := round_robin_selection idleMachine 0 (by decide) (by decide)
    (by decide) (by decide) (by decide) ⟨2, by decide, by decide, by decide⟩
  exact ⟨d, h1, h2, h5⟩

/-! ## The scheduler and the idle environments -/

/-- C14 (idle environments stay on their own CPU) fails on the code.  On the
concrete machine slot 0 holds the idle environment of CPU 0, of type IDLE and
`RUNNABLE`.  The child yields on CPU 1: the loop of `sched_yield` tests
`env_status` against `ENV_TYPE_IDLE`, never `env_type`, and dispatches slot 0 on
CPU 1. -/
theorem idle_dispatched_on_foreign_cpu :
    wellFormed machine ∧
    (env machine 0).env_type = ENV_TYPE_IDLE ∧ (env machine 0).env_status = ENV_RUNNABLE ∧
    sched_yield machine 1 = .run (env_run machine 1 0) ∧
    syscall machine 1 SYS_yield 0 0 0 0 0 = .run (env_run machine 1 0) ∧
    curenv (env_run machine 1 0) 1 = some 0 ∧
    (env (env_run machine 1 0) 0).env_type = ENV_TYPE_IDLE ∧
    (env (env_run machine 1 0) 0).env_status = ENV_RUNNING ∧
    (env (env_run machine 1 0) 0).env_cpunum = 1 := by
  decide

/-- C15 (never choose an environment running on another CPU) fails on the code.
In `idleExited` CPU 0 has no current environment while slot 0, its idle
environment, is `RUNNING` on CPU 1 and is the current environment of CPU 1; the
state is the one in which `sys_env_destroy(0)` enters the scheduler on CPU 0 in
`swappedIdle`.  `sched_yield` on CPU 0 finds no `RUNNABLE` slot, reads
`envs[thiscpu_id]` as the previous environment, sees `RUNNING` and dispatches
slot 0 on CPU 0.  In `doubled` the child (slot 3) is `RUNNING` on CPU 0 and is
also the current environment of CPU 1; `sched_yield` on CPU 1 resumes it there
because its status is `RUNNING`, whatever its `env_cpunum`. -/
theorem running_elsewhere_dispatched :
    wellFormed machine ∧
    syscall swappedIdle 0 SYS_env_destroy 0 0 0 0 0 = sched_yield idleExited 0 ∧
    curenv idleExited 0 = none ∧ curenv idleExited 1 = some 0 ∧
    (env idleExited 0).env_status = ENV_RUNNING ∧ (env idleExited 0).env_cpunum = 1 ∧
    sched_yield idleExited 0 = .run (env_run idleExited 0 0) ∧
    curenv (env_run idleExited 0 0) 0 = some 0 ∧ curenv (env_run idleExited 0 0) 1 = some 0 ∧
    curenv doubled 1 = some 3 ∧ curenv doubled 0 = some 3 ∧
    (env doubled 3).env_status = ENV_RUNNING ∧ (env doubled 3).env_cpunum = 0 ∧
    sched_yield doubled 1 = .run (env_run doubled 1 3) := by
  decide

theorem monitor_only_when_empty {k k' : Kernel} {cpu : Nat}
    (h : sched_yield k cpu = .monitor k') :
    ¬ k.envs.any (fun e => e.env_type != ENV_TYPE_IDLE &&
      (e.env_status == ENV_RUNNABLE || e.env_status == ENV_RUNNING)) := by
  rw [sched_yield_unfold] at h
  cases hsr : sched_search k cpu (curenv_id k cpu) (NENV k) ((curenv_id k cpu + 1) % NENV k) with
  | some i =>
    rw [hsr] at h
    exact Outcome.noConfusion h
  | none =>
    rw [hsr] at h
    dsimp only at h
    by_cases c1 : (env k (curenv_id k cpu)).env_status = ENV_RUNNING
    · rw [if_pos c1] at h
      exact Outcome.noConfusion h
    rw [if_neg c1] at h
    by_cases c2 : ¬ k.envs.any (fun e => e.env_type != ENV_TYPE_IDLE &&
        (e.env_status == ENV_RUNNABLE || e.env_status == ENV_RUNNING))
    · exact c2
    rw [if_neg c2] at h
    split_ifs at h

/-- C16 (monitor on an empty system) fails on the code.  In `swappedIdle` no
environment that is not of type IDLE is `RUNNABLE` or `RUNNING`.  On CPU 0,
whose current environment (slot 1) is `RUNNING`, `sched_yield` resumes that
environment: the test for an empty system comes after the resume branch and is
not reached.  In the state in which the second receiver enters the scheduler the
system is empty as well, and the loop dispatches the `RUNNABLE` idle environment
of the other CPU.  In neither case is the monitor entered. -/
theorem monitor_not_entered :
    wellFormed machine ∧
    (∀ i, i < NENV swappedIdle → (env swappedIdle i).env_type ≠ ENV_TYPE_IDLE →
      (env swappedIdle i).env_status ≠ ENV_RUNNABLE ∧
      (env swappedIdle i).env_status ≠ ENV_RUNNING) ∧
    sched_yield swappedIdle 0 = .run (env_run swappedIdle 0 1) ∧
    syscall swappedIdle 0 SYS_yield 0 0 0 0 0 = .run (env_run swappedIdle 0 1) ∧
    sched_yield swappedIdle 0 ≠ .monitor swappedIdle ∧
    (∀ i, i < NENV blockedNoPage → i ≠ 2 → (env blockedNoPage i).env_type ≠ ENV_TYPE_IDLE →
      (env blockedNoPage i).env_status ≠ ENV_RUNNABLE ∧
      (env blockedNoPage i).env_status ≠ ENV_RUNNING) ∧
    (env blockedNoPage 1).env_type = ENV_TYPE_IDLE ∧
    (env blockedNoPage 1).env_status = ENV_RUNNABLE ∧
    syscall blockedNoPage 0 SYS_ipc_recv UTOP 0 0 0 0 = .run swappedIdle ∧
    curenv swappedIdle 0 = some 1 := by
  decide

/-! ## Error propagation -/

theorem foldl_decref_envs {α : Type} (g : α → Nat) (l : List α) :
    ∀ k : Kernel, (l.foldl (fun acc m => page_decref acc (g m)) k).envs = k.envs ∧
      (l.foldl (fun acc m => page_decref acc (g m)) k).cpus = k.cpus := by
  induction l with
  | nil => intro k; exact ⟨rfl, rfl⟩
  | cons a l ih =>
    intro k
    rw [List.foldl_cons]
    have h1 := ih (page_decref k (g a))
    have h2 := page_decref_envs k (g a)
    exact ⟨h1.1.trans h2.1, h1.2.trans h2.2⟩

theorem env_free_spec (k : Kernel) (t : Nat) (ht : t < NENV k) :
    (env (env_free k t) t).env_status = ENV_FREE ∧
    (∀ i, i ≠ t → env (env_free k t) i = env k i) ∧
    (env_free k t).envs.length = k.envs.length ∧ (env_free k t).cpus = k.cpus := by
  have hK : ∀ K3 : Kernel, K3.envs = k.envs → K3.cpus = k.cpus →
      (env (setEnv K3 t { env K3 t with
        env_status := ENV_FREE,
        env_pgdir := { pgdir_frame := none, pgtables := [], ptes := [] } }) t).env_status
          = ENV_FREE ∧
      (∀ i, i ≠ t → env (setEnv K3 t { env K3 t with
        env_status := ENV_FREE,
        env_pgdir := { pgdir_frame := none, pgtables := [], ptes := [] } }) i = env k i) ∧
      (setEnv K3 t { env K3 t with
        env_status := ENV_FREE,
        env_pgdir := { pgdir_frame := none, pgtables := [], ptes := [] } }).envs.length
          = k.envs.length ∧
      (setEnv K3 t { env K3 t with
        env_status := ENV_FREE,
        env_pgdir := { pgdir_frame := none, pgtables := [], ptes := [] } }).cpus = k.cpus := by
    intro K3 he hc
    refine ⟨?_, ?_, ?_, hc⟩
    · rw [env_setEnv_self _ (by rw [he]; exact ht)]
    · intro i hi
      rw [env_setEnv_other _ hi]
      unfold env
      rw [he]
    · rw [setEnv_length, he]
  have h1 := foldl_decref_envs (fun m : Nat × Pte => m.2.pp) (env k t).env_pgdir.ptes k
  have h2 := foldl_decref_envs (fun m : Nat × Nat => m.2) (env k t).env_pgdir.pgtables
    ((env k t).env_pgdir.ptes.foldl (fun acc m => page_decref acc m.2.pp) k)
  unfold env_free
  dsimp only
  cases hf : (env k t).env_pgdir.pgdir_frame with
  | none => exact hK _ (h2.1.trans h1.1) (h2.2.trans h1.2)
  | some f =>
    have h3 := page_decref_envs ((env k t).env_pgdir.pgtables.foldl
      (fun acc t => page_decref acc t.2)
      ((env k t).env_pgdir.ptes.foldl (fun acc m => page_decref acc m.2.pp) k)) f
    exact hK _ (h3.1.trans (h2.1.trans h1.1)) (h3.2.trans (h2.2.trans h1.2))

theorem sched_yield_stop {k k' : Kernel} {cpu : Nat}
    (h : sched_yield k cpu = .monitor k' ∨ sched_yield k cpu = .panic k') : k' = k := by
  rw [sched_yield_unfold] at h
  cases hsr : sched_search k cpu (curenv_id k cpu) (NENV k) ((curenv_id k cpu + 1) % NENV k) with
  | some i =>
    rw [hsr] at h
    rcases h with h | h <;> exact Outcome.noConfusion h
  | none =>
    rw [hsr] at h
    dsimp only at h
    split_ifs at h
    all_goals first
      | exact h.elim
      | (rcases h with h | h <;> first
          | exact h.elim
          | exact Outcome.noConfusion h
          | (injection h with h1; exact h1.symm))

/-- After a scheduler run an environment that was `FREE` is `FREE`. -/
theorem sched_keeps_free {k : Kernel} {cpu t : Nat} (hN : 0 < NENV k)
    (hf : (env k t).env_status = ENV_FREE) :
    (env (sched_yield k cpu).state t).env_status = ENV_FREE := by
  cases ho : sched_yield k cpu with
  | ret r k' => exact absurd ho ((sched_yield_run hN).1 r k')
  | run k' =>
    obtain ⟨i, hk, hi⟩ := (sched_yield_run hN).2 k' ho
    have hti : t ≠ i := by
      rintro rfl
      rw [hf] at hi
      rcases hi with hi | hi <;> exact absurd hi (by decide)
    show (env k' t).env_status = ENV_FREE
    rw [hk, env_run_other k cpu i t hti (Or.inl (by rw [hf]; decide))]
    exact hf
  | monitor k' =>
    show (env k' t).env_status = ENV_FREE
    rw [sched_yield_stop (Or.inl ho)]
    exact hf
  | panic k' =>
    show (env k' t).env_status = ENV_FREE
    rw [sched_yield_stop (Or.inr ho)]
    exact hf

/-- The function `env_destroy` leaves the slot of its target `FREE`, also when
it ends in the scheduler. -/
theorem env_destroy_free (k : Kernel) (cpu t : Nat) (ht : t < NENV k) :
    (env (env_destroy k cpu t).state t).env_status = ENV_FREE := by
  have hlt : t < NENV (setEnv k t { env k t with env_status := ENV_DYING }) := by
    unfold NENV
    rw [setEnv_length]
    exact ht
  obtain ⟨h1, -, h3, -⟩ := env_free_spec (setEnv k t { env k t with env_status := ENV_DYING }) t hlt
  unfold env_destroy
  dsimp only
  split_ifs
  · apply sched_keeps_free
    · show 0 < (env_free _ t).envs.length
      rw [h3, setEnv_length]
      unfold NENV at ht
      omega
    · exact h1
  · exact h1

theorem syscall_eq {k : Kernel} {cpu cur : Nat} (hc : curenv k cpu = some cur)
    (syscallno a1 a2 a3 a4 a5 : Nat) :
    syscall k cpu syscallno a1 a2 a3 a4 a5 =
      if syscallno = SYS_cputs then voidRet (sys_cputs k cpu cur a1 a2)
      else if syscallno = SYS_cgetc then sys_cgetc k
      else if syscallno = SYS_getenvid then sys_getenvid k cur
      else if syscallno = SYS_env_destroy then sys_env_destroy k cpu cur a1
      else if syscallno = SYS_yield then voidRet (sys_yield k cpu)
      else if syscallno = SYS_exofork then sys_exofork k cur
      else if syscallno = SYS_env_set_status then sys_env_set_status k cur a1 a2
      else if syscallno = SYS_page_alloc then sys_page_alloc k cur a1 a2 a3
      else if syscallno = SYS_page_map then sys_page_map k cur a1 a2 a3 a4 a5
      else if syscallno = SYS_page_unmap then sys_page_unmap k cur a1 a2
      else if syscallno = SYS_env_set_pgfault_upcall then
        sys_env_set_pgfault_upcall k cpu cur a1 a2
      else if syscallno = SYS_ipc_try_send then sys_ipc_try_send k cur a1 a2 a3 a4
      else if syscallno = SYS_ipc_recv then sys_ipc_recv k cpu cur a1
      else if syscallno = SYS_get_cpuid then sys_get_cpuid k cpu
      else .ret (-E_INVAL) k := by
  unfold syscall
  simp only [hc]

theorem upcall_bad_func_frees {k : Kernel} {cpu cur envid func t : Nat} (hcur : cur < NENV k)
    (ht : envid2env k cur envid true = .ok t)
    (hbad : user_mem_check k t func 4 PTE_U = false) :
    (env (sys_env_set_pgfault_upcall k cpu cur envid func).state t).env_status = ENV_FREE := by
  have htl := envid2env_lt hcur ht
  have hfree := env_destroy_free k cpu t htl
  have hpu : PTE_U ||| PTE_U = PTE_U := by decide
  unfold sys_env_set_pgfault_upcall
  simp only [ht]
  unfold user_mem_assert
  rw [hpu, hbad]
  simp only [Bool.false_eq_true, if_false]
  cases hd : env_destroy k cpu t with
  | ret r k2 =>
    rw [hd] at hfree
    have hfree2 : (env k2 t).env_status = ENV_FREE := hfree
    by_cases hl : t < k2.envs.length
    · show (env (setEnv k2 t _) t).env_status = ENV_FREE
      rw [env_setEnv_self _ hl]
      exact hfree2
    · rw [env_default_of_ge hl] at hfree2
      show (env (setEnv k2 t _) t).env_status = ENV_FREE
      rw [env_default_of_ge (by rw [setEnv_length]; exact hl)]
      exact hfree2
  | run k2 =>
    rw [hd] at hfree
    exact hfree
  | monitor k2 =>
    rw [hd] at hfree
    exact hfree
  | panic k2 =>
    rw [hd] at hfree
    exact hfree

theorem ret_inj {r r2 : Int} {k k2 : Kernel} (h : Outcome.ret r k = .ret r2 k2) :
    r = r2 ∧ k = k2 := by
  injection h with h1 h2
  exact ⟨h1, h2⟩

theorem page_alloc_free {k k1 : Kernel} {pp : Nat} (h : page_alloc k ALLOC_ZERO = some (pp, k1)) :
    unchangedTables k (page_free k1 pp) := by
  unfold page_alloc at h
  cases hf : k.page_free_list with
  | nil => simp [hf] at h
  | cons a rest =>
    simp only [hf] at h
    split_ifs at h
    all_goals
      simp only [Option.some.injEq, Prod.mk.injEq] at h
      rw [← h.2, ← h.1]
      exact ⟨rfl, rfl, hf.symm, rfl⟩

theorem voidRet_nonneg {o : Outcome} {r : Int} {k2 : Kernel} (h : voidRet o = .ret r k2) :
    r = 0 := by
  unfold voidRet at h
  split at h
  · exact (ret_inj h).1.symm
  · rename_i hno
    exact absurd h (hno r k2)

theorem lookup_filter_ne {β : Type} (l : List (Nat × β)) (a b : Nat) (h : b ≠ a) :
    (l.filter (fun m => m.1 != a)).lookup b = l.lookup b := by
  induction l with
  | nil => rfl
  | cons x xs ih =>
    obtain ⟨x1, x2⟩ := x
    by_cases hx : x1 = a
    · subst hx
      have hb : (b == x1) = false := by simpa using h
      simp [List.filter_cons, List.lookup_cons, hb, ih]
    · by_cases hbx : b = x1
      · subst hbx
        simp [List.filter_cons, List.lookup_cons, hx]
      · have hb : (b == x1) = false := by simpa using hbx
        simp [List.filter_cons, List.lookup_cons, hx, hb, ih]

theorem getD_set_self {α : Type} (l : List (List α)) (a : Nat) :
    (l.set a []).getD a [] = [] := by
  by_cases hl : a < l.length
  · simp [List.getD_eq_getElem?_getD, hl]
  · have hn : (l.set a [])[a]? = none :=
      List.getElem?_eq_none (by rw [List.length_set]; omega)
    rw [List.getD_eq_getElem?_getD, hn]
    rfl

theorem getD_set_nil {α : Type} (l : List (List α)) (a b : Nat) (h : l.getD b [] = []) :
    (l.set a []).getD b [] = [] := by
  by_cases hab : a = b
  · subst hab
    exact getD_set_self l a
  · simp only [List.getD_eq_getElem?_getD] at h ⊢
    rw [List.getElem?_set_ne hab]
    exact h

theorem sys_page_alloc_static {k : Kernel} {cur envid va perm : Nat} (hs : staticOK va perm) :
    sys_page_alloc k cur envid va perm =
      match envid2env k cur envid true with
      | .error errno => .ret errno k
      | .ok target_env =>
        match page_alloc k ALLOC_ZERO with
        | none => .panic k
        | some (newpage, k1) =>
          match page_insert k1 target_env newpage va perm with
          | .error errno => .ret errno (page_free k1 newpage)
          | .ok k2 => .ret 0 k2 := by
  obtain ⟨h1, h2, h3, h4⟩ := hs
  have c1 : ¬ (not32 PTE_SYSCALL &&& perm ≠ 0) := by
    rw [within_imp perm PTE_SYSCALL PTE_SYSCALL_lt h1]
    exact fun h => h rfl
  have c3 : ¬ (va ≥ UTOP) := by omega
  have c4 : ¬ (ROUNDDOWN va PGSIZE ≠ va) := by
    rw [rounddown_eq_of_aligned h4]
    exact fun h => h rfl
  unfold sys_page_alloc
  rw [if_neg c1, if_neg h2, if_neg c3, if_neg c4]

theorem page_alloc_zero {k k1 : Kernel} {pp : Nat} (h : page_alloc k ALLOC_ZERO = some (pp, k1)) :
    frameData k1 pp = [] ∧ k.page_free_list = pp :: k1.page_free_list ∧ k1.pp_ref = k.pp_ref := by
  unfold page_alloc at h
  cases hf : k.page_free_list with
  | nil => simp [hf] at h
  | cons a rest =>
    simp only [hf] at h
    rw [if_pos (by decide)] at h
    simp only [Option.some.injEq, Prod.mk.injEq] at h
    rw [← h.2, ← h.1]
    exact ⟨getD_set_self _ _, rfl, rfl⟩

theorem page_alloc_keeps_zero {k k1 : Kernel} {pp pt fl : Nat}
    (h : page_alloc k fl = some (pt, k1)) (hz : frameData k pp = []) : frameData k1 pp = [] := by
  unfold page_alloc at h
  cases hf : k.page_free_list with
  | nil => simp [hf] at h
  | cons a rest =>
    simp only [hf] at h
    split_ifs at h
    · simp only [Option.some.injEq, Prod.mk.injEq] at h
      rw [← h.2]
      exact getD_set_nil _ _ _ hz
    · simp only [Option.some.injEq, Prod.mk.injEq] at h
      rw [← h.2]
      exact hz

theorem page_decref_data (k : Kernel) (pp : Nat) : (page_decref k pp).pp_data = k.pp_data := by
  unfold page_decref page_free
  dsimp only
  split_ifs <;> rfl

theorem page_remove_data (k : Kernel) (t va : Nat) : (page_remove k t va).pp_data = k.pp_data := by
  unfold page_remove
  cases h : page_lookup k t va with
  | none => rfl
  | some pte => exact page_decref_data k pte.pp

theorem pgdir_walk_create_keeps_zero {k k1 : Kernel} {t va pp : Nat}
    (h : pgdir_walk_create k t va = some k1) (hz : frameData k pp = []) :
    frameData k1 pp = [] := by
  unfold pgdir_walk_create at h
  by_cases hw : ((env k t).env_pgdir.pgtables.lookup (PDX va)).isSome
  · rw [if_pos hw] at h
    rw [← Option.some.inj h]
    exact hz
  · rw [if_neg hw] at h
    cases ha : page_alloc k ALLOC_ZERO with
    | none => simp [ha] at h
    | some r =>
      obtain ⟨pt, ka⟩ := r
      simp only [ha] at h
      rw [← Option.some.inj h]
      have h1 : frameData ka pp = [] := page_alloc_keeps_zero ha hz
      exact h1

theorem page_insert_keeps_zero {k k1 : Kernel} {t pp va perm q : Nat}
    (h : page_insert k t pp va perm = .ok k1) (hz : frameData k q = []) :
    frameData k1 q = [] := by
  unfold page_insert at h
  cases hw : pgdir_walk_create k t va with
  | none => simp [hw] at h
  | some kw =>
    simp only [hw] at h
    rw [← Except.ok.inj h]
    have h1 := pgdir_walk_create_keeps_zero hw hz
    unfold frameData at h1 ⊢
    show (page_remove (page_incref kw pp) t va).pp_data.getD q [] = []
    rw [page_remove_data]
    exact h1

theorem otherMappings_of_ptes {k k1 : Kernel} {t : Nat} (va : Nat)
    (h : (env k1 t).env_pgdir.ptes = (env k t).env_pgdir.ptes) : otherMappings k k1 t va := by
  intro va2 _
  unfold page_lookup
  rw [h]

theorem otherMappings_trans {k k1 k2 : Kernel} {t va : Nat}
    (h1 : otherMappings k k1 t va) (h2 : otherMappings k1 k2 t va) : otherMappings k k2 t va :=
  fun va2 hne => (h2 va2 hne).trans (h1 va2 hne)

theorem env_of_envs {k k1 : Kernel} (h : k1.envs = k.envs) (i : Nat) : env k1 i = env k i := by
  unfold env
  rw [h]

theorem ptes_setEnv (k : Kernel) (t : Nat) (e : Env)
    (he : e.env_pgdir.ptes = (env k t).env_pgdir.ptes) :
    (env (setEnv k t e) t).env_pgdir.ptes = (env k t).env_pgdir.ptes := by
  by_cases ht : t < k.envs.length
  · rw [env_setEnv_self _ ht]
    exact he
  · rw [env_default_of_ge (by rw [setEnv_length]; exact ht), env_default_of_ge ht]

theorem ptes_set_pgtables (k : Kernel) (t : Nat) (pts : List (Nat × Nat)) :
    (env (setEnv k t { env k t with env_pgdir :=
      { (env k t).env_pgdir with pgtables := pts } }) t).env_pgdir.ptes
      = (env k t).env_pgdir.ptes :=
  ptes_setEnv k t _ rfl

theorem pgdir_walk_create_ptes {k k1 : Kernel} {t va : Nat}
    (h : pgdir_walk_create k t va = some k1) :
    (env k1 t).env_pgdir.ptes = (env k t).env_pgdir.ptes := by
  unfold pgdir_walk_create at h
  by_cases hw : ((env k t).env_pgdir.pgtables.lookup (PDX va)).isSome
  · rw [if_pos hw] at h
    rw [← Option.some.inj h]
  · rw [if_neg hw] at h
    cases ha : page_alloc k ALLOC_ZERO with
    | none => simp [ha] at h
    | some r =>
      obtain ⟨pt, ka⟩ := r
      simp only [ha] at h
      rw [← Option.some.inj h]
      have e1 : env { ka with pp_ref := ka.pp_ref.set pt 1 } t = env k t :=
        env_of_envs (page_alloc_envs ha).1 t
      refine (ptes_set_pgtables _ t _).trans ?_
      rw [e1]

theorem page_remove_other (k : Kernel) (t va : Nat) :
    otherMappings k (page_remove k t va) t va := by
  unfold page_remove
  cases h : page_lookup k t va with
  | none => exact fun _ _ => rfl
  | some pte =>
    dsimp only
    intro va2 hne
    have e1 : env (page_decref k pte.pp) t = env k t := env_of_envs (page_decref_envs k pte.pp).1 t
    by_cases ht : t < (page_decref k pte.pp).envs.length
    · unfold page_lookup
      rw [env_setEnv_self _ ht, e1]
      exact lookup_filter_ne _ _ _ hne
    · unfold page_lookup
      rw [env_default_of_ge (by rw [setEnv_length]; exact ht), ← e1, env_default_of_ge ht]

theorem setPte_other (k : Kernel) (t va : Nat) (pte : Pte) :
    otherMappings k (setPte k t va pte) t va := by
  intro va2 hne
  unfold setPte page_lookup
  by_cases ht : t < k.envs.length
  · rw [env_setEnv_self _ ht]
    have hb : (PGNUM va2 == PGNUM va) = false := by simpa using hne
    simp [List.lookup_cons, hb]
  · rw [env_default_of_ge (by rw [setEnv_length]; exact ht), env_default_of_ge ht]

theorem page_insert_other {k k1 : Kernel} {t pp va perm : Nat}
    (h : page_insert k t pp va perm = .ok k1) : otherMappings k k1 t va := by
  unfold page_insert at h
  cases hw : pgdir_walk_create k t va with
  | none => simp [hw] at h
  | some kw =>
    simp only [hw] at h
    rw [← Except.ok.inj h]
    exact otherMappings_trans (otherMappings_of_ptes va (pgdir_walk_create_ptes hw))
      (otherMappings_trans
        (otherMappings_of_ptes va (rfl :
          (env (page_incref kw pp) t).env_pgdir.ptes = (env kw t).env_pgdir.ptes))
        (otherMappings_trans (page_remove_other _ t va) (setPte_other _ t va _)))

/-- Claim C19: whenever `perm` has `PTE_U` and no bit outside `PTE_SYSCALL`
(with or without `PTE_P`), `va` is page-aligned and below `UTOP`, the caller may
manipulate `envid`, and the paging layer allocates the frame `pp` and inserts
it, `sys_page_alloc` returns 0; `va` is then mapped in the target to `pp` with
permission `perm`; `pp` was the head of the free list and is filled with zeros;
every mapping of the target at another page is as before; and the environment
table differs at most in the address space of the target. -/
theorem page_alloc_success (k : Kernel) (cur envid va perm t pp : Nat) (k1 k2 : Kernel)
    (hcur : cur < NENV k)
    (hU : perm &&& PTE_U ≠ 0) (hin : bitsWithin perm PTE_SYSCALL)
    (hva : va < UTOP) (hal : pageAligned va)
    (ht : envid2env k cur envid true = .ok t)
    (ha : page_alloc k ALLOC_ZERO = some (pp, k1))
    (hi : page_insert k1 t pp va perm = .ok k2) :
    sys_page_alloc k cur envid va perm = .ret 0 k2 ∧
    page_lookup k2 t va = some { pp := pp, perm := perm } ∧
    k.page_free_list = pp :: k1.page_free_list ∧
    frameData k2 pp = [] ∧
    otherMappings k k2 t va ∧
    pgdirFrame k k2 t := by
  have htl : t < k.envs.length := envid2env_lt hcur ht
  have e1 := page_alloc_envs ha
  have z1 := page_alloc_zero ha
  refine ⟨?_, ?_, z1.2.1, page_insert_keeps_zero hi z1.1, ?_, ?_⟩
  · rw [sys_page_alloc_static ⟨hin, hU, hva, hal⟩]
    simp only [ht, ha, hi]
  · exact page_lookup_insert (by rw [e1.1]; exact htl) hi
  · exact otherMappings_trans (otherMappings_of_ptes va (by rw [env_of_envs e1.1])) 
      (page_insert_other hi)
  · exact pgdirFrame_trans (pgdirFrame_of_envs e1.1 e1.2) (page_insert_frame hi)

/-- Witness of C19: on the concrete machine the parent (slot 2) allocates a
page for itself at `0x3000` with `perm = PTE_U`, without `PTE_P`: the call
returns 0, the frame 5, which held a nonzero byte, is the head of the free
list, and `0x3000` is mapped to it with `PTE_U`. -/
theorem page_alloc_success_witness :
    2 < NENV machine ∧ PTE_U &&& PTE_U ≠ 0 ∧ PTE_U &&& PTE_P = 0 ∧ 0x3000 < UTOP ∧
    pageAligned 0x3000 ∧ envid2env machine 2 0 true = .ok 2 ∧
    frameData machine 5 = [(7, 1)] ∧
    sys_page_alloc machine 2 0 0x3000 PTE_U =
      .ret 0 (sys_page_alloc machine 2 0 0x3000 PTE_U).state ∧
    page_lookup (sys_page_alloc machine 2 0 0x3000 PTE_U).state 2 0x3000
      = some { pp := 5, perm := PTE_U } ∧
    frameData (sys_page_alloc machine 2 0 0x3000 PTE_U).state 5 = [] :=
  ⟨by decide, by decide, by decide, by decide, by decide, by decide, by decide,
   (page_alloc_success machine 2 0 0x3000 PTE_U 2 5
     { machine with page_free_list := [6, 7], pp_data := machine.pp_data.set 5 [] }
     (sys_page_alloc machine 2 0 0x3000 PTE_U).state
     (by decide) (by decide) (bitsWithin_of_land (by decide)) (by decide) (by decide)
     (by decide) (by decide) (by decide)).1,
   (page_alloc_success machine 2 0 0x3000 PTE_U 2 5
     { machine with page_free_list := [6, 7], pp_data := machine.pp_data.set 5 [] }
     (sys_page_alloc machine 2 0 0x3000 PTE_U).state
     (by decide) (by decide) (bitsWithin_of_land (by decide)) (by decide) (by decide)
     (by decide) (by decide) (by decide)).2.1,
   (page_alloc_success machine 2 0 0x3000 PTE_U 2 5
     { machine with page_free_list := [6, 7], pp_data := machine.pp_data.set 5 [] }
     (sys_page_alloc machine 2 0 0x3000 PTE_U).state
     (by decide) (by decide) (bitsWithin_of_land (by decide)) (by decide) (by decide)
     (by decide) (by decide) (by decide)).2.2.2.1⟩

/-- Claim C20 fails in the code: with valid `perm` and `va`, a target that
resolves and no free frame, `sys_page_alloc` does not return `-E_NO_MEM`, and
does not return at all: the result of `page_alloc` is used unchecked, so the
null pointer goes to `page_insert` and the kernel faults. -/
theorem page_alloc_out_of_memory (k : Kernel) (cur envid va perm t : Nat)
    (hs : staticOK va perm)
    (ht : envid2env k cur envid true = .ok t)
    (hm : page_alloc k ALLOC_ZERO = none) :
    sys_page_alloc k cur envid va perm = .panic k ∧
    ∀ r k2, sys_page_alloc k cur envid va perm ≠ .ret r k2 := by
  have h : sys_page_alloc k cur envid va perm = .panic k := by
    rw [sys_page_alloc_static hs]
    simp only [ht, hm]
  refine ⟨h, fun r k2 h2 => ?_⟩
  rw [h] at h2
  exact Outcome.noConfusion h2

/-- Witness of C20: in the state `exhausted` the free list is empty and the
parent (slot 2, on CPU 0) asks for a page at `0x6000` with `PTE_U | PTE_W`. -/
theorem page_alloc_out_of_memory_witness :
    curenv exhausted 0 = some 2 ∧
    exhausted.page_free_list = [] ∧
    0x6000 < UTOP ∧ pageAligned 0x6000 ∧
    envid2env exhausted 2 0 true = .ok 2 ∧
    page_alloc exhausted ALLOC_ZERO = none ∧
    syscall exhausted 0 SYS_page_alloc 0 0x6000 (PTE_U ||| PTE_W) 0 0 = .panic exhausted ∧
    sys_page_alloc exhausted 2 0 0x6000 (PTE_U ||| PTE_W) = .panic exhausted :=
  ⟨by decide, by decide, by decide, by decide, by decide, by decide, by decide,
   (page_alloc_out_of_memory exhausted 2 0 0x6000 (PTE_U ||| PTE_W) 2
     ⟨bitsWithin_of_land (by decide), by decide, by decide, by decide⟩
     (by decide) (by decide)).1⟩

/-! ## Round-robin fairness -/

theorem syscall_known {k : Kernel} {cpu cur : Nat} (hc : curenv k cpu = some cur)
    (a1 a2 a3 a4 a5 : Nat) :
    syscall k cpu SYS_cputs a1 a2 a3 a4 a5 = voidRet (sys_cputs k cpu cur a1 a2) ∧
    syscall k cpu SYS_cgetc a1 a2 a3 a4 a5 = sys_cgetc k ∧
    syscall k cpu SYS_getenvid a1 a2 a3 a4 a5 = sys_getenvid k cur ∧
    syscall k cpu SYS_env_destroy a1 a2 a3 a4 a5 = sys_env_destroy k cpu cur a1 ∧
    syscall k cpu SYS_yield a1 a2 a3 a4 a5 = voidRet (sys_yield k cpu) ∧
    syscall k cpu SYS_exofork a1 a2 a3 a4 a5 = sys_exofork k cur ∧
    syscall k cpu SYS_env_set_status a1 a2 a3 a4 a5 = sys_env_set_status k cur a1 a2 ∧
    syscall k cpu SYS_page_alloc a1 a2 a3 a4 a5 = sys_page_alloc k cur a1 a2 a3 ∧
    syscall k cpu SYS_page_map a1 a2 a3 a4 a5 = sys_page_map k cur a1 a2 a3 a4 a5 ∧
    syscall k cpu SYS_page_unmap a1 a2 a3 a4 a5 = sys_page_unmap k cur a1 a2 ∧
    syscall k cpu SYS_env_set_pgfault_upcall a1 a2 a3 a4 a5 =
      sys_env_set_pgfault_upcall k cpu cur a1 a2 ∧
    syscall k cpu SYS_ipc_try_send a1 a2 a3 a4 a5 = sys_ipc_try_send k cur a1 a2 a3 a4 ∧
    syscall k cpu SYS_ipc_recv a1 a2 a3 a4 a5 = sys_ipc_recv k cpu cur a1 ∧
    syscall k cpu SYS_get_cpuid a1 a2 a3 a4 a5 = sys_get_cpuid k cpu := by
  unfold syscall
  simp only [hc]
  exact ⟨rfl, rfl, rfl, rfl, rfl, rfl, rfl, rfl, rfl, rfl, rfl, rfl, rfl, rfl⟩

theorem syscall_unknown {k : Kernel} {cpu cur : Nat} (hc : curenv k cpu = some cur)
    (syscallno a1 a2 a3 a4 a5 : Nat)
    (h : syscallno ∉ [SYS_cputs, SYS_cgetc, SYS_getenvid, SYS_env_destroy, SYS_yield,
      SYS_exofork, SYS_env_set_status, SYS_page_alloc, SYS_page_map, SYS_page_unmap,
      SYS_env_set_pgfault_upcall, SYS_ipc_try_send, SYS_ipc_recv, SYS_get_cpuid]) :
    syscall k cpu syscallno a1 a2 a3 a4 a5 = .ret (-E_INVAL) k := by
  simp only [List.mem_cons, List.mem_singleton, List.not_mem_nil, or_false, not_or] at h
  obtain ⟨h1, h2, h3, h4, h5, h6, h7, h8, h9, h10, h11, h12, h13, h14⟩ := h
  rw [syscall_eq hc, if_neg h1, if_neg h2, if_neg h3, if_neg h4, if_neg h5, if_neg h6, if_neg h7,
    if_neg h8, if_neg h9, if_neg h10, if_neg h11, if_neg h12, if_neg h13, if_neg h14]

/-- Claim C24 (dispatcher).  Entered by the environment `cur` that CPU `cpu`
executes, `syscall` returns `-E_INVAL` with the kernel state unchanged for every
number that is none of the fourteen defined ones, whatever the arguments; for a
defined number it is the handler of that number applied to the arguments in
order, and after the handlers without a value, `sys_cputs` and `sys_yield`,
the value returned is 0. -/
theorem dispatcher_spec (k : Kernel) (cpu cur : Nat) (hc : curenv k cpu = some cur)
    (a1 a2 a3 a4 a5 : Nat) :
    (∀ syscallno, syscallno ∉ [SYS_cputs, SYS_cgetc, SYS_getenvid, SYS_env_destroy, SYS_yield,
        SYS_exofork, SYS_env_set_status, SYS_page_alloc, SYS_page_map, SYS_page_unmap,
        SYS_env_set_pgfault_upcall, SYS_ipc_try_send, SYS_ipc_recv, SYS_get_cpuid] →
      syscall k cpu syscallno a1 a2 a3 a4 a5 = .ret (-E_INVAL) k) ∧
    (syscall k cpu SYS_cputs a1 a2 a3 a4 a5 = voidRet (sys_cputs k cpu cur a1 a2) ∧
    syscall k cpu SYS_cgetc a1 a2 a3 a4 a5 = sys_cgetc k ∧
    syscall k cpu SYS_getenvid a1 a2 a3 a4 a5 = sys_getenvid k cur ∧
    syscall k cpu SYS_env_destroy a1 a2 a3 a4 a5 = sys_env_destroy k cpu cur a1 ∧
    syscall k cpu SYS_yield a1 a2 a3 a4 a5 = voidRet (sys_yield k cpu) ∧
    syscall k cpu SYS_exofork a1 a2 a3 a4 a5 = sys_exofork k cur ∧
    syscall k cpu SYS_env_set_status a1 a2 a3 a4 a5 = sys_env_set_status k cur a1 a2 ∧
    syscall k cpu SYS_page_alloc a1 a2 a3 a4 a5 = sys_page_alloc k cur a1 a2 a3 ∧
    syscall k cpu SYS_page_map a1 a2 a3 a4 a5 = sys_page_map k cur a1 a2 a3 a4 a5 ∧
    syscall k cpu SYS_page_unmap a1 a2 a3 a4 a5 = sys_page_unmap k cur a1 a2 ∧
    syscall k cpu SYS_env_set_pgfault_upcall a1 a2 a3 a4 a5 =
      sys_env_set_pgfault_upcall k cpu cur a1 a2 ∧
    syscall k cpu SYS_ipc_try_send a1 a2 a3 a4 a5 = sys_ipc_try_send k cur a1 a2 a3 a4 ∧
    syscall k cpu SYS_ipc_recv a1 a2 a3 a4 a5 = sys_ipc_recv k cpu cur a1 ∧
    syscall k cpu SYS_get_cpuid a1 a2 a3 a4 a5 = sys_get_cpuid k cpu) ∧
    (∀ r k2, sys_cputs k cpu cur a1 a2 = .ret r k2 →
      syscall k cpu SYS_cputs a1 a2 a3 a4 a5 = .ret 0 k2) ∧
    (∀ r k2, sys_yield k cpu = .ret r k2 →
      syscall k cpu SYS_yield a1 a2 a3 a4 a5 = .ret 0 k2) ∧
    (∀ r k2, syscall k cpu SYS_cputs a1 a2 a3 a4 a5 = .ret r k2 → r = 0) ∧
    (∀ r k2, syscall k cpu SYS_yield a1 a2 a3 a4 a5 = .ret r k2 → r = 0) := by
  have hk := syscall_known hc a1 a2 a3 a4 a5
  refine ⟨fun no h => syscall_unknown hc no a1 a2 a3 a4 a5 h, hk, ?_, ?_, ?_, ?_⟩
  · intro r k2 h
    rw [hk.1, h]
    rfl
  · intro r k2 h
    rw [hk.2.2.2.2.1, h]
    rfl
  · intro r k2 h
    rw [hk.1] at h
    exact voidRet_nonneg h
  · intro r k2 h
    rw [hk.2.2.2.2.1] at h
    exact voidRet_nonneg h

/-- Witness of C24: on the concrete machine the parent (slot 2, on CPU 0) makes
the system calls number 0 and number 15, which are not defined, and
`sys_getenvid`. -/
theorem dispatcher_spec_witness :
    curenv machine 0 = some 2 ∧
    syscall machine 0 0 1 2 3 4 5 = .ret (-E_INVAL) machine ∧
    syscall machine 0 15 1 2 3 4 5 = .ret (-E_INVAL) machine ∧
    syscall machine 0 SYS_getenvid 1 2 3 4 5 = sys_getenvid machine 2 ∧
    sys_getenvid machine 2 = .ret 6 machine :=
  ⟨by decide,
   (dispatcher_spec machine 0 2 (by decide) 1 2 3 4 5).1 0 (by decide),
   (dispatcher_spec machine 0 2 (by decide) 1 2 3 4 5).1 15 (by decide),
   (dispatcher_spec machine 0 2 (by decide) 1 2 3 4 5).2.1.2.2.1,
   by decide⟩

/-! ## `sys_page_alloc`: the frame is given back when the insertion fails -/

/-- Claim C21: when the static checks pass, the target resolves, `page_alloc`
yields the frame `pp` and `page_insert` fails with `r`, `sys_page_alloc` returns
`r`, which is `-E_NO_MEM`; the free list after the call is the free list before
it, `pp` at its head; the environment table, and with it every mapping of every
environment, the CPUs and the reference counts are unchanged. -/
theorem page_alloc_insert_failure (k : Kernel) (cur envid va perm t pp : Nat) (k1 : Kernel)
    (r : Int) (hs : staticOK va perm)
    (ht : envid2env k cur envid true = .ok t)
    (ha : page_alloc k ALLOC_ZERO = some (pp, k1))
    (hi : page_insert k1 t pp va perm = .error r) :
    sys_page_alloc k cur envid va perm = .ret r (page_free k1 pp) ∧
    r = -E_NO_MEM ∧ r < 0 ∧
    (page_free k1 pp).page_free_list = k.page_free_list ∧
    (∃ rest, k.page_free_list = pp :: rest) ∧
    (page_free k1 pp).envs = k.envs ∧
    (∀ i va2, page_lookup (page_free k1 pp) i va2 = page_lookup k i va2) ∧
    (page_free k1 pp).cpus = k.cpus ∧
    (page_free k1 pp).pp_ref = k.pp_ref := by
  have hu := page_alloc_free ha
  have hr := page_insert_error hi
  refine ⟨?_, hr, ?_, hu.2.2.1, ⟨k1.page_free_list, (page_alloc_zero ha).2.1⟩, hu.1, ?_, hu.2.1,
    hu.2.2.2⟩
  · rw [sys_page_alloc_static hs]
    simp only [ht, ha, hi]
  · rw [hr]
    decide
  · intro i va2
    unfold page_lookup
    rw [env_of_envs hu.1]

/-- Witness of C21: in the state `lastFrame` one frame, 7, is free.  The parent
(slot 2) asks for a page at `0x3000` in its child (id 7, slot 3), whose address
space has no page-table page: `page_alloc` yields frame 7, `page_insert` finds
no frame for the page table and fails, and the call returns `-E_NO_MEM` with
frame 7 free again. -/
theorem page_alloc_insert_failure_witness :
    lastFrame.page_free_list = [7] ∧
    envid2env lastFrame 2 7 true = .ok 3 ∧
    sys_page_alloc lastFrame 2 7 0x3000 (PTE_U ||| PTE_W) =
      .ret (-E_NO_MEM) (sys_page_alloc lastFrame 2 7 0x3000 (PTE_U ||| PTE_W)).state ∧
    (sys_page_alloc lastFrame 2 7 0x3000 (PTE_U ||| PTE_W)).state.page_free_list = [7] ∧
    (sys_page_alloc lastFrame 2 7 0x3000 (PTE_U ||| PTE_W)).state.envs = lastFrame.envs :=
  ⟨by decide, by decide,
   (page_alloc_insert_failure lastFrame 2 7 0x3000 (PTE_U ||| PTE_W) 3 7
     { lastFrame with page_free_list := [], pp_data := lastFrame.pp_data.set 7 [] } (-E_NO_MEM)
     ⟨bitsWithin_of_land (by decide), by decide, by decide, by decide⟩
     (by decide) (by decide) (by decide)).1,
   by decide, by decide⟩

/-! ## `sys_page_unmap` -/

theorem noPgdir_fields {e1 e2 : Env} (h : e1.noPgdir = e2.noPgdir) :
    e1.env_id = e2.env_id ∧ e1.env_status = e2.env_status ∧
    e1.env_parent_id = e2.env_parent_id := by
  refine ⟨?_, ?_, ?_⟩
  · show e1.noPgdir.env_id = e2.noPgdir.env_id
    rw [h]
  · show e1.noPgdir.env_status = e2.noPgdir.env_status
    rw [h]
  · show e1.noPgdir.env_parent_id = e2.noPgdir.env_parent_id
    rw [h]

/-- The capability check reads no address space. -/
theorem envid2env_frame {k k1 : Kernel} {t : Nat} (h : pgdirFrame k k1 t)
    (cur envid : Nat) (c : Bool) : envid2env k1 cur envid c = envid2env k cur envid c := by
  have hf : ∀ i, (env k1 i).env_id = (env k i).env_id ∧
      (env k1 i).env_status = (env k i).env_status ∧
      (env k1 i).env_parent_id = (env k i).env_parent_id :=
    fun i => noPgdir_fields (pgdirFrame_noPgdir h i)
  unfold envid2env ENVX NENV
  rw [h.1]
  simp only [(hf _).1, (hf _).2.1, (hf _).2.2]

theorem lookup_filter_self {β : Type} (l : List (Nat × β)) (a : Nat) :
    (l.filter (fun m => m.1 != a)).lookup a = none := by
  induction l with
  | nil => rfl
  | cons x xs ih =>
    obtain ⟨x1, x2⟩ := x
    by_cases hx : x1 = a
    · subst hx
      simp [List.filter_cons, ih]
    · have hb : (a == x1) = false := by simpa using fun h : a = x1 => hx h.symm
      simp [List.filter_cons, List.lookup_cons, hx, hb, ih]

theorem page_remove_unmapped {k : Kernel} {t va : Nat} (h : page_lookup k t va = none) :
    page_remove k t va = k := by
  unfold page_remove
  rw [h]

theorem page_lookup_remove (k : Kernel) (t va : Nat) (ht : t < k.envs.length) :
    page_lookup (page_remove k t va) t va = none := by
  cases h : page_lookup k t va with
  | none =>
    rw [page_remove_unmapped h]
    exact h
  | some pte =>
    unfold page_remove
    rw [h]
    dsimp only
    have e1 : env (page_decref k pte.pp) t = env k t := env_of_envs (page_decref_envs k pte.pp).1 t
    have hl : t < (page_decref k pte.pp).envs.length := by
      rw [(page_decref_envs k pte.pp).1]
      exact ht
    unfold page_lookup
    rw [env_setEnv_self _ hl]
    exact lookup_filter_self _ _

/-- Claim C22: for every page-aligned `va` below `UTOP` and every `envid` the
caller may manipulate, `sys_page_unmap` returns 0, with or without a page at
`va`; afterwards no page is mapped at `va` in the target, the other mappings of
the target and everything else in the environment table are as before; and the
same call made again returns 0 and leaves the state the first call left. -/
theorem page_unmap_idempotent (k : Kernel) (cur envid va t : Nat) (hcur : cur < NENV k)
    (hva : va < UTOP) (hal : pageAligned va)
    (ht : envid2env k cur envid true = .ok t) :
    sys_page_unmap k cur envid va = .ret 0 (page_remove k t va) ∧
    page_lookup (page_remove k t va) t va = none ∧
    otherMappings k (page_remove k t va) t va ∧
    pgdirFrame k (page_remove k t va) t ∧
    sys_page_unmap (page_remove k t va) cur envid va = .ret 0 (page_remove k t va) := by
  have htl : t < k.envs.length := envid2env_lt hcur ht
  have hc : ¬ (va ≥ UTOP ∨ ROUNDDOWN va PGSIZE ≠ va) := by
    rw [rounddown_eq_of_aligned hal]
    intro h
    rcases h with h | h
    · omega
    · exact h rfl
  have hfr := page_remove_frame k t va
  have hno := page_lookup_remove k t va htl
  refine ⟨?_, hno, page_remove_other k t va, hfr, ?_⟩
  · unfold sys_page_unmap
    rw [if_neg hc]
    simp only [ht]
  · unfold sys_page_unmap
    rw [if_neg hc, envid2env_frame hfr]
    simp only [ht]
    rw [page_remove_unmapped hno]

/-- Witness of C22: on the concrete machine the parent (slot 2) unmaps its page
at `0x1000`, which is mapped, and its page at `0x7000`, which is not. -/
theorem page_unmap_idempotent_witness :
    2 < NENV machine ∧ envid2env machine 2 0 true = .ok 2 ∧
    (page_lookup machine 2 0x1000).isSome = true ∧ page_lookup machine 2 0x7000 = none ∧
    sys_page_unmap machine 2 0 0x1000 = .ret 0 (page_remove machine 2 0x1000) ∧
    sys_page_unmap (page_remove machine 2 0x1000) 2 0 0x1000 =
      .ret 0 (page_remove machine 2 0x1000) ∧
    sys_page_unmap machine 2 0 0x7000 = .ret 0 machine :=
  ⟨by decide, by decide, by decide, by decide,
   (page_unmap_idempotent machine 2 0 0x1000 2 (by decide) (by decide) (by decide)
     (by decide)).1,
   (page_unmap_idempotent machine 2 0 0x1000 2 (by decide) (by decide) (by decide)
     (by decide)).2.2.2.2,
   by decide⟩

/-! ## `sys_exofork` -/

theorem findFree_spec {k : Kernel} {slot : Nat}
    (h : k.envs.findIdx? (fun e => e.env_status == ENV_FREE) = some slot) :
    slot < k.envs.length ∧ (env k slot).env_status = ENV_FREE := by
  obtain ⟨hlt, hfi⟩ := List.findIdx?_eq_some_iff_findIdx_eq.1 h
  subst hfi
  refine ⟨hlt, ?_⟩
  have hg := List.getElem?_eq_getElem hlt
  have hp := List.findIdx_of_getElem?_eq_some hg
  unfold env
  rw [List.getD_eq_getElem?_getD, hg]
  simpa using hp

/-- What a successful `env_alloc` leaves: the slot it took was `FREE`, the
other slots and the CPUs are untouched, and the new environment has the parent
recorded. -/
theorem env_alloc_ok {k k1 : Kernel} {pid slot : Nat}
    (h : env_alloc k pid = .ok (slot, k1)) :
    slot < k.envs.length ∧ (env k slot).env_status = ENV_FREE ∧
    k1.envs.length = k.envs.length ∧ k1.cpus = k.cpus ∧
    (∀ i, i ≠ slot → env k1 i = env k i) ∧
    (env k1 slot).env_parent_id = pid ∧ (env k1 slot).env_type = ENV_TYPE_USER ∧
    (env k1 slot).env_pgdir.ptes = [] := by
  unfold env_alloc at h
  cases hf : k.envs.findIdx? (fun e => e.env_status == ENV_FREE) with
  | none =>
    simp only [hf] at h
    exact Except.noConfusion h
  | some sl =>
    simp only [hf] at h
    cases ha : page_alloc k ALLOC_ZERO with
    | none =>
      simp only [ha] at h
      exact Except.noConfusion h
    | some r =>
      obtain ⟨pd, ka⟩ := r
      simp only [ha] at h
      have h2 := Except.ok.inj h
      simp only [Prod.mk.injEq] at h2
      obtain ⟨hs, hk⟩ := h2
      subst hs
      have hff := findFree_spec hf
      have e1 := page_alloc_envs ha
      have hl : sl < ({ ka with pp_ref := ka.pp_ref.set pd 1 } : Kernel).envs.length := by
        show sl < ka.envs.length
        rw [e1.1]
        exact hff.1
      rw [← hk]
      refine ⟨hff.1, hff.2, ?_, e1.2, ?_, ?_, ?_, ?_⟩
      · rw [setEnv_length]
        show ka.envs.length = k.envs.length
        rw [e1.1]
      · intro i hi
        rw [env_setEnv_other _ hi]
        exact env_of_envs e1.1 i
      · rw [env_setEnv_self _ hl]
      · rw [env_setEnv_self _ hl]
      · rw [env_setEnv_self _ hl]

theorem env_alloc_error {k : Kernel} {pid : Nat} {r : Int}
    (h : env_alloc k pid = .error r) : r = -E_NO_FREE_ENV ∨ r = -E_NO_MEM := by
  unfold env_alloc at h
  cases hf : k.envs.findIdx? (fun e => e.env_status == ENV_FREE) with
  | none =>
    simp only [hf] at h
    exact Or.inl (Except.error.inj h).symm
  | some sl =>
    simp only [hf] at h
    cases ha : page_alloc k ALLOC_ZERO with
    | none =>
      simp only [ha] at h
      exact Or.inr (Except.error.inj h).symm
    | some r2 =>
      obtain ⟨pd, ka⟩ := r2
      simp only [ha] at h
      exact Except.noConfusion h

theorem toS32_small {n : Nat} (h : n < 2 ^ 31) : toS32 n = (n : Int) := by
  unfold toS32
  have h1 : n % 2 ^ 32 = n := Nat.mod_eq_of_lt (by omega)
  rw [h1, if_pos h]

/-- Claim C23: let the caller be a live environment.  When `env_alloc` succeeds
with the slot `child`, `sys_exofork` returns the id of the child (as a signed
word; the id itself when it is below `2^31`); the slot was `FREE` and is not the
caller's; the child is `NOT_RUNNABLE`, its saved registers are the caller's
with `eax = 0`, its parent is the caller; the caller's entry and every slot
other than the child's are unchanged.  When `env_alloc` fails with `r`, the
call returns `r`, which is negative, and the state is unchanged. -/
theorem exofork_spec (k : Kernel) (cur : Nat) (hlive : (env k cur).env_status ≠ ENV_FREE) :
    (∀ child k1, env_alloc k (env k cur).env_id = .ok (child, k1) →
      ∃ k2, sys_exofork k cur = .ret (toS32 (env k2 child).env_id) k2 ∧
        ((env k2 child).env_id < 2 ^ 31 →
          toS32 (env k2 child).env_id = ((env k2 child).env_id : Int)) ∧
        child ≠ cur ∧ (env k child).env_status = ENV_FREE ∧
        (env k2 child).env_status = ENV_NOT_RUNNABLE ∧
        (env k2 child).env_tf = { (env k cur).env_tf with reg_eax := 0 } ∧
        (env k2 child).env_parent_id = (env k cur).env_id ∧
        env k2 cur = env k cur ∧ (∀ i, i ≠ child → env k2 i = env k i) ∧
        k2.cpus = k.cpus) ∧
    (∀ r, env_alloc k (env k cur).env_id = .error r →
      sys_exofork k cur = .ret r k ∧ r < 0) := by
  constructor
  · intro child k1 ha
    obtain ⟨hlt, hfree, hlen, hcpus, hoth, hpar, -, -⟩ := env_alloc_ok ha
    have hne : child ≠ cur := by
      rintro rfl
      exact hlive hfree
    have hl1 : child < k1.envs.length := by
      rw [hlen]
      exact hlt
    have hcur1 : env k1 cur = env k cur := hoth cur (fun h => hne h.symm)
    refine ⟨setEnv k1 child
      { env k1 child with
        env_status := ENV_NOT_RUNNABLE,
        env_tf := { (env k1 cur).env_tf with reg_eax := 0 } }, ?_, toS32_small, hne, hfree, ?_, ?_,
      ?_, ?_, ?_, hcpus⟩
    · unfold sys_exofork
      simp only [ha]
      rw [env_setEnv_self _ hl1]
    · rw [env_setEnv_self _ hl1]
    · rw [env_setEnv_self _ hl1, hcur1]
    · rw [env_setEnv_self _ hl1]
      exact hpar
    · rw [env_setEnv_other _ (fun h => hne h.symm)]
      exact hcur1
    · intro i hi
      rw [env_setEnv_other _ hi]
      exact hoth i hi
  · intro r ha
    refine ⟨?_, ?_⟩
    · unfold sys_exofork
      simp only [ha]
    · rcases env_alloc_error ha with h | h <;> rw [h] <;> decide

/-- Witness of C23: on `cowMachine` the user environment (slot 1, id 5) calls
`sys_exofork`: slot 2 is taken, the child has id 6, and 6 is returned; on the
concrete machine, which has no free slot, the call returns `-E_NO_FREE_ENV`. -/
theorem exofork_spec_witness :
    (env cowMachine 1).env_status ≠ ENV_FREE ∧
    (∃ k1, env_alloc cowMachine (env cowMachine 1).env_id = .ok (2, k1)) ∧
    (∃ k2, sys_exofork cowMachine 1 = .ret (toS32 (env k2 2).env_id) k2 ∧
      (env k2 2).env_status = ENV_NOT_RUNNABLE ∧
      (env k2 2).env_tf = { (env cowMachine 1).env_tf with reg_eax := 0 } ∧
      env k2 1 = env cowMachine 1) ∧
    sys_exofork cowMachine 1 = .ret 6 (sys_exofork cowMachine 1).state ∧
    (env machine 2).env_status ≠ ENV_FREE ∧
    env_alloc machine (env machine 2).env_id = .error (-E_NO_FREE_ENV) ∧
    sys_exofork machine 2 = .ret (-E_NO_FREE_ENV) machine := by
  refine ⟨by decide, ⟨_, rfl⟩, ?_, by decide, by decide, by decide,
    ((exofork_spec machine 2 (by decide)).2 (-E_NO_FREE_ENV) (by decide)).1⟩
  obtain ⟨k2, h1, -, -, -, h5, h6, -, h8, -, -⟩ :=
    (exofork_spec cowMachine 1 (by decide)).1 2 _ rfl
  exact ⟨k2, h1, h5, h6, h8⟩

/-! ## `duppage` -/

theorem vpt_of_lookup {k : Kernel} {cur pn : Nat} {pte : Pte}
    (h : page_lookup k cur (pn * PGSIZE) = some pte) : vpt k cur pn = pte.bits := by
  unfold vpt
  rw [h]

theorem pageAligned_mul (pn : Nat) : pageAligned (pn * PGSIZE) := by
  unfold pageAligned
  exact Nat.mul_mod_left pn PGSIZE

theorem envid2env_self (k : Kernel) (cur : Nat) (c : Bool) : envid2env k cur 0 c = .ok cur := by
  unfold envid2env
  rw [if_pos rfl]

/-- A call of `sys_page_map` that passes every check is `page_insert`. -/
theorem sys_page_map_ok {k k1 : Kernel} {cur srcenvid srcva dstenvid dstva perm s d : Nat}
    {pte : Pte} (hsa : staticOK srcva perm) (hda : staticOK dstva perm)
    (hs : envid2env k cur srcenvid true = .ok s) (hd : envid2env k cur dstenvid true = .ok d)
    (hl : page_lookup k s srcva = some pte)
    (hw : ¬ (pte.bits &&& PTE_W = 0 ∧ perm &&& PTE_W ≠ 0))
    (hi : page_insert k d pte.pp dstva perm = .ok k1) :
    sys_page_map k cur srcenvid srcva dstenvid dstva perm = .ret 0 k1 := by
  have c1 : ¬ (srcva ≥ UTOP ∨ dstva ≥ UTOP ∨ ROUNDDOWN srcva PGSIZE ≠ srcva ∨
      ROUNDDOWN dstva PGSIZE ≠ dstva) := by
    rw [rounddown_eq_of_aligned hsa.2.2.2, rounddown_eq_of_aligned hda.2.2.2]
    have h1 := hsa.2.2.1
    have h2 := hda.2.2.1
    intro h
    rcases h with h | h | h | h
    · omega
    · omega
    · exact h rfl
    · exact h rfl
  have c2 : ¬ (not32 PTE_SYSCALL &&& perm ≠ 0) := by
    rw [within_imp perm PTE_SYSCALL PTE_SYSCALL_lt hsa.1]
    exact fun h => h rfl
  unfold sys_page_map
  rw [if_neg c1, if_neg c2, if_neg hsa.2.1]
  simp only [hs, hd, hl]
  rw [if_neg hw]
  simp only [hi]

/-- With the page-table page of `va` present `page_insert` allocates nothing and
succeeds. -/
theorem page_insert_present {k : Kernel} {t va : Nat} (pp perm : Nat)
    (h : ((env k t).env_pgdir.pgtables.lookup (PDX va)).isSome = true) :
    page_insert k t pp va perm =
      .ok (setPte (page_remove (page_incref k pp) t va) t va { pp := pp, perm := perm }) := by
  unfold page_insert pgdir_walk_create
  rw [if_pos h]

theorem syscall_page_map {k : Kernel} {cpu cur : Nat} (hc : curenv k cpu = some cur)
    (a1 a2 a3 a4 a5 : Nat) :
    syscall k cpu SYS_page_map a1 a2 a3 a4 a5 = sys_page_map k cur a1 a2 a3 a4 a5 :=
  (syscall_known hc a1 a2 a3 a4 a5).2.2.2.2.2.2.2.2.1

theorem syscall_page_alloc {k : Kernel} {cpu cur : Nat} (hc : curenv k cpu = some cur)
    (a1 a2 a3 a4 a5 : Nat) :
    syscall k cpu SYS_page_alloc a1 a2 a3 a4 a5 = sys_page_alloc k cur a1 a2 a3 :=
  (syscall_known hc a1 a2 a3 a4 a5).2.2.2.2.2.2.2.1

theorem syscall_page_unmap {k : Kernel} {cpu cur : Nat} (hc : curenv k cpu = some cur)
    (a1 a2 a3 a4 a5 : Nat) :
    syscall k cpu SYS_page_unmap a1 a2 a3 a4 a5 = sys_page_unmap k cur a1 a2 :=
  (syscall_known hc a1 a2 a3 a4 a5).2.2.2.2.2.2.2.2.2.1

theorem curenv_of_cpus {k k1 : Kernel} (h : k1.cpus = k.cpus) (cpu : Nat) :
    curenv k1 cpu = curenv k cpu := by
  unfold curenv
  rw [h]

theorem page_lookup_of_env {k k1 : Kernel} {e : Nat} (h : env k1 e = env k e) (va : Nat) :
    page_lookup k1 e va = page_lookup k e va := by
  unfold page_lookup
  rw [h]

theorem staticOK_cow {va : Nat} (h1 : va < UTOP) (h2 : pageAligned va) :
    staticOK va (PTE_U ||| PTE_COW) ∧ staticOK va PTE_U ∧ staticOK va (PTE_U ||| PTE_W) :=
  ⟨⟨bitsWithin_of_land (by decide), by decide, h1, h2⟩,
   ⟨bitsWithin_of_land (by decide), by decide, h1, h2⟩,
   ⟨bitsWithin_of_land (by decide), by decide, h1, h2⟩⟩

/-- The two calls of `duppage` on a page that is writable or copy-on-write. -/
theorem duppage_cow {k k1 : Kernel} {cpu cur envid pn child : Nat} {pte : Pte}
    (hc : curenv k cpu = some cur)
    (hpn : pn * PGSIZE < UTOP)
    (hmap : page_lookup k cur (pn * PGSIZE) = some pte)
    (hpt : ((env k cur).env_pgdir.pgtables.lookup (PDX (pn * PGSIZE))).isSome = true)
    (hchild : envid2env k cur envid true = .ok child) (hne : child ≠ cur)
    (hcase : pte.bits &&& (PTE_W ||| PTE_COW) ≠ 0)
    (hins : page_insert k child pte.pp (pn * PGSIZE) (PTE_U ||| PTE_COW) = .ok k1) :
    page_insert k1 cur pte.pp (pn * PGSIZE) (PTE_U ||| PTE_COW) =
      .ok (setPte (page_remove (page_incref k1 pte.pp) cur (pn * PGSIZE)) cur (pn * PGSIZE)
        { pp := pte.pp, perm := PTE_U ||| PTE_COW }) ∧
    duppage k cpu cur envid pn =
      .ret 0 (setPte (page_remove (page_incref k1 pte.pp) cur (pn * PGSIZE)) cur (pn * PGSIZE)
        { pp := pte.pp, perm := PTE_U ||| PTE_COW }) := by
  have hmod : (pn * PGSIZE) % 2 ^ 32 = pn * PGSIZE :=
    Nat.mod_eq_of_lt (lt_trans hpn (by decide))
  have hst := (staticOK_cow hpn (pageAligned_mul pn)).1
  have hfr := page_insert_frame hins
  have he1 : env k1 cur = env k cur := hfr.2.2.1 cur (fun h => hne h.symm)
  have hc1 : curenv k1 cpu = some cur := by
    rw [curenv_of_cpus hfr.2.1]
    exact hc
  have hpt1 : ((env k1 cur).env_pgdir.pgtables.lookup (PDX (pn * PGSIZE))).isSome = true := by
    rw [he1]
    exact hpt
  have hi2 := @page_insert_present k1 cur (pn * PGSIZE) pte.pp (PTE_U ||| PTE_COW) hpt1
  have hnw : ¬ (pte.bits &&& PTE_W = 0 ∧ (PTE_U ||| PTE_COW) &&& PTE_W ≠ 0) :=
    fun h => h.2 (by decide)
  have s1 : sys_page_map k cur 0 (pn * PGSIZE) envid (pn * PGSIZE) (PTE_U ||| PTE_COW)
      = .ret 0 k1 :=
    sys_page_map_ok hst hst (envid2env_self k cur true) hchild hmap hnw hins
  have s2 : sys_page_map k1 cur 0 (pn * PGSIZE) 0 (pn * PGSIZE) (PTE_U ||| PTE_COW)
      = .ret 0 (setPte (page_remove (page_incref k1 pte.pp) cur (pn * PGSIZE)) cur
        (pn * PGSIZE) { pp := pte.pp, perm := PTE_U ||| PTE_COW }) :=
    sys_page_map_ok hst hst (envid2env_self k1 cur true) (envid2env_self k1 cur true)
      ((page_lookup_of_env he1 _).trans hmap) hnw hi2
  refine ⟨hi2, ?_⟩
  unfold duppage
  rw [hmod, vpt_of_lookup hmap]
  simp only [if_pos hcase]
  rw [syscall_page_map hc, s1]
  simp only [lt_irrefl, if_false]
  rw [if_pos (by decide), syscall_page_map hc1, s2]
  simp only [lt_irrefl, if_false]

/-- The one call of `duppage` on a page that is neither writable nor
copy-on-write. -/
theorem duppage_ro {k k1 : Kernel} {cpu cur envid pn child : Nat} {pte : Pte}
    (hc : curenv k cpu = some cur)
    (hpn : pn * PGSIZE < UTOP)
    (hmap : page_lookup k cur (pn * PGSIZE) = some pte)
    (hchild : envid2env k cur envid true = .ok child)
    (hcase : pte.bits &&& (PTE_W ||| PTE_COW) = 0)
    (hins : page_insert k child pte.pp (pn * PGSIZE) PTE_U = .ok k1) :
    duppage k cpu cur envid pn = .ret 0 k1 := by
  have hmod : (pn * PGSIZE) % 2 ^ 32 = pn * PGSIZE :=
    Nat.mod_eq_of_lt (lt_trans hpn (by decide))
  have hst := (staticOK_cow hpn (pageAligned_mul pn)).2.1
  have hnw : ¬ (pte.bits &&& PTE_W = 0 ∧ PTE_U &&& PTE_W ≠ 0) := fun h => h.2 (by decide)
  have s1 : sys_page_map k cur 0 (pn * PGSIZE) envid (pn * PGSIZE) PTE_U = .ret 0 k1 :=
    sys_page_map_ok hst hst (envid2env_self k cur true) hchild hmap hnw hins
  unfold duppage
  rw [hmod, vpt_of_lookup hmap]
  simp only [hcase, ne_eq, not_true_eq_false, if_false]
  rw [syscall_page_map hc, s1]
  simp only [lt_irrefl, if_false]
  rw [if_neg (by decide)]

/-- Claim C26 (`duppage` permissions).  Let the caller `cur` have the page `pn`
present, below `UTOP`, with its page-table page, and let `envid` name another
environment the caller may manipulate.  If the caller's entry has `PTE_W` or
`PTE_COW`, and the paging layer can insert into the child, `duppage` maps the
frame at the same address first in the child and then in the caller, both with
`PTE_U | PTE_COW`, and returns 0.  Otherwise it maps the frame in the child
with `PTE_U` alone, returns 0, and leaves the caller's entry as it was.  Neither
permission has `PTE_W`, and both pass the static checks of `sys_page_map`. -/
theorem duppage_perms (k : Kernel) (cpu cur envid pn child : Nat) (pte : Pte)
    (hc : curenv k cpu = some cur) (hcur : cur < NENV k)
    (hpn : pn * PGSIZE < UTOP)
    (hmap : page_lookup k cur (pn * PGSIZE) = some pte)
    (hpt : ((env k cur).env_pgdir.pgtables.lookup (PDX (pn * PGSIZE))).isSome = true)
    (hchild : envid2env k cur envid true = .ok child) (hne : child ≠ cur) :
    (pte.bits &&& (PTE_W ||| PTE_COW) ≠ 0 →
      ∀ k1, page_insert k child pte.pp (pn * PGSIZE) (PTE_U ||| PTE_COW) = .ok k1 →
        ∃ k2, page_insert k1 cur pte.pp (pn * PGSIZE) (PTE_U ||| PTE_COW) = .ok k2 ∧
          duppage k cpu cur envid pn = .ret 0 k2 ∧
          page_lookup k2 child (pn * PGSIZE) =
            some { pp := pte.pp, perm := PTE_U ||| PTE_COW } ∧
          page_lookup k2 cur (pn * PGSIZE) =
            some { pp := pte.pp, perm := PTE_U ||| PTE_COW }) ∧
    (pte.bits &&& (PTE_W ||| PTE_COW) = 0 →
      ∀ k1, page_insert k child pte.pp (pn * PGSIZE) PTE_U = .ok k1 →
        duppage k cpu cur envid pn = .ret 0 k1 ∧
        page_lookup k1 child (pn * PGSIZE) = some { pp := pte.pp, perm := PTE_U } ∧
        env k1 cur = env k cur) ∧
    (PTE_U ||| PTE_COW) &&& PTE_W = 0 ∧ PTE_U &&& PTE_W = 0 ∧ PTE_U &&& PTE_COW = 0 ∧
    staticOK (pn * PGSIZE) (PTE_U ||| PTE_COW) ∧ staticOK (pn * PGSIZE) PTE_U := by
  have hst := staticOK_cow hpn (pageAligned_mul pn)
  have hcl : child < k.envs.length := envid2env_lt hcur hchild
  refine ⟨?_, ?_, by decide, by decide, by decide, hst.1, hst.2.1⟩
  · intro hcase k1 hins
    obtain ⟨hi2, hd⟩ := duppage_cow hc hpn hmap hpt hchild hne hcase hins
    have hfr1 := page_insert_frame hins
    have hfr2 := page_insert_frame hi2
    refine ⟨_, hi2, hd, ?_, ?_⟩
    · rw [page_lookup_of_env (hfr2.2.2.1 child hne)]
      exact page_lookup_insert hcl hins
    · exact page_lookup_insert (by rw [hfr1.1]; exact hcur) hi2
  · intro hcase k1 hins
    have hfr1 := page_insert_frame hins
    exact ⟨duppage_ro hc hpn hmap hchild hcase hins, page_lookup_insert hcl hins,
      hfr1.2.2.1 cur (fun h => hne h.symm)⟩

/-- Witness of C26: in `forked` the parent (slot 1) duplicates its read-only
page 2 into the child (id 6, slot 2): one mapping, with `PTE_U`; and its
writable page 1: the child and then the parent get `PTE_U | PTE_COW`. -/
theorem duppage_perms_witness :
    curenv forked 0 = some 1 ∧ envid2env forked 1 6 true = .ok 2 ∧
    page_lookup forked 1 (2 * PGSIZE) = some { pp := 3, perm := PTE_U } ∧
    duppage forked 0 1 6 2 = .ret 0 (duppage forked 0 1 6 2).state ∧
    page_lookup (duppage forked 0 1 6 2).state 2 (2 * PGSIZE) = some { pp := 3, perm := PTE_U } ∧
    page_lookup forked 1 (1 * PGSIZE) = some { pp := 2, perm := PTE_U ||| PTE_W } ∧
    duppage forked 0 1 6 1 = .ret 0 (duppage forked 0 1 6 1).state ∧
    page_lookup (duppage forked 0 1 6 1).state 2 (1 * PGSIZE) =
      some { pp := 2, perm := PTE_U ||| PTE_COW } ∧
    page_lookup (duppage forked 0 1 6 1).state 1 (1 * PGSIZE) =
      some { pp := 2, perm := PTE_U ||| PTE_COW } :=
  ⟨by decide, by decide, by decide,
   ((duppage_perms forked 0 1 6 2 2 { pp := 3, perm := PTE_U } (by decide) (by decide)
     (by decide) (by decide) (by decide) (by decide) (by decide)).2.1 (by decide)
     (duppage forked 0 1 6 2).state (by decide)).1,
   ((duppage_perms forked 0 1 6 2 2 { pp := 3, perm := PTE_U } (by decide) (by decide)
     (by decide) (by decide) (by decide) (by decide) (by decide)).2.1 (by decide)
     (duppage forked 0 1 6 2).state (by decide)).2.1,
   by decide, by decide, by decide, by decide⟩

/-! ## The copy-on-write fault handler `pgfault` -/

theorem getD_set_ne {α : Type} (l : List (List α)) {a b : Nat} (v : List α) (h : a ≠ b) :
    (l.set a v).getD b [] = l.getD b [] := by
  simp only [List.getD_eq_getElem?_getD]
  rw [List.getElem?_set_ne h]

theorem getD_set_eq {α : Type} (l : List (List α)) {a : Nat} (v : List α) (h : a < l.length) :
    (l.set a v).getD a [] = v := by
  simp [List.getD_eq_getElem?_getD, h]

theorem PGNUM_rounddown (va : Nat) : PGNUM (ROUNDDOWN va PGSIZE) = PGNUM va := by
  unfold PGNUM ROUNDDOWN PGSIZE
  omega

theorem PDX_rounddown (va : Nat) : PDX (ROUNDDOWN va PGSIZE) = PDX va := by
  unfold PDX ROUNDDOWN PGSIZE NPTENTRIES
  omega

theorem PGNUM_mul (pn : Nat) : PGNUM (pn * PGSIZE) = pn := by
  unfold PGNUM PGSIZE
  omega

theorem page_lookup_pgnum (k : Kernel) (e : Nat) {a b : Nat} (h : PGNUM a = PGNUM b) :
    page_lookup k e a = page_lookup k e b := by
  unfold page_lookup
  rw [h]

theorem rounddown_lt {va : Nat} (h : va < UTOP) : ROUNDDOWN va PGSIZE < UTOP := by
  unfold ROUNDDOWN
  omega

theorem rounddown_aligned (va : Nat) : pageAligned (ROUNDDOWN va PGSIZE) := by
  unfold pageAligned ROUNDDOWN PGSIZE
  omega

/-- The allocator writes to frames of the free list only. -/
theorem page_alloc_keeps_data {k k1 : Kernel} {pt fl q : Nat}
    (h : page_alloc k fl = some (pt, k1)) (hq : q ∉ k.page_free_list) :
    frameData k1 q = frameData k q ∧ q ∉ k1.page_free_list ∧
    k1.pp_data.length = k.pp_data.length := by
  unfold page_alloc at h
  cases hf : k.page_free_list with
  | nil => simp [hf] at h
  | cons a rest =>
    rw [hf] at hq
    have hqa : a ≠ q := fun e => hq (by rw [e]; exact List.mem_cons_self _ _)
    have hqr : q ∉ rest := fun e => hq (List.mem_cons_of_mem _ e)
    simp only [hf] at h
    split_ifs at h
    · simp only [Option.some.injEq, Prod.mk.injEq] at h
      rw [← h.2]
      exact ⟨getD_set_ne _ _ hqa, hqr, List.length_set _ _ _⟩
    · simp only [Option.some.injEq, Prod.mk.injEq] at h
      rw [← h.2]
      exact ⟨rfl, hqr, rfl⟩

theorem page_decref_free_list (k : Kernel) (pp : Nat) :
    ∀ q, q ∈ (page_decref k pp).page_free_list → q = pp ∨ q ∈ k.page_free_list := by
  intro q hq
  unfold page_decref page_free at hq
  dsimp only at hq
  split_ifs at hq
  · rcases List.mem_cons.1 hq with h | h
    · exact Or.inl h
    · exact Or.inr h
  · exact Or.inr hq

theorem pgdir_walk_create_keeps_data {k k1 : Kernel} {t va q : Nat}
    (h : pgdir_walk_create k t va = some k1) (hq : q ∉ k.page_free_list) :
    frameData k1 q = frameData k q ∧ q ∉ k1.page_free_list ∧
    k1.pp_data.length = k.pp_data.length := by
  unfold pgdir_walk_create at h
  by_cases hw : ((env k t).env_pgdir.pgtables.lookup (PDX va)).isSome
  · rw [if_pos hw] at h
    rw [← Option.some.inj h]
    exact ⟨rfl, hq, rfl⟩
  · rw [if_neg hw] at h
    cases ha : page_alloc k ALLOC_ZERO with
    | none => simp [ha] at h
    | some r =>
      obtain ⟨pt, ka⟩ := r
      simp only [ha] at h
      rw [← Option.some.inj h]
      have h1 := page_alloc_keeps_data ha hq
      exact ⟨h1.1, h1.2.1, h1.2.2⟩

/-- The state `page_insert` builds once the page-table page is there. -/
theorem page_insert_eq {k k1 : Kernel} {t pp va perm : Nat}
    (h : page_insert k t pp va perm = .ok k1) :
    ∃ kw, pgdir_walk_create k t va = some kw ∧
      k1 = setPte (page_remove (page_incref kw pp) t va) t va { pp := pp, perm := perm } := by
  unfold page_insert at h
  cases hw : pgdir_walk_create k t va with
  | none => simp [hw] at h
  | some kw =>
    simp only [hw] at h
    exact ⟨kw, rfl, (Except.ok.inj h).symm⟩

theorem page_insert_keeps_data {k k1 : Kernel} {t pp va perm q : Nat}
    (h : page_insert k t pp va perm = .ok k1) (hq : q ∉ k.page_free_list) :
    frameData k1 q = frameData k q ∧ k1.pp_data.length = k.pp_data.length := by
  obtain ⟨kw, hw, rfl⟩ := page_insert_eq h
  have h1 := pgdir_walk_create_keeps_data hw hq
  have hd : (setPte (page_remove (page_incref kw pp) t va) t va
      { pp := pp, perm := perm }).pp_data = kw.pp_data := by
    show (page_remove (page_incref kw pp) t va).pp_data = kw.pp_data
    rw [page_remove_data]
    rfl
  unfold frameData
  rw [hd]
  exact ⟨h1.1, h1.2.2⟩

theorem tables_setEnv_ptes (k : Kernel) (t i : Nat) (ptes : List (Nat × Pte)) :
    (env (setEnv k t { env k t with env_pgdir :=
      { (env k t).env_pgdir with ptes := ptes } }) i).env_pgdir.pgtables
      = (env k i).env_pgdir.pgtables := by
  by_cases hi : i = t
  · subst hi
    by_cases ht : i < k.envs.length
    · rw [env_setEnv_self _ ht]
    · rw [env_default_of_ge (by rw [setEnv_length]; exact ht), env_default_of_ge ht]
  · rw [env_setEnv_other _ hi]

theorem page_remove_tables (k : Kernel) (t va i : Nat) :
    (env (page_remove k t va) i).env_pgdir.pgtables = (env k i).env_pgdir.pgtables := by
  unfold page_remove
  cases h : page_lookup k t va with
  | none => rfl
  | some pte =>
    dsimp only
    refine (tables_setEnv_ptes (page_decref k pte.pp) t i _).trans ?_
    rw [env_of_envs (page_decref_envs k pte.pp).1]

theorem pgdir_walk_create_tables {k k1 : Kernel} {t va : Nat}
    (h : pgdir_walk_create k t va = some k1) (i pdx : Nat)
    (hp : ((env k i).env_pgdir.pgtables.lookup pdx).isSome = true) :
    ((env k1 i).env_pgdir.pgtables.lookup pdx).isSome = true := by
  unfold pgdir_walk_create at h
  by_cases hw : ((env k t).env_pgdir.pgtables.lookup (PDX va)).isSome
  · rw [if_pos hw] at h
    rw [← Option.some.inj h]
    exact hp
  · rw [if_neg hw] at h
    cases ha : page_alloc k ALLOC_ZERO with
    | none => simp [ha] at h
    | some r =>
      obtain ⟨pt, ka⟩ := r
      simp only [ha] at h
      rw [← Option.some.inj h]
      have e1 : ∀ j, env { ka with pp_ref := ka.pp_ref.set pt 1 } j = env k j :=
        fun j => env_of_envs (page_alloc_envs ha).1 j
      by_cases hi : i = t
      · subst hi
        by_cases ht : i < ({ ka with pp_ref := ka.pp_ref.set pt 1 } : Kernel).envs.length
        · rw [env_setEnv_self _ ht]
          show (List.lookup pdx ((PDX va, pt) :: _)).isSome = true
          rw [List.lookup_cons]
          cases hb : (pdx == PDX va)
          · rw [e1 i]
            exact hp
          · rfl
        · rw [env_default_of_ge (by rw [setEnv_length]; exact ht), ← env_default_of_ge ht, e1 i]
          exact hp
      · rw [env_setEnv_other _ hi, e1 i]
        exact hp

theorem page_insert_tables {k k1 : Kernel} {t pp va perm : Nat}
    (h : page_insert k t pp va perm = .ok k1) (i pdx : Nat)
    (hp : ((env k i).env_pgdir.pgtables.lookup pdx).isSome = true) :
    ((env k1 i).env_pgdir.pgtables.lookup pdx).isSome = true := by
  obtain ⟨kw, hw, rfl⟩ := page_insert_eq h
  have h1 := pgdir_walk_create_tables hw i pdx hp
  unfold setPte
  rw [tables_setEnv_ptes, page_remove_tables]
  exact h1

theorem sys_page_unmap_ok {k : Kernel} {cur envid va t : Nat}
    (hva : va < UTOP) (hal : pageAligned va)
    (ht : envid2env k cur envid true = .ok t) :
    sys_page_unmap k cur envid va = .ret 0 (page_remove k t va) := by
  have hc : ¬ (va ≥ UTOP ∨ ROUNDDOWN va PGSIZE ≠ va) := by
    rw [rounddown_eq_of_aligned hal]
    intro h
    rcases h with h | h
    · omega
    · exact h rfl
  unfold sys_page_unmap
  rw [if_neg hc]
  simp only [ht]

theorem sys_page_alloc_ok {k k1 k2 : Kernel} {cur envid va perm t pp : Nat}
    (hs : staticOK va perm) (ht : envid2env k cur envid true = .ok t)
    (ha : page_alloc k ALLOC_ZERO = some (pp, k1))
    (hi : page_insert k1 t pp va perm = .ok k2) :
    sys_page_alloc k cur envid va perm = .ret 0 k2 := by
  rw [sys_page_alloc_static hs]
  simp only [ht, ha, hi]

theorem bits_UW (pp : Nat) : ({ pp := pp, perm := PTE_U ||| PTE_W } : Pte).bits &&& PTE_W ≠ 0 := by
  show (PTE_U ||| PTE_W ||| PTE_P) &&& PTE_W ≠ 0
  decide

theorem memmove_page_spec {k : Kernel} {cur dst src : Nat} {d s : Pte}
    (hd : page_lookup k cur dst = some d) (hs : page_lookup k cur src = some s)
    (hw : d.bits &&& PTE_W ≠ 0) :
    ∃ k3, memmove_page k cur dst src = some k3 ∧ k3.envs = k.envs ∧ k3.cpus = k.cpus ∧
      k3.pp_data = k.pp_data.set d.pp (k.pp_data.getD s.pp []) ∧
      k3.page_free_list = k.page_free_list := by
  refine ⟨{ k with pp_data := k.pp_data.set d.pp (k.pp_data.getD s.pp []) }, ?_, rfl, rfl, rfl,
    rfl⟩
  unfold memmove_page
  rw [hd, hs]
  dsimp only
  rw [if_pos hw]

theorem page_insert_present_spec {k : Kernel} {t va : Nat} (pp perm : Nat)
    (h : ((env k t).env_pgdir.pgtables.lookup (PDX va)).isSome = true) :
    ∃ k1, page_insert k t pp va perm = .ok k1 ∧ k1.pp_data = k.pp_data := by
  refine ⟨_, page_insert_present pp perm h, ?_⟩
  show (page_remove (page_incref k pp) t va).pp_data = k.pp_data
  rw [page_remove_data]
  rfl

/-- The handler on a write fault on a copy-on-write page that is not the
scratch page: the three system calls succeed, the page of `addr` is mapped
with `PTE_U | PTE_W` to the frame `pp` taken from the head of the free list,
which holds the bytes of the old frame, and the scratch page is unmapped. -/
theorem pgfault_cow {k k1 k2 : Kernel} {cpu cur addr err pp : Nat} {old : Pte}
    (hc : curenv k cpu = some cur) (hcur : cur < NENV k)
    (hwr : err &&& FEC_WR ≠ 0) (haddr : addr < UTOP)
    (hmap : page_lookup k cur addr = some old) (hcow : old.bits &&& PTE_COW ≠ 0)
    (hnt : PGNUM addr ≠ PGNUM PFTEMP)
    (hpt : ((env k cur).env_pgdir.pgtables.lookup (PDX addr)).isSome = true)
    (hq : old.pp ∉ k.page_free_list) (hlen : pp < k.pp_data.length)
    (ha : page_alloc k ALLOC_ZERO = some (pp, k1))
    (hi : page_insert k1 cur pp PFTEMP (PTE_U ||| PTE_W) = .ok k2) :
    ∃ k5, pgfault k cpu cur addr err = .ret 0 k5 ∧
      page_lookup k5 cur addr = some { pp := pp, perm := PTE_U ||| PTE_W } ∧
      page_lookup k5 cur PFTEMP = none ∧
      frameData k5 pp = frameData k old.pp ∧
      (∀ va2, PGNUM va2 ≠ PGNUM addr → PGNUM va2 ≠ PGNUM PFTEMP →
        page_lookup k5 cur va2 = page_lookup k cur va2) ∧
      pgdirFrame k k5 cur ∧
      (∀ q, q ≠ pp → q ∉ k.page_free_list → frameData k5 q = frameData k q) ∧
      k5.pp_data.length = k.pp_data.length := by
  have hUW : staticOK PFTEMP (PTE_U ||| PTE_W) :=
    ⟨bitsWithin_of_land (by decide), by decide, by decide, by decide⟩
  have hRA : staticOK (ROUNDDOWN addr PGSIZE) (PTE_U ||| PTE_W) :=
    ⟨bitsWithin_of_land (by decide), by decide, rounddown_lt haddr, rounddown_aligned addr⟩
  have hnr : PGNUM (ROUNDDOWN addr PGSIZE) ≠ PGNUM PFTEMP := by
    rw [PGNUM_rounddown]
    exact hnt
  have e1 := page_alloc_envs ha
  have hfr2 := page_insert_frame hi
  have hcl1 : cur < k1.envs.length := by
    rw [e1.1]
    exact hcur
  have hcl2 : cur < k2.envs.length := by
    rw [hfr2.1]
    exact hcl1
  -- the first call
  have s1 : sys_page_alloc k cur 0 PFTEMP (PTE_U ||| PTE_W) = .ret 0 k2 :=
    sys_page_alloc_ok hUW (envid2env_self k cur true) ha hi
  have L1 : page_lookup k2 cur PFTEMP = some { pp := pp, perm := PTE_U ||| PTE_W } :=
    page_lookup_insert hcl1 hi
  have L2 : page_lookup k2 cur (ROUNDDOWN addr PGSIZE) = some old := by
    rw [page_insert_other hi _ hnr, page_lookup_of_env (env_of_envs e1.1 cur),
      page_lookup_pgnum k cur (PGNUM_rounddown addr)]
    exact hmap
  have hq1 := page_alloc_keeps_data ha hq
  have hd2 := page_insert_keeps_data hi hq1.2.1
  have hlen2 : pp < k2.pp_data.length := by
    rw [hd2.2, hq1.2.2]
    exact hlen
  have hc2 : curenv k2 cpu = some cur := by
    rw [curenv_of_cpus (hfr2.2.1.trans e1.2)]
    exact hc
  -- the copy
  obtain ⟨k3, hmm, h3e, h3c, h3d, -⟩ := memmove_page_spec L1 L2 (bits_UW pp)
  have hc3 : curenv k3 cpu = some cur := by
    rw [curenv_of_cpus h3c]
    exact hc2
  have L3 : page_lookup k3 cur PFTEMP = some { pp := pp, perm := PTE_U ||| PTE_W } :=
    (page_lookup_of_env (env_of_envs h3e cur) _).trans L1
  have hpt3 : ((env k3 cur).env_pgdir.pgtables.lookup
      (PDX (ROUNDDOWN addr PGSIZE))).isSome = true := by
    rw [PDX_rounddown, env_of_envs h3e]
    refine page_insert_tables hi cur _ ?_
    rw [env_of_envs e1.1]
    exact hpt
  -- the second call
  obtain ⟨k4, hi4, h4d⟩ := page_insert_present_spec pp (PTE_U ||| PTE_W) hpt3
  have s2 : sys_page_map k3 cur 0 PFTEMP 0 (ROUNDDOWN addr PGSIZE) (PTE_U ||| PTE_W)
      = .ret 0 k4 :=
    sys_page_map_ok hUW hRA (envid2env_self k3 cur true) (envid2env_self k3 cur true) L3
      (fun h => absurd h.1 (bits_UW pp)) hi4
  have hfr4 := page_insert_frame hi4
  have hcl3 : cur < k3.envs.length := by
    rw [h3e]
    exact hcl2
  have hcl4 : cur < k4.envs.length := by
    rw [hfr4.1]
    exact hcl3
  have L4a := page_lookup_insert hcl3 hi4
  have L4b := (page_insert_other hi4 PFTEMP (fun h => hnr h.symm)).trans L3
  have hc4 : curenv k4 cpu = some cur := by
    rw [curenv_of_cpus hfr4.2.1]
    exact hc3
  -- the third call
  have s3 : sys_page_unmap k4 cur 0 PFTEMP = .ret 0 (page_remove k4 cur PFTEMP) :=
    sys_page_unmap_ok (by decide) (by decide) (envid2env_self k4 cur true)
  have hvpt : vpt k cur (PGNUM addr) = old.bits :=
    vpt_of_lookup ((page_lookup_pgnum k cur (PGNUM_mul (PGNUM addr))).trans hmap)
  refine ⟨page_remove k4 cur PFTEMP, ?_, ?_, page_lookup_remove _ cur PFTEMP hcl4, ?_, ?_, ?_,
    ?_, ?_⟩
  · unfold pgfault
    dsimp only
    rw [if_neg hwr, hvpt, if_neg hcow, syscall_page_alloc hc, s1]
    simp only [lt_irrefl, if_false]
    rw [hmm]
    dsimp only
    rw [syscall_page_map hc3, s2]
    simp only [lt_irrefl, if_false]
    rw [syscall_page_unmap hc4, s3]
    simp only [lt_irrefl, if_false]
  · rw [← page_lookup_pgnum _ cur (PGNUM_rounddown addr), page_remove_other _ cur PFTEMP _ hnr]
    exact L4a
  · unfold frameData
    rw [page_remove_data, h4d, h3d, getD_set_eq _ _ hlen2]
    exact hd2.1.trans hq1.1
  · intro va2 h1 h2
    rw [page_remove_other _ cur PFTEMP va2 h2,
      page_insert_other hi4 va2 (by rw [PGNUM_rounddown]; exact h1),
      page_lookup_of_env (env_of_envs h3e cur), page_insert_other hi va2 h2,
      page_lookup_of_env (env_of_envs e1.1 cur)]
  · exact pgdirFrame_trans (pgdirFrame_of_envs e1.1 e1.2)
      (pgdirFrame_trans hfr2 (pgdirFrame_trans (pgdirFrame_of_envs h3e h3c)
        (pgdirFrame_trans hfr4 (page_remove_frame _ cur PFTEMP))))
  · intro q hqp hqf
    have a1 := page_alloc_keeps_data ha hqf
    have a2 := page_insert_keeps_data hi a1.2.1
    unfold frameData
    rw [page_remove_data, h4d, h3d, getD_set_ne _ _ (fun h => hqp h.symm)]
    exact a2.1.trans a1.1
  · rw [page_remove_data, h4d, h3d, List.length_set, hd2.2, hq1.2.2]

/-- Counterexample to C27 as stated: in `cowScratch` the user environment has a
copy-on-write page at the scratch address `PFTEMP` itself.  On a write fault
there the handler reaches no panic, but it allocates over the faulting page,
copies the new page onto itself and unmaps it: afterwards the page that
contains the faulting address is not mapped. -/
theorem pgfault_scratch_counterexample :
    curenv cowScratch 0 = some 1 ∧
    page_lookup cowScratch 1 PFTEMP = some { pp := 6, perm := PTE_U ||| PTE_COW } ∧
    vpt cowScratch 1 (PGNUM PFTEMP) &&& PTE_COW ≠ 0 ∧
    PFTEMP < UTOP ∧ FEC_WR &&& FEC_WR ≠ 0 ∧
    (page_alloc cowScratch ALLOC_ZERO).isSome = true ∧
    pgfault cowScratch 0 1 PFTEMP FEC_WR = .ret 0 (pgfault cowScratch 0 1 PFTEMP FEC_WR).state ∧
    page_lookup (pgfault cowScratch 0 1 PFTEMP FEC_WR).state 1 PFTEMP = none := by
  decide

/-- Claim C27, amended: the faulting page is not the scratch page.  Let the
environment `cur` run `pgfault` on the fault record `(addr, err)` with `addr`
below `UTOP`.  When `err` lacks the write bit or the page of `addr` lacks
`PTE_COW`, `pgfault` panics before any system call, the state unchanged.  When
`err` has the write bit, the page of `addr` is mapped with `PTE_COW`, is not
the page of `PFTEMP`, has its page-table page and a frame that is not free,
and the paging layer can allocate the frame `pp` and insert it at `PFTEMP`,
`pgfault` returns without a panic: its three calls pass the static checks, the
page of `addr` is mapped with `PTE_U | PTE_W` to `pp`, the former head of the
free list, which holds the bytes of the old frame; `PFTEMP` is unmapped; the
other mappings and the other environments are as before. -/
theorem cow_fault_handler (k : Kernel) (cpu cur addr err : Nat)
    (hc : curenv k cpu = some cur) (hcur : cur < NENV k) (haddr : addr < UTOP) :
    ((err &&& FEC_WR = 0 ∨ vpt k cur (PGNUM addr) &&& PTE_COW = 0) →
      pgfault k cpu cur addr err = .upanic k) ∧
    (∀ (old : Pte) (pp : Nat) (k1 k2 : Kernel), err &&& FEC_WR ≠ 0 →
      page_lookup k cur addr = some old → vpt k cur (PGNUM addr) &&& PTE_COW ≠ 0 →
      PGNUM addr ≠ PGNUM PFTEMP →
      ((env k cur).env_pgdir.pgtables.lookup (PDX addr)).isSome = true →
      old.pp ∉ k.page_free_list → pp < k.pp_data.length →
      page_alloc k ALLOC_ZERO = some (pp, k1) →
      page_insert k1 cur pp PFTEMP (PTE_U ||| PTE_W) = .ok k2 →
      ∃ k5, pgfault k cpu cur addr err = .ret 0 k5 ∧
        page_lookup k5 cur addr = some { pp := pp, perm := PTE_U ||| PTE_W } ∧
        k.page_free_list = pp :: k1.page_free_list ∧
        frameData k5 pp = frameData k old.pp ∧
        page_lookup k5 cur PFTEMP = none ∧
        (∀ va2, PGNUM va2 ≠ PGNUM addr → PGNUM va2 ≠ PGNUM PFTEMP →
          page_lookup k5 cur va2 = page_lookup k cur va2) ∧
        pgdirFrame k k5 cur) ∧
    staticOK PFTEMP (PTE_U ||| PTE_W) ∧ staticOK (ROUNDDOWN addr PGSIZE) (PTE_U ||| PTE_W) := by
  refine ⟨?_, ?_, ⟨bitsWithin_of_land (by decide), by decide, by decide, by decide⟩,
    ⟨bitsWithin_of_land (by decide), by decide, rounddown_lt haddr, rounddown_aligned addr⟩⟩
  · intro h
    unfold pgfault
    dsimp only
    by_cases hw : err &&& FEC_WR = 0
    · rw [if_pos hw]
    · rw [if_neg hw]
      rcases h with h | h
      · exact absurd h hw
      · rw [if_pos h]
  · intro old pp k1 k2 hwr hmap hcow hnt hpt hq hlen ha hi
    have hvpt : vpt k cur (PGNUM addr) = old.bits :=
      vpt_of_lookup ((page_lookup_pgnum k cur (PGNUM_mul (PGNUM addr))).trans hmap)
    rw [hvpt] at hcow
    obtain ⟨k5, h1, h2, h3, h4, h5, h6, -⟩ :=
      pgfault_cow hc hcur hwr haddr hmap hcow hnt hpt hq hlen ha hi
    exact ⟨k5, h1, h2, (page_alloc_zero ha).2.1, h4, h3, h5, h6⟩

/-- Witness of C27: in `dupped` the parent (slot 1) has its page 1
copy-on-write on frame 2, which holds `0xAA` at offset 0.  On a write fault at
`0x1004` the handler maps the page to the fresh frame 8 with `PTE_U | PTE_W`;
frame 8 holds `0xAA` at offset 0.  On a read fault the handler panics. -/
theorem cow_fault_handler_witness :
    curenv dupped 0 = some 1 ∧ 1 < NENV dupped ∧ 0x1004 < UTOP ∧
    page_lookup dupped 1 0x1004 = some { pp := 2, perm := PTE_U ||| PTE_COW } ∧
    frameData dupped 2 = [(0, 0xAA)] ∧
    (∃ k5, pgfault dupped 0 1 0x1004 FEC_WR = .ret 0 k5 ∧
      page_lookup k5 1 0x1004 = some { pp := 8, perm := PTE_U ||| PTE_W } ∧
      frameData k5 8 = frameData dupped 2 ∧
      page_lookup k5 1 PFTEMP = none) ∧
    pgfault dupped 0 1 0x1004 0 = .upanic dupped := by
  refine ⟨by decide, by decide, by decide, by decide, by decide, ?_,
    (cow_fault_handler dupped 0 1 0x1004 0 (by decide) (by decide) (by decide)).1
      (Or.inl (by decide))⟩
  obtain ⟨k5, h1, h2, -, h4, h5, -, -⟩ :=
    (cow_fault_handler dupped 0 1 0x1004 FEC_WR (by decide) (by decide) (by decide)).2.1
      { pp := 2, perm := PTE_U ||| PTE_COW } 8
      { dupped with page_free_list := [9, 10, 11], pp_data := dupped.pp_data.set 8 [] }
      (syscall dupped 0 SYS_page_alloc 0 PFTEMP (PTE_U ||| PTE_W) 0 0).state
      (by decide) (by decide) (by decide) (by decide) (by decide) (by decide) (by decide)
      (by decide) (by decide)
  exact ⟨k5, h1, h2, h4, h5⟩

/-! ## The allocator during `fork` -/

/-- The call `sys_env_set_pgfault_upcall` on a child returns with the entry
point recorded, or with the child destroyed. -/
theorem set_upcall_other {k k2 : Kernel} {cpu cur envid upcall c : Nat} {e : Int}
    (hcur : cur < NENV k) (ht : envid2env k cur envid true = .ok c)
    (h : sys_env_set_pgfault_upcall k cpu cur envid upcall = .ret e k2) :
    k2 = setEnv k c { env k c with env_pgfault_upcall := upcall } ∨
    (env k2 c).env_status = ENV_FREE := by
  by_cases hck : user_mem_check k c upcall 4 PTE_U = true
  · left
    unfold sys_env_set_pgfault_upcall at h
    simp only [ht] at h
    unfold user_mem_assert at h
    have hpu : PTE_U ||| PTE_U = PTE_U := by decide
    rw [hpu, if_pos hck] at h
    exact (ret_inj h).2.symm
  · right
    have hb : user_mem_check k c upcall 4 PTE_U = false := by
      cases hv : user_mem_check k c upcall 4 PTE_U
      · rfl
      · exact absurd hv hck
    have hf := @upcall_bad_func_frees k cpu cur envid upcall c hcur ht hb
    rw [h] at hf
    exact hf

theorem forkMachine_frames :
    forkMachine.pp_data.getD 2 [] = [(0, 0xAA)] ∧
    forkMachine.page_free_list = [6, 7, 8, 9, 10, 11, 12, 13, 14, 15, 16, 17] ∧
    userWrite forkStart 0 1 0x1000 0xAA = .ret 0 forkMachine := by
  decide

end Zjos
